import Mathlib

/-!
# SoftOffload agent (`elements/local/agent/sdnagent.cc`): shallow embedding

The Click element `SdnAgent` is embedded as pure functions over an explicit
agent state.  Packets are byte lists, C struct fields are record fields, the
options area of a DHCP message is a byte buffer written through a cursor, and
everything the element pushes on an output port is appended to a log kept in
the state.  Multi-byte header fields are kept as the number their wire bytes
denote (most significant byte first), so copying a field, testing it for zero
and comparing two fields do not depend on the byte order of the host.
-/

namespace SoftOffload

/-! ## Basic types -/

/-- Packet data: the bytes of a Click `Packet`, first byte first. -/
abbrev Packet := List Nat

/-- Six-byte hardware address (`EtherAddress`), as its bytes. -/
abbrev EtherAddress := List Nat

/-- IPv4 address (`IPAddress`): the number denoted by its four wire bytes, so
10.0.0.1 is `0x0A000001`; the zero address is the "false" address of the C++
truth test `!addr`. -/
abbrev IPAddress := Nat

/-- Click `Timestamp`: whole seconds and a sub-second part. -/
structure Timestamp where
  sec : Int
  subsec : Nat
deriving DecidableEq, Repr

/-- Comparison `a < b` of two timestamps: seconds first, then the sub-second part. -/
def Timestamp.lt (a b : Timestamp) : Bool :=
  decide (a.sec < b.sec) || (decide (a.sec = b.sec) && decide (a.subsec < b.subsec))

/-- Smoothed byte-rate counter of a client or of the agent.  The estimator class
is declared outside this file of the element; the embedding keeps the samples
handed to `update`, oldest first. -/
structure RateEstimator where
  samples : List Nat
deriving DecidableEq, Repr

/-- Rate estimator as left by its default constructor. -/
def RateEstimator.fresh : RateEstimator := ⟨[]⟩

/-- Entry of the client table (`Client` in `sdnagent.hh`). -/
structure Client where
  _mac : EtherAddress
  _ipaddr : IPAddress
  _byte_up_rate : RateEstimator
  _byte_down_rate : RateEstimator
deriving DecidableEq, Repr

/-! ## `HashTable<K, V>` as an association list with unique keys -/

/-- Click `HashTable<K, V>`: key/value pairs, at most one per key. -/
abbrev HashTable (K V : Type) := List (K × V)

/-- Lookup `t.find(k)`: the value stored under `k`, `none` standing for `t.end()`. -/
def HashTable.find {K V : Type} [DecidableEq K] : HashTable K V → K → Option V
  | [], _ => none
  | (k', v) :: rest, k => if k' = k then some v else HashTable.find rest k

/-- Store `t.set(k, v)`: replaces the value under `k`, or adds the pair. -/
def HashTable.set {K V : Type} [DecidableEq K] : HashTable K V → K → V → HashTable K V
  | [], k, v => [(k, v)]
  | (k', v') :: rest, k, v =>
    if k' = k then (k, v) :: rest else (k', v') :: HashTable.set rest k v

/-- Removal `t.erase(k)`: drops what is stored under `k`, if anything, so that
`k` is no longer a key. -/
def HashTable.erase {K V : Type} [DecidableEq K] : HashTable K V → K → HashTable K V
  | [], _ => []
  | (k', v') :: rest, k =>
    if k' = k then HashTable.erase rest k else (k', v') :: HashTable.erase rest k

/-! ## Leases and the lease table collaborator -/

/-- Lease record of the lease table (`Lease` of the DHCP lease table element). -/
structure Lease where
  _eth : EtherAddress
  _ip : IPAddress
  _start : Timestamp
  _end : Timestamp
  _duration : Timestamp
  _valid : Bool
deriving DecidableEq, Repr

/-- Lease table element (`DHCPLeaseTable`): its own address, subnet and DNS
server, and the leases reachable by `rev_lookup`, keyed by hardware address. -/
structure DHCPLeaseTable where
  _ip : IPAddress
  _eth : EtherAddress
  _subnet : IPAddress
  _dns : IPAddress
  _leases : HashTable EtherAddress Lease
deriving DecidableEq, Repr

/-- Reverse lookup `_leases->rev_lookup(eth)`: the lease bound to a hardware
address, `none` standing for the null pointer. -/
def DHCPLeaseTable.rev_lookup (t : DHCPLeaseTable) (eth : EtherAddress) : Option Lease :=
  HashTable.find t._leases eth

/-- Write through a `Lease *` obtained from `rev_lookup(eth)`: the table's
record for `eth` becomes `l`. -/
def DHCPLeaseTable.store (t : DHCPLeaseTable) (eth : EtherAddress) (l : Lease) :
    DHCPLeaseTable :=
  { t with _leases := HashTable.set t._leases eth l }

/-- Call made to the lease collaborator that is not a plain lookup. -/
inductive LeaseCall where
  | new_lease_any (eth : EtherAddress)
  | extend (eth : EtherAddress)
deriving DecidableEq, Repr

/-! ## Wire constants and the DHCP message layout -/

/-- Modelled from the spec: `sizeof(click_ether)` of `clicknet/ether.h`, which
is not among the sources; the Ethernet header is 14 bytes (destination, source,
ethertype). -/
def sizeof_click_ether : Nat := 14
/-- Modelled from the spec: `sizeof(click_ip)`, the 20-byte IP header of five
32-bit words. -/
def sizeof_click_ip : Nat := 20
/-- Modelled from the spec: `sizeof(click_udp)`, the 8-byte UDP header. -/
def sizeof_click_udp : Nat := 8
/-- Modelled from the spec: the ethertype of IPv4. -/
def ETHERTYPE_IP : Nat := 0x0800

/-- Modelled from the spec: the constants of `dhcp/dhcp_common.hh`, which is not
among the sources; the values are those of the DHCP wire format the
specification names (BOOTREPLY opcode). -/
def DHCP_BOOTREPLY : Nat := 2
/-- Modelled from the spec: hardware type Ethernet (`ARPHRD_ETHER`). -/
def ARPHRD_ETHER : Nat := 1
/-- Modelled from the spec: the magic cookie, as the number its four wire bytes
63 82 53 63 (hex) denote. -/
def DHCP_MAGIC : Nat := 0x63825363
/-- Modelled from the spec: message type ACK. -/
def DHCP_ACK : Nat := 5
/-- Modelled from the spec: message type NAK. -/
def DHCP_NACK : Nat := 6
/-- Modelled from the spec: option code of the subnet mask. -/
def DHO_SUBNET_MASK : Nat := 1
/-- Modelled from the spec: option code of the router list. -/
def DHO_ROUTERS : Nat := 3
/-- Modelled from the spec: option code of the DNS server list. -/
def DHO_DOMAIN_NAME_SERVERS : Nat := 6
/-- Modelled from the spec: option code of the requested address. -/
def DHO_DHCP_REQUESTED_ADDRESS : Nat := 50
/-- Modelled from the spec: option code of the lease time. -/
def DHO_DHCP_LEASE_TIME : Nat := 51
/-- Modelled from the spec: option code of the message type. -/
def DHO_DHCP_MESSAGE_TYPE : Nat := 53
/-- Modelled from the spec: option code of the server identifier. -/
def DHO_DHCP_SERVER_IDENTIFIER : Nat := 54
/-- Modelled from the spec: the end marker of the options block. -/
def DHO_END : Nat := 255
/-- Modelled from the spec: size of the options area of `dhcpMessage`. -/
def DHCP_OPTIONS_SIZE : Nat := 312

/-- Number denoted by a run of bytes, most significant first. -/
def be (bs : List Nat) : Nat := bs.foldl (fun acc b => acc * 256 + b) 0

/-- The four wire bytes of a 32-bit quantity, most significant first: what
`memcpy` of a network-order `uint32_t` (an `IPAddress`, or `htonl(x)`) writes. -/
def be32 (v : Nat) : List Nat :=
  [v / 16777216 % 256, v / 65536 % 256, v / 256 % 256, v % 256]

/-- Bytes `p[off], ..., p[off + n - 1]` of a buffer.  The element never checks a
length before reading; a byte past the end of the buffer reads as 0 here. -/
def bytesAt (p : Packet) (off n : Nat) : List Nat :=
  (List.range n).map (fun i => p.getD (off + i) 0)

/-- Record `dhcpMessage` of `dhcp/dhcp_common.hh` (BOOTP layout, no padding). -/
structure dhcpMessage where
  op : Nat
  htype : Nat
  hlen : Nat
  hops : Nat
  xid : Nat
  secs : Nat
  flags : Nat
  ciaddr : Nat
  yiaddr : Nat
  siaddr : Nat
  giaddr : Nat
  chaddr : List Nat
  sname : List Nat
  file : List Nat
  magic : Nat
  options : List Nat
deriving DecidableEq, Repr

/-- Cast `(dhcpMessage *)(p->data() + off)`: the message whose first byte is byte
`off` of the packet. -/
def dhcpMessage.cast (p : Packet) (off : Nat) : dhcpMessage :=
  { op := p.getD off 0
    htype := p.getD (off + 1) 0
    hlen := p.getD (off + 2) 0
    hops := p.getD (off + 3) 0
    xid := be (bytesAt p (off + 4) 4)
    secs := be (bytesAt p (off + 8) 2)
    flags := be (bytesAt p (off + 10) 2)
    ciaddr := be (bytesAt p (off + 12) 4)
    yiaddr := be (bytesAt p (off + 16) 4)
    siaddr := be (bytesAt p (off + 20) 4)
    giaddr := be (bytesAt p (off + 24) 4)
    chaddr := bytesAt p (off + 28) 16
    sname := bytesAt p (off + 44) 64
    file := bytesAt p (off + 108) 128
    magic := be (bytesAt p (off + 236) 4)
    options := bytesAt p (off + 240) DHCP_OPTIONS_SIZE }

/-- Message after `memset(q->data(), 0, q->length())`. -/
def dhcpMessage.zeroed : dhcpMessage :=
  { op := 0, htype := 0, hlen := 0, hops := 0, xid := 0, secs := 0, flags := 0
    ciaddr := 0, yiaddr := 0, siaddr := 0, giaddr := 0
    chaddr := List.replicate 16 0
    sname := List.replicate 64 0
    file := List.replicate 128 0
    magic := 0
    options := List.replicate DHCP_OPTIONS_SIZE 0 }

/-- Write cursor into the options area: the buffer and `options_ptr` as an index. -/
structure OptCursor where
  buf : List Nat
  ptr : Nat
deriving DecidableEq, Repr

/-- Statement `*options_ptr++ = b`. -/
def OptCursor.put (c : OptCursor) (b : Nat) : OptCursor :=
  { buf := c.buf.set c.ptr b, ptr := c.ptr + 1 }

/-- Statements `memcpy(options_ptr, &v, 4); options_ptr += 4` for a 32-bit `v`
held in network byte order. -/
def OptCursor.put32 (c : OptCursor) (v : Nat) : OptCursor :=
  (be32 v).foldl OptCursor.put c

/-- Statement `*options_ptr = b` (no increment). -/
def OptCursor.poke (c : OptCursor) (b : Nat) : OptCursor :=
  { c with buf := c.buf.set c.ptr b }

/-! ## Text helpers of the controller line protocol -/

/-- Lower-case hexadecimal digit of a value below 16. -/
def hexDigit (n : Nat) : Char :=
  if n < 10 then Char.ofNat (48 + n) else Char.ofNat (87 + n)

/-- Modelled from the spec: `EtherAddress::unparse_colon()`, which is not among
the sources; the specification's `<mac-colon-hex>` is two lower-case
hexadecimal digits per byte, bytes separated by colons. -/
def unparse_colon (e : EtherAddress) : String :=
  String.intercalate ":" (e.map (fun b => String.mk [hexDigit (b / 16 % 16), hexDigit (b % 16)]))

/-- Modelled from the spec: `IPAddress::unparse()`, which is not among the
sources; the specification's `<ip-dotted>` is the four bytes in decimal,
separated by dots. -/
def unparse_ip (ip : IPAddress) : String :=
  String.intercalate "." ((be32 ip).map Nat.repr)

/-- Bytes of a string payload (`_payload.data()`, `_payload.length()`). -/
def strBytes (s : String) : List Nat := s.toList.map Char.toNat

/-! ## Agent state -/

/-- Frame carrying a DHCP reply as it is pushed to a client: the link header the
element writes itself, the address handed to `push_dhcp_udp_header` (which
builds the IP and UDP headers and is not among the sources), and the DHCP
message. -/
structure DhcpReply where
  ether_shost : List Nat
  ether_dhost : List Nat
  ether_type : Nat
  udp_src : IPAddress
  msg : dhcpMessage
deriving DecidableEq, Repr

/-- What is handed to `output(port).push`. -/
inductive Pushed where
  | data (bytes : List Nat)
  | dhcp (r : DhcpReply)
deriving DecidableEq, Repr

/-- State of the element: its configuration, the lease table it points to, the
client table, the aggregate rate counters, and two logs: the packets pushed so
far (port, packet), oldest first, and the calls made to the lease collaborator.
The last field is the counter `static atomic_uint32_t id` of
`push_udp_to_client`, zero when the process starts. -/
structure SdnAgent where
  _mac : EtherAddress
  _ipaddr : IPAddress
  _interval : Nat
  _leases : DHCPLeaseTable
  _client_table : HashTable EtherAddress Client
  _byte_up_rate : RateEstimator
  _byte_down_rate : RateEstimator
  pushed : List (Nat × Pushed)
  lease_calls : List LeaseCall
  ip_id : Nat := 0
deriving DecidableEq, Repr

/-- Statement `output(port).push(pkt)`. -/
def SdnAgent.output_push (a : SdnAgent) (port : Nat) (pkt : Pushed) : SdnAgent :=
  { a with pushed := a.pushed ++ [(port, pkt)] }

/-- Method `SdnAgent::add_client`: a new `Client` is stored only when the
address is not yet a key of the client table. -/
def add_client (a : SdnAgent) (eth : EtherAddress) (ip : IPAddress) : SdnAgent :=
  if HashTable.find a._client_table eth = none then
    let new_client : Client :=
      { _mac := eth, _ipaddr := ip
        _byte_up_rate := RateEstimator.fresh, _byte_down_rate := RateEstimator.fresh }
    { a with _client_table := HashTable.set a._client_table eth new_client }
  else a

/-! ## DHCP replies -/

/-- Surroundings of one call that are not among the sources: the option
scanner `DHCPOptionUtil::fetch(p, code, len)` (the option's data bytes, `none`
for the null pointer), the allocator `_leases->new_lease_any(eth)` (the lease it
hands out, if any, and the lease table it leaves behind), `Lease::extend()` as a
function of the clock, the reading of the clock `Timestamp::now()`, and
`tail_memory`, the bytes that lie in memory right behind the data of the packet
handed to `push`: they are what the controller channel, which never looks at
the packet's length, reads once it is past the last byte of the packet. -/
structure Env where
  fetch : Packet → Nat → Nat → Option (List Nat)
  new_lease_any : DHCPLeaseTable → EtherAddress → Option Lease × DHCPLeaseTable
  extend : Timestamp → Lease → Lease
  now : Timestamp
  tail_memory : List Nat

/-- Constructor `IPAddress(const unsigned char *)`: the address held in the four
bytes pointed to. -/
def IPAddress.ofData (o : List Nat) : IPAddress := be (bytesAt o 0 4)

/-- Constructor `EtherAddress(const unsigned char *)`: the first six bytes. -/
def EtherAddress.ofData (o : List Nat) : EtherAddress := o.take 6

/-- Options block of an ACK (lines 372-409 of `make_ack_packet`), written
through `options_ptr` into the zeroed options area. -/
def make_ack_options (t : DHCPLeaseTable) (lease : Lease) : List Nat :=
  let c : OptCursor := { buf := List.replicate DHCP_OPTIONS_SIZE 0, ptr := 0 }
  let c := c.put DHO_DHCP_MESSAGE_TYPE
  let c := c.put 1
  let c := c.put DHCP_ACK
  let c := c.put DHO_DHCP_LEASE_TIME
  let c := c.put 4
  let duration : Nat := (lease._duration.sec % 4294967296).toNat
  let c := c.put32 duration
  let c := c.put DHO_DHCP_SERVER_IDENTIFIER
  let c := c.put 4
  let server_ip := t._ip
  let c := c.put32 server_ip
  let c := c.put DHO_SUBNET_MASK
  let server_mask := t._subnet
  let c := c.put 4
  let c := c.put32 server_mask
  let c := c.put DHO_ROUTERS
  let router := t._ip
  let c := c.put 4
  let c := c.put32 router
  let c := c.put DHO_DOMAIN_NAME_SERVERS
  let dns := t._dns
  let c := c.put 4
  let c := c.put32 dns
  let c := c.poke DHO_END
  c.buf

/-- Method `SdnAgent::make_ack_packet`: the ACK message for `lease`, and the
agent after the "new client" line has been pushed on output 0 (only when the
client hardware address is not yet in the client table) and `add_client` has
run. -/
def make_ack_packet (a : SdnAgent) (p : Packet) (lease : Lease) : dhcpMessage × SdnAgent :=
  let req_msg := dhcpMessage.cast p (sizeof_click_ether + sizeof_click_udp + sizeof_click_ip)
  let dhcp_ack := dhcpMessage.zeroed
  let dhcp_ack := { dhcp_ack with op := DHCP_BOOTREPLY }
  let dhcp_ack := { dhcp_ack with htype := ARPHRD_ETHER }
  let dhcp_ack := { dhcp_ack with hlen := 6 }
  let dhcp_ack := { dhcp_ack with hops := 0 }
  let dhcp_ack := { dhcp_ack with xid := req_msg.xid }
  let dhcp_ack := { dhcp_ack with secs := 0 }
  let dhcp_ack := { dhcp_ack with flags := 0 }
  let dhcp_ack := { dhcp_ack with ciaddr := req_msg.ciaddr }
  let dhcp_ack := { dhcp_ack with yiaddr := lease._ip }
  let dhcp_ack := { dhcp_ack with siaddr := 0 }
  let dhcp_ack := { dhcp_ack with flags := req_msg.flags }
  let dhcp_ack := { dhcp_ack with giaddr := req_msg.giaddr }
  let dhcp_ack := { dhcp_ack with chaddr := bytesAt req_msg.chaddr 0 16 }
  let dhcp_ack := { dhcp_ack with magic := DHCP_MAGIC }
  let dhcp_ack := { dhcp_ack with options := make_ack_options a._leases lease }
  let eth_src : EtherAddress := EtherAddress.ofData req_msg.chaddr
  let ip_src : IPAddress := lease._ip
  let a1 :=
    if HashTable.find a._client_table eth_src = none then
      a.output_push 0
        (Pushed.data (strBytes ("client|" ++ unparse_colon eth_src ++ "|" ++ unparse_ip ip_src ++ "\n")))
    else a
  (dhcp_ack, add_client a1 eth_src ip_src)

/-- Options block of a NAK (lines 456-465 of `make_nak_packet`). -/
def make_nak_options (t : DHCPLeaseTable) : List Nat :=
  let c : OptCursor := { buf := List.replicate DHCP_OPTIONS_SIZE 0, ptr := 0 }
  let c := c.put DHO_DHCP_MESSAGE_TYPE
  let c := c.put 1
  let c := c.put DHCP_NACK
  let c := c.put DHO_DHCP_SERVER_IDENTIFIER
  let c := c.put 4
  let server_ip := t._ip
  let c := c.put32 server_ip
  let c := c.poke DHO_END
  c.buf

/-- Method `SdnAgent::make_nak_packet`.  The request message is taken at
`p->data() + sizeof(click_udp) + sizeof(click_ip)`, as the source has it. -/
def make_nak_packet (a : SdnAgent) (p : Packet) : dhcpMessage :=
  let req_msg := dhcpMessage.cast p (sizeof_click_udp + sizeof_click_ip)
  let dhcp_nak := dhcpMessage.zeroed
  let dhcp_nak := { dhcp_nak with op := DHCP_BOOTREPLY }
  let dhcp_nak := { dhcp_nak with htype := ARPHRD_ETHER }
  let dhcp_nak := { dhcp_nak with hlen := 6 }
  let dhcp_nak := { dhcp_nak with hops := 0 }
  let dhcp_nak := { dhcp_nak with xid := req_msg.xid }
  let dhcp_nak := { dhcp_nak with secs := 0 }
  let dhcp_nak := { dhcp_nak with flags := 0 }
  let dhcp_nak := { dhcp_nak with ciaddr := 0 }
  let dhcp_nak := { dhcp_nak with yiaddr := 0 }
  let dhcp_nak := { dhcp_nak with siaddr := 0 }
  let dhcp_nak := { dhcp_nak with flags := req_msg.flags }
  let dhcp_nak := { dhcp_nak with giaddr := req_msg.giaddr }
  let dhcp_nak := { dhcp_nak with chaddr := bytesAt req_msg.chaddr 0 16 }
  let dhcp_nak := { dhcp_nak with magic := DHCP_MAGIC }
  let dhcp_nak := { dhcp_nak with options := make_nak_options a._leases }
  dhcp_nak

/-- Local `server` of `send_dhcp_ack_or_nak` (lines 275-278): the server
identifier option, or the zero address when the option is not found. -/
def request_server (env : Env) (p : Packet) : IPAddress :=
  match env.fetch p DHO_DHCP_SERVER_IDENTIFIER 4 with
  | some o => IPAddress.ofData o
  | none => 0

/-- Local `requested_ip` of `send_dhcp_ack_or_nak` (lines 273, 280-282). -/
def request_requested_ip (env : Env) (p : Packet) : IPAddress :=
  match env.fetch p DHO_DHCP_REQUESTED_ADDRESS 4 with
  | some o => IPAddress.ofData o
  | none => 0

/-- The request message of a frame handed to `send_dhcp_ack_or_nak`: it follows
the Ethernet, IP and UDP headers (lines 267-269). -/
def request_msg (p : Packet) : dhcpMessage :=
  dhcpMessage.cast p (sizeof_click_ether + sizeof_click_udp + sizeof_click_ip)

/-- Client hardware address of a request: `EtherAddress eth(req_msg->chaddr)`. -/
def request_eth (p : Packet) : EtherAddress :=
  EtherAddress.ofData (request_msg p).chaddr

/-- Method `SdnAgent::send_dhcp_ack_or_nak`. -/
def send_dhcp_ack_or_nak (env : Env) (a : SdnAgent) (port : Nat) (p : Packet) : SdnAgent :=
  let eh_ether_shost := bytesAt p 6 6
  let req_msg := request_msg p
  let ciaddr : IPAddress := req_msg.ciaddr
  let eth : EtherAddress := EtherAddress.ofData req_msg.chaddr
  let lease := a._leases.rev_lookup eth
  let server := request_server env p
  let requested_ip := request_requested_ip env p
  let qa : Option dhcpMessage × SdnAgent :=
    if ciaddr = 0 ∧ requested_ip = 0 then
      let la : Option Lease × SdnAgent :=
        match lease with
        | none =>
          let r := env.new_lease_any a._leases eth
          (r.1, { a with _leases := r.2
                         lease_calls := a.lease_calls ++ [LeaseCall.new_lease_any eth] })
        | some l => (some l, a)
      match la.1 with
      | some l =>
        let r := make_ack_packet la.2 p l
        (some r.1, r.2)
      | none => (none, la.2)
    else if server ≠ 0 ∧ ciaddr = 0 ∧ requested_ip ≠ 0 then
      match lease with
      | some l =>
        if l._ip = requested_ip then
          let r := make_ack_packet a p l
          (some r.1, { r.2 with _leases := r.2._leases.store eth { l with _valid := true } })
        else (none, a)
      | none => (none, a)
    else if server = 0 ∧ requested_ip ≠ 0 ∧ ciaddr = 0 then
      let network_is_correct := true
      if ¬ network_is_correct then
        (some (make_nak_packet a p), a)
      else
        match lease with
        | some l =>
          if l._ip = requested_ip then
            if Timestamp.lt l._end env.now then
              (some (make_nak_packet a p), a)
            else
              let l1 := { l with _valid := true }
              let a1 := { a with _leases := a._leases.store eth l1 }
              let r := make_ack_packet a1 p l1
              (some r.1, r.2)
          else (none, a)
        | none => (none, a)
    else if server = 0 ∧ requested_ip = 0 ∧ ciaddr ≠ 0 then
      match lease with
      | some l =>
        let l1 := { l with _valid := true }
        let l2 := env.extend env.now l1
        let a1 := { a with _leases := a._leases.store eth l2
                           lease_calls := a.lease_calls ++ [LeaseCall.extend eth] }
        let r := make_ack_packet a1 p l2
        (some r.1, r.2)
      | none => (none, a)
    else (none, a)
  match qa.1 with
  | some q =>
    let a2 := qa.2
    let eh2_ether_shost := bytesAt a2._leases._eth 0 6
    let eh2_ether_dhost := eh_ether_shost
    let eh2_ether_dhost := eh2_ether_dhost.map (fun _ => 0xff)
    a2.output_push port
      (Pushed.dhcp { ether_shost := eh2_ether_shost, ether_dhost := eh2_ether_dhost
                     ether_type := ETHERTYPE_IP, udp_src := a2._leases._ip, msg := q })
  | none => qa.2

/-- The frame `send_dhcp_ack_or_nak` pushes around a reply message `q` (lines
327-334), for the lease table `t` the agent holds at that point and the request
frame `p`. -/
def dhcp_reply_frame (t : DHCPLeaseTable) (p : Packet) (q : dhcpMessage) : DhcpReply :=
  { ether_shost := bytesAt t._eth 0 6
    ether_dhost := (bytesAt p 6 6).map (fun _ => 0xff)
    ether_type := ETHERTYPE_IP
    udp_src := t._ip
    msg := q }

/-- DHCP frames among the packets pushed, with their output ports, oldest first. -/
def dhcp_frames (log : List (Nat × Pushed)) : List (Nat × DhcpReply) :=
  log.filterMap (fun e =>
    match e.2 with
    | Pushed.dhcp r => some (e.1, r)
    | Pushed.data _ => none)

/-- Message type announced by a DHCP message: the data byte of a message-type
option standing first in the options block. -/
def dhcpMessage.msg_type (m : dhcpMessage) : Option Nat :=
  if m.options.getD 0 0 = DHO_DHCP_MESSAGE_TYPE ∧ m.options.getD 1 0 = 1 then
    some (m.options.getD 2 0)
  else none

/-- The controller line announcing a new client, as packet bytes:
`client|<mac colon-hex>|<ip dotted>` and a newline. -/
def client_line (mac : EtherAddress) (ip : IPAddress) : List Nat :=
  strBytes ("client|" ++ unparse_colon mac ++ "|" ++ unparse_ip ip ++ "\n")

/-- A run of ACKs built one after the other, each for a request frame and a
lease, with nothing else happening in between. -/
def ack_sequence (a : SdnAgent) : List (Packet × Lease) → SdnAgent
  | [] => a
  | (p, l) :: rest => ack_sequence (make_ack_packet a p l).2 rest

/-! ## The other channels: headers, checksum, rate counters -/

/-- Modelled from the spec: `RateEstimator::update(byteCount)`, of a class that
is not among the sources; the sample is recorded after the earlier ones. -/
def RateEstimator.update (r : RateEstimator) (n : Nat) : RateEstimator :=
  { samples := r.samples ++ [n] }

/-- Constants and helpers of headers that are not among the sources and whose
values the specification does not give: the two UDP ports of the control
channel (`UDP_AGENT_PORT`, `UDP_CLIENT_PORT`), the UDP checksum routine
`click_in_cksum_pseudohdr(csum, ip, len)` (given the partial sum, the bytes of
the IP header and the length), and `unparse_rate()` of the rate counter, whose
empty string stands for "no rate". -/
structure Glue where
  UDP_AGENT_PORT : Nat
  UDP_CLIENT_PORT : Nat
  click_in_cksum_pseudohdr : Nat → List Nat → Nat → Nat
  unparse_rate : RateEstimator → String

/-- Modelled from the spec: `IP_PROTO_UDP`, protocol number 17. -/
def IP_PROTO_UDP : Nat := 17

/-- Modelled from the spec: `sizeof(struct click_wifi)`, the minimum 802.11
header: frame control (2), duration (2), three addresses (6 each), sequence
control (2). -/
def sizeof_click_wifi : Nat := 24
/-- Modelled from the spec: mask of the frame type in the first frame-control byte. -/
def WIFI_FC0_TYPE_MASK : Nat := 0x0c
/-- Modelled from the spec: frame type "management". -/
def WIFI_FC0_TYPE_MGT : Nat := 0x00
/-- Modelled from the spec: mask of the frame subtype in the first frame-control byte. -/
def WIFI_FC0_SUBTYPE_MASK : Nat := 0xf0
/-- Modelled from the spec: management subtype "disassociation". -/
def WIFI_FC0_SUBTYPE_DISASSOC : Nat := 0xa0
/-- Modelled from the spec: management subtype "deauthentication". -/
def WIFI_FC0_SUBTYPE_DEAUTH : Nat := 0xc0

/-- The two wire bytes of a 16-bit quantity, most significant first: what a
store of `htons(x)` writes. -/
def be16 (v : Nat) : List Nat := [v / 256 % 256, v % 256]

/-- Sum of the 16-bit words of a run of bytes, a trailing odd byte counting as
the high byte of a last word. -/
def sum16 : List Nat → Nat
  | [] => 0
  | [b] => b * 256
  | b1 :: b2 :: rest => b1 * 256 + b2 + sum16 rest

/-- Ones-complement of a sum of 16-bit words after the carries are folded back
twice: `sum = (sum >> 16) + (sum & 0xffff); sum += (sum >> 16); return ~sum`. -/
def fold_complement (sum : Nat) : Nat :=
  let sum := sum / 65536 + sum % 65536
  let sum := sum + sum / 65536
  65535 - sum % 65536

/-- Modelled from the spec: `click_in_cksum(data, len)`, which is not among the
sources, as the Internet checksum "computed over the header": the 16-bit words
of the `len` bytes are added, the carries are folded back, and the result is
complemented.  The value is kept as the number its two wire bytes denote. -/
def click_in_cksum (data : List Nat) (len : Nat) : Nat :=
  fold_complement (sum16 (bytesAt data 0 len))

/-- Record `click_ip`: the fields of the 20-byte IP header. -/
structure click_ip where
  ip_v : Nat
  ip_hl : Nat
  ip_tos : Nat
  ip_len : Nat
  ip_id : Nat
  ip_off : Nat
  ip_ttl : Nat
  ip_p : Nat
  ip_sum : Nat
  ip_src : IPAddress
  ip_dst : IPAddress
deriving DecidableEq, Repr

/-- The 20 bytes of a `click_ip` in memory: version and header length share the
first byte, 16-bit fields hold the bytes `htons` gave them. -/
def click_ip.bytes (h : click_ip) : List Nat :=
  [(h.ip_v % 16) * 16 + h.ip_hl % 16, h.ip_tos % 256] ++ be16 h.ip_len ++ be16 h.ip_id
    ++ be16 h.ip_off ++ [h.ip_ttl % 256, h.ip_p % 256] ++ be16 h.ip_sum
    ++ be32 h.ip_src ++ be32 h.ip_dst

/-- Record `click_udp`: the fields of the 8-byte UDP header. -/
structure click_udp where
  uh_sport : Nat
  uh_dport : Nat
  uh_ulen : Nat
  uh_sum : Nat
deriving DecidableEq, Repr

/-- The 8 bytes of a `click_udp` in memory. -/
def click_udp.bytes (u : click_udp) : List Nat :=
  be16 u.uh_sport ++ be16 u.uh_dport ++ be16 u.uh_ulen ++ be16 u.uh_sum

/-- Method `SdnAgent::push_udp_to_client`: the payload `p_in` gets a UDP and an
IP header in front (`push(sizeof(click_udp) + sizeof(click_ip))`), every field
of which is assigned (the checksums last, over the header with a zero checksum
field), and an Ethernet header; the frame is pushed on `port`.  The identifier
is the 16 bits `htons` keeps of the counter read by `fetch_and_add(1)`. -/
def push_udp_to_client (g : Glue) (a : SdnAgent) (p_in : Packet) (ip_dst : IPAddress)
    (eth_dst : EtherAddress) (port : Nat) : SdnAgent :=
  let p_length := (p_in.length + (sizeof_click_udp + sizeof_click_ip)) % 4294967296
  let id := a.ip_id
  let a1 := { a with ip_id := (a.ip_id + 1) % 4294967296 }
  let ip0 : click_ip :=
    { ip_v := 4
      ip_hl := sizeof_click_ip / 4
      ip_len := p_length % 65536
      ip_id := id % 65536
      ip_p := IP_PROTO_UDP
      ip_src := a._ipaddr
      ip_dst := ip_dst
      ip_tos := 0
      ip_off := 0
      ip_ttl := 250
      ip_sum := 0 }
  let ip : click_ip := { ip0 with ip_sum := click_in_cksum ip0.bytes sizeof_click_ip }
  let len := (p_length + 4294967296 - sizeof_click_ip) % 65536
  let udp0 : click_udp :=
    { uh_sport := g.UDP_AGENT_PORT % 65536
      uh_dport := g.UDP_CLIENT_PORT % 65536
      uh_ulen := len
      uh_sum := 0 }
  let csum := click_in_cksum (udp0.bytes ++ p_in) len
  let udp : click_udp := { udp0 with uh_sum := g.click_in_cksum_pseudohdr csum ip.bytes len }
  let eth_ether_shost := bytesAt a._mac 0 6
  let eth_ether_dhost := bytesAt eth_dst 0 6
  let eth_ether_type := be16 ETHERTYPE_IP
  a1.output_push port
    (Pushed.data (eth_ether_dhost ++ eth_ether_shost ++ eth_ether_type
                    ++ ip.bytes ++ udp.bytes ++ p_in))

/-- The IP header `push_udp_to_client` writes (lines 509-523) in front of a
payload of `n` bytes for `ip_dst`, in the agent state `a`: the checksum is that
of the header with a zero checksum field. -/
def udp_ip_header (a : SdnAgent) (n : Nat) (ip_dst : IPAddress) : click_ip :=
  let h0 : click_ip :=
    { ip_v := 4, ip_hl := 5, ip_tos := 0
      ip_len := (n + 28) % 4294967296 % 65536
      ip_id := a.ip_id % 65536
      ip_off := 0, ip_ttl := 250, ip_p := 17, ip_sum := 0
      ip_src := a._ipaddr, ip_dst := ip_dst }
  { h0 with ip_sum := click_in_cksum h0.bytes 20 }

/-- The UDP header `push_udp_to_client` writes (lines 527-534) in front of the
payload `p_in`. -/
def udp_header (g : Glue) (a : SdnAgent) (p_in : Packet) (ip_dst : IPAddress) : click_udp :=
  let len := ((p_in.length + 28) % 4294967296 + 4294967296 - 20) % 65536
  let u0 : click_udp :=
    { uh_sport := g.UDP_AGENT_PORT % 65536, uh_dport := g.UDP_CLIENT_PORT % 65536
      uh_ulen := len, uh_sum := 0 }
  { u0 with
    uh_sum := g.click_in_cksum_pseudohdr (click_in_cksum (u0.bytes ++ p_in) len)
                (udp_ip_header a p_in.length ip_dst).bytes len }

/-- The frame `push_udp_to_client` pushes: Ethernet header (destination,
source, ethertype), IP header, UDP header, payload. -/
def udp_frame (g : Glue) (a : SdnAgent) (p_in : Packet) (ip_dst : IPAddress)
    (eth_dst : EtherAddress) : List Nat :=
  bytesAt eth_dst 0 6 ++ bytesAt a._mac 0 6 ++ [0x08, 0x00]
    ++ (udp_ip_header a p_in.length ip_dst).bytes ++ (udp_header g a p_in ip_dst).bytes ++ p_in

/-- Identification field of the IP header of an Ethernet frame: bytes 18 and 19. -/
def frame_ip_id (f : List Nat) : Nat := be (bytesAt f 18 2)

/-- Packets built one after the other by `push_udp_to_client`, each from a
payload, a destination IP, a destination hardware address and an output port. -/
def udp_sequence (g : Glue) (a : SdnAgent) :
    List (Packet × IPAddress × EtherAddress × Nat) → SdnAgent
  | [] => a
  | x :: rest => udp_sequence g (push_udp_to_client g a x.1 x.2.1 x.2.2.1 x.2.2.2) rest

/-- IP identification fields of the data frames of a log, oldest first. -/
def pushed_ip_ids (log : List (Nat × Pushed)) : List Nat :=
  log.filterMap (fun e =>
    match e.2 with
    | Pushed.data f => some (frame_ip_id f)
    | Pushed.dhcp _ => none)

/-- Method `SdnAgent::disconnect_responder`, for the 802.11 header at the start
of `w`: `i_addr1` is bytes 4-9, `i_addr2` bytes 10-15. -/
def disconnect_responder (a : SdnAgent) (w : Packet) : SdnAgent :=
  let dst : EtherAddress := EtherAddress.ofData (bytesAt w 4 6)
  let src : EtherAddress := EtherAddress.ofData (bytesAt w 10 6)
  if dst ≠ a._mac then a
  else if HashTable.find a._client_table src ≠ none then
    let a1 := a.output_push 0
      (Pushed.data (strBytes ("clientdisconnect " ++ unparse_colon src ++ "\n")))
    { a1 with _client_table := HashTable.erase a1._client_table src }
  else a

/-- The loop `for (ptr = data; *ptr != '\n' && *ptr != '\0'; ptr++) len++` of
the controller channel, run over the bytes found in memory from `data` on: the
rest of the packet and then whatever lies behind it, since the loop has no
length check.  The result is the number of bytes before the first newline or
NUL.  Memory that holds neither is memory in which the loop has not ended: the
count is then that of all the bytes given, and what is proved of the relay is
stated for memory that holds one. -/
def scan_len : List Nat → Nat
  | [] => 0
  | b :: rest => if b ≠ 10 ∧ b ≠ 0 then scan_len rest + 1 else 0

/-- Method `SdnAgent::run_timer`, up to the rescheduling of the timer: the
aggregate counters decay when no client is registered, then the aggregate line
and one line per entry of the client table are pushed on output 0, each only
when both of its rate strings are non-empty. -/
def run_timer (g : Glue) (a : SdnAgent) : SdnAgent :=
  let a :=
    if a._client_table.isEmpty then
      { a with _byte_up_rate := a._byte_up_rate.update 0
               _byte_down_rate := a._byte_down_rate.update 0 }
    else a
  let r1 := g.unparse_rate a._byte_up_rate
  let r2 := g.unparse_rate a._byte_down_rate
  let a :=
    if r1 ≠ "" ∧ r2 ≠ "" then
      a.output_push 0 (Pushed.data (strBytes ("agentrate|" ++ r1 ++ "|" ++ r2 ++ "|\n")))
    else a
  a._client_table.foldl
    (fun acc it =>
      let r1 := g.unparse_rate it.2._byte_up_rate
      let r2 := g.unparse_rate it.2._byte_down_rate
      if r1 ≠ "" ∧ r2 ≠ "" then
        acc.output_push 0
          (Pushed.data (strBytes ("clientrate|" ++ unparse_colon it.2._mac ++ "|"
            ++ unparse_ip it.2._ipaddr ++ "|" ++ r1 ++ "|" ++ r2 ++ "|\n")))
      else acc)
    a

/-- Method `SdnAgent::push`: the five input ports.  On input 0 every read goes
through the pointer `data` with no regard to `p->length()`, so the bytes read
are those of the packet followed by `env.tail_memory`. -/
def push (env : Env) (g : Glue) (a : SdnAgent) (port : Nat) (p : Packet) : SdnAgent :=
  if port = 0 then
    let data := p ++ env.tail_memory
    if data.getD 0 0 = 99 then
      let d := bytesAt data 1 6
      let mac_dst : EtherAddress := EtherAddress.ofData d
      match HashTable.find a._client_table mac_dst with
      | some c =>
        let ip_dst := c._ipaddr
        let len := scan_len (data.drop 7)
        let p_to_client := bytesAt data 7 len
        push_udp_to_client g a p_to_client ip_dst mac_dst 1
      | none => a
    else if data.getD 0 0 = 97 then a
    else a
  else if port = 1 then
    if p.length < sizeof_click_wifi then a
    else
      let type := p.getD 0 0 &&& WIFI_FC0_TYPE_MASK
      let subtype := p.getD 0 0 &&& WIFI_FC0_SUBTYPE_MASK
      if type ≠ WIFI_FC0_TYPE_MGT then a
      else if subtype = WIFI_FC0_SUBTYPE_DEAUTH ∨ subtype = WIFI_FC0_SUBTYPE_DISASSOC then
        disconnect_responder a p
      else a
  else if port = 2 then
    send_dhcp_ack_or_nak env a 1 p
  else if port = 3 then
    let header_len := sizeof_click_ether + sizeof_click_udp + sizeof_click_ip
    let len := (p.length + 4294967296 - header_len) % 4294967296
    if p.getD header_len 0 = 115 ∧ p.getD (header_len + 1) 0 = 124 then
      a.output_push 0
        (Pushed.data (bytesAt p (header_len + 2) ((len + 4294967296 - 2) % 4294967296)))
    else a
  else if port = 4 then
    let eth_src : EtherAddress := EtherAddress.ofData (bytesAt p 6 6)
    let eth_dst : EtherAddress := EtherAddress.ofData (bytesAt p 0 6)
    let a1 :=
      match HashTable.find a._client_table eth_src with
      | some c =>
        { a with _client_table := HashTable.set a._client_table eth_src
                    { c with _byte_up_rate := c._byte_up_rate.update p.length }
                 _byte_up_rate := a._byte_up_rate.update p.length }
      | none =>
        match HashTable.find a._client_table eth_dst with
        | some c =>
          { a with _client_table := HashTable.set a._client_table eth_dst
                      { c with _byte_down_rate := c._byte_down_rate.update p.length }
                   _byte_down_rate := a._byte_down_rate.update p.length }
        | none => a
    a1.output_push 2 (Pushed.data p)
  else a

/-- Destination address `i_addr1` of the 802.11 header at the start of a frame. -/
def wifi_dst (p : Packet) : EtherAddress := EtherAddress.ofData (bytesAt p 4 6)

/-- Source address `i_addr2` of the 802.11 header at the start of a frame. -/
def wifi_src (p : Packet) : EtherAddress := EtherAddress.ofData (bytesAt p 10 6)

/-- The conditions under which a frame on input 1 is a disconnection of a
registered client: long enough for the 802.11 header, of type management, of
subtype deauthentication or disassociation, addressed to the agent, and sent by
a registered client. -/
def disassoc_accepted (a : SdnAgent) (p : Packet) : Prop :=
  sizeof_click_wifi ≤ p.length
  ∧ (p.getD 0 0 &&& WIFI_FC0_TYPE_MASK) = WIFI_FC0_TYPE_MGT
  ∧ ((p.getD 0 0 &&& WIFI_FC0_SUBTYPE_MASK) = WIFI_FC0_SUBTYPE_DEAUTH
      ∨ (p.getD 0 0 &&& WIFI_FC0_SUBTYPE_MASK) = WIFI_FC0_SUBTYPE_DISASSOC)
  ∧ wifi_dst p = a._mac
  ∧ HashTable.find a._client_table (wifi_src p) ≠ none

instance (a : SdnAgent) (p : Packet) : Decidable (disassoc_accepted a p) := by
  unfold disassoc_accepted
  infer_instance

/-- The controller line reporting a disconnection, as packet bytes:
`clientdisconnect <mac colon-hex>` and a newline. -/
def clientdisconnect_line (mac : EtherAddress) : List Nat :=
  strBytes ("clientdisconnect " ++ unparse_colon mac ++ "\n")

/-- The aggregate report line, as packet bytes: `agentrate|<up>|<down>|` and a
newline. -/
def agentrate_line (up down : String) : List Nat :=
  strBytes ("agentrate|" ++ up ++ "|" ++ down ++ "|\n")

/-- The report line of one client, as packet bytes:
`clientrate|<mac colon-hex>|<ip dotted>|<up>|<down>|` and a newline. -/
def clientrate_line (mac : EtherAddress) (ip : IPAddress) (up down : String) : List Nat :=
  strBytes ("clientrate|" ++ unparse_colon mac ++ "|" ++ unparse_ip ip ++ "|" ++ up ++ "|"
    ++ down ++ "|\n")

/-- What one report sends for one entry of the client table: its line on
output 0 when both of its rate strings are non-empty, nothing otherwise. -/
def client_report (g : Glue) (it : EtherAddress × Client) : Option (Nat × Pushed) :=
  if g.unparse_rate it.2._byte_up_rate ≠ "" ∧ g.unparse_rate it.2._byte_down_rate ≠ "" then
    some (0, Pushed.data (clientrate_line it.2._mac it.2._ipaddr
      (g.unparse_rate it.2._byte_up_rate) (g.unparse_rate it.2._byte_down_rate)))
  else none

/-- The aggregate counters a report reads: after a zero sample when no client
is registered, as they are otherwise. -/
def report_rates (a : SdnAgent) : RateEstimator × RateEstimator :=
  if a._client_table.isEmpty then (a._byte_up_rate.update 0, a._byte_down_rate.update 0)
  else (a._byte_up_rate, a._byte_down_rate)

/-- What one report sends for the agent: the aggregate line on output 0 when
both aggregate rate strings are non-empty, nothing otherwise. -/
def agent_report (g : Glue) (a : SdnAgent) : List (Nat × Pushed) :=
  if g.unparse_rate (report_rates a).1 ≠ "" ∧ g.unparse_rate (report_rates a).2 ≠ "" then
    [(0, Pushed.data (agentrate_line (g.unparse_rate (report_rates a).1)
      (g.unparse_rate (report_rates a).2)))]
  else []

/-- Hardware address named by a controller payload: the six bytes after the tag. -/
def controller_target (p : Packet) : EtherAddress := EtherAddress.ofData (bytesAt p 1 6)

/-- Text of a controller payload: the bytes after the tag and the address, up
to but not including the first newline or NUL byte. -/
def controller_text (p : Packet) : List Nat :=
  (p.drop 7).takeWhile (fun b => decide (b ≠ 10 ∧ b ≠ 0))

/-! ## The request shapes -/

/-- The five outcomes of the branch selection of `send_dhcp_ack_or_nak`. -/
inductive RequestShape where
  | no_state
  | selecting
  | init_reboot
  | renew_rebind
  | unsupported
deriving DecidableEq, Repr

/-- The branch the if/else chain of `send_dhcp_ack_or_nak` takes (lines 284,
293, 299, 314, 321), with the conditions in the order and form of the source;
`!x` on an address is `x = 0`. -/
def chain_shape (ciaddr requested_ip server : IPAddress) : RequestShape :=
  if ciaddr = 0 ∧ requested_ip = 0 then RequestShape.no_state
  else if server ≠ 0 ∧ ciaddr = 0 ∧ requested_ip ≠ 0 then RequestShape.selecting
  else if server = 0 ∧ requested_ip ≠ 0 ∧ ciaddr = 0 then RequestShape.init_reboot
  else if server = 0 ∧ requested_ip = 0 ∧ ciaddr ≠ 0 then RequestShape.renew_rebind
  else RequestShape.unsupported

/-- The classifier of the specification over the three presence bits (`ciaddr`,
requested IP, server identifier), row by row of its decision table. -/
def classify_shape (ciaddr requested_ip server : Bool) : RequestShape :=
  match ciaddr, requested_ip, server with
  | false, false, _ => RequestShape.no_state
  | false, true, true => RequestShape.selecting
  | false, true, false => RequestShape.init_reboot
  | true, false, false => RequestShape.renew_rebind
  | _, _, _ => RequestShape.unsupported

/-- The four branch conditions of the chain, each with the branch it guards. -/
def shape_tests (ciaddr requested_ip server : IPAddress) : List (Bool × RequestShape) :=
  [(decide (ciaddr = 0 ∧ requested_ip = 0), RequestShape.no_state),
   (decide (server ≠ 0 ∧ ciaddr = 0 ∧ requested_ip ≠ 0), RequestShape.selecting),
   (decide (server = 0 ∧ requested_ip ≠ 0 ∧ ciaddr = 0), RequestShape.init_reboot),
   (decide (server = 0 ∧ requested_ip = 0 ∧ ciaddr ≠ 0), RequestShape.renew_rebind)]

/-- An if/else chain over a list of tests: the branch of the first test that
holds, the final `else` when none does. -/
def first_match : List (Bool × RequestShape) → RequestShape
  | [] => RequestShape.unsupported
  | (b, sh) :: rest => if b then sh else first_match rest

/-- The body of each branch of `send_dhcp_ack_or_nak` (lines 285-322), by
request shape: the reply message, if any, and the agent state it leaves. -/
def shape_body (env : Env) (a : SdnAgent) (p : Packet) :
    RequestShape → Option dhcpMessage × SdnAgent
  | RequestShape.no_state =>
    let eth := request_eth p
    let la : Option Lease × SdnAgent :=
      match a._leases.rev_lookup eth with
      | none =>
        let r := env.new_lease_any a._leases eth
        (r.1, { a with _leases := r.2
                       lease_calls := a.lease_calls ++ [LeaseCall.new_lease_any eth] })
      | some l => (some l, a)
    match la.1 with
    | some l =>
      let r := make_ack_packet la.2 p l
      (some r.1, r.2)
    | none => (none, la.2)
  | RequestShape.selecting =>
    match a._leases.rev_lookup (request_eth p) with
    | some l =>
      if l._ip = request_requested_ip env p then
        let r := make_ack_packet a p l
        (some r.1,
          { r.2 with _leases := r.2._leases.store (request_eth p) { l with _valid := true } })
      else (none, a)
    | none => (none, a)
  | RequestShape.init_reboot =>
    match a._leases.rev_lookup (request_eth p) with
    | some l =>
      if l._ip = request_requested_ip env p then
        if Timestamp.lt l._end env.now then
          (some (make_nak_packet a p), a)
        else
          let l1 := { l with _valid := true }
          let a1 := { a with _leases := a._leases.store (request_eth p) l1 }
          let r := make_ack_packet a1 p l1
          (some r.1, r.2)
      else (none, a)
    | none => (none, a)
  | RequestShape.renew_rebind =>
    match a._leases.rev_lookup (request_eth p) with
    | some l =>
      let l1 := { l with _valid := true }
      let l2 := env.extend env.now l1
      let a1 := { a with _leases := a._leases.store (request_eth p) l2
                         lease_calls := a.lease_calls ++ [LeaseCall.extend (request_eth p)] }
      let r := make_ack_packet a1 p l2
      (some r.1, r.2)
    | none => (none, a)
  | RequestShape.unsupported => (none, a)

/-- Dispatch on a request shape computed beforehand: the branch body, then the
framing and pushing of the reply, if there is one. -/
def send_by_shape (env : Env) (a : SdnAgent) (port : Nat) (p : Packet)
    (sh : RequestShape) : SdnAgent :=
  match (shape_body env a p sh).1 with
  | some q =>
    (shape_body env a p sh).2.output_push port
      (Pushed.dhcp (dhcp_reply_frame (shape_body env a p sh).2._leases p q))
  | none => (shape_body env a p sh).2

/-- An environment whose option scanner reports an option carrying 0.0.0.0 as
not found, and is otherwise `env`. -/
def drop_zero_options (env : Env) : Env :=
  { env with
    fetch := fun p code len =>
      match env.fetch p code len with
      | some o => if IPAddress.ofData o = 0 then none else some o
      | none => none }

/-! ## Concrete inputs used by the examples -/

/-- Modelled from the spec: the option scanner `fetch(frame, optionCode,
expectedLen) -> optional bytes`, which is not among the sources, as a plain walk
over code/length/data triples; it is used only to give `Env.fetch` a value at
concrete inputs. -/
def tlv_scan : Nat → List Nat → Nat → Nat → Option (List Nat)
  | 0, _, _, _ => none
  | _ + 1, [], _, _ => none
  | fuel + 1, c :: rest, code, len =>
    if c = DHO_END then none
    else if c = 0 then tlv_scan fuel rest code len
    else
      match rest with
      | [] => none
      | l :: data =>
        if c = code ∧ l = len then some (data.take l)
        else tlv_scan fuel (data.drop l) code len

/-- Environment of the examples: options are scanned in the options area of
the request, the allocator hands out `fresh` (if any) and binds it to the
address, `extend` moves the expiry to the clock plus the duration, and the byte
right behind the packet is NUL. -/
def example_env (fresh : Option Lease) (now : Timestamp) : Env :=
  { fetch := fun p code len => tlv_scan 312 (request_msg p).options code len
    new_lease_any := fun t eth =>
      match fresh with
      | some l => (some l, t.store eth l)
      | none => (none, t)
    extend := fun t l =>
      { l with _end := { sec := t.sec + l._duration.sec, subsec := t.subsec } }
    now := now
    tail_memory := [0] }

/-- A DHCP request frame as it reaches input 2: Ethernet header from `shost` to
broadcast, IP header 0.0.0.0 to 255.255.255.255, UDP header 68 to 67, then the
fixed part of the message and the options area padded with zeros. -/
def dhcp_request_frame (shost : List Nat) (xid flags : Nat) (ciaddr giaddr : IPAddress)
    (chaddr opts : List Nat) : Packet :=
  List.replicate 6 0xff ++ shost ++ [0x08, 0x00]
    ++ [0x45, 0, 0x02, 0x44, 0, 0, 0, 0, 0x40, 0x11, 0x78, 0xaa] ++ be32 0 ++ be32 0xFFFFFFFF
    ++ [0, 68, 0, 67, 0x02, 0x30, 0, 0]
    ++ [1, 1, 6, 0] ++ be32 xid ++ [0, 0] ++ [flags / 256 % 256, flags % 256]
    ++ be32 ciaddr ++ be32 0 ++ be32 0 ++ be32 giaddr
    ++ chaddr ++ List.replicate (16 - chaddr.length) 0
    ++ List.replicate 64 0 ++ List.replicate 128 0 ++ [0x63, 0x82, 0x53, 0x63]
    ++ opts ++ List.replicate (312 - opts.length) 0

/-- Hardware address aa:bb:cc:dd:ee:ff of the example client. -/
def example_mac : EtherAddress := [0xaa, 0xbb, 0xcc, 0xdd, 0xee, 0xff]

/-- Lease of the example client: address `ip`, one hour, expiring at second
`expiry`, not yet valid. -/
def example_lease (ip : IPAddress) (expiry : Int) : Lease :=
  { _eth := example_mac, _ip := ip
    _start := { sec := 0, subsec := 0 }
    _end := { sec := expiry, subsec := 0 }
    _duration := { sec := 3600, subsec := 0 }
    _valid := false }

/-- Agent 02:00:00:00:00:01 / 10.0.0.1 with subnet 255.255.255.0, DNS server
8.8.8.8, the given leases and clients, and nothing pushed yet. -/
def example_agent (leases : HashTable EtherAddress Lease)
    (clients : HashTable EtherAddress Client) : SdnAgent :=
  { _mac := [2, 0, 0, 0, 0, 1], _ipaddr := 0x0A000001, _interval := 10
    _leases := { _ip := 0x0A000001, _eth := [2, 0, 0, 0, 0, 1], _subnet := 0xFFFFFF00
                 _dns := 0x08080808, _leases := leases }
    _client_table := clients
    _byte_up_rate := RateEstimator.fresh, _byte_down_rate := RateEstimator.fresh
    pushed := [], lease_calls := [] }

/-- Example agent whose lease table binds the example client to `ip` until
second `expiry`; no client is registered yet. -/
def example_bound (ip : IPAddress) (expiry : Int) : SdnAgent :=
  example_agent [(example_mac, example_lease ip expiry)] []

/-- Request of the example client in the SELECTING state: requested address
10.0.0.5, server identifier 192.0.2.1, no `ciaddr`. -/
def example_selecting : Packet :=
  dhcp_request_frame example_mac 0x12345678 0x8000 0 0 example_mac
    [53, 1, 3, 50, 4, 10, 0, 0, 5, 54, 4, 192, 0, 2, 1, 255]

/-- Request of the example client in the INIT-REBOOT state: requested address
10.0.0.5, no server identifier, no `ciaddr`. -/
def example_init_reboot : Packet :=
  dhcp_request_frame example_mac 0x12345678 0x8000 0 0 example_mac
    [53, 1, 3, 50, 4, 10, 0, 0, 5, 255]

/-- Request of the example client renewing 10.0.0.5: `ciaddr` set, neither
option present. -/
def example_renew : Packet :=
  dhcp_request_frame example_mac 0x12345678 0 0x0A000005 0 example_mac [53, 1, 3, 255]

/-- Bare request of the example client: no `ciaddr`, no requested address. -/
def example_bare : Packet :=
  dhcp_request_frame example_mac 0x12345678 0x8000 0 0 example_mac [53, 1, 3, 255]

/-- Request with `ciaddr` 10.0.0.5 together with a requested address and a
server identifier: none of the four supported shapes. -/
def example_unsupported : Packet :=
  dhcp_request_frame example_mac 0x12345678 0 0x0A000005 0 example_mac
    [53, 1, 3, 50, 4, 10, 0, 0, 5, 54, 4, 192, 0, 2, 1, 255]

/-- Helpers of the examples: agent port 6777, client port 6778, a UDP checksum
routine that leaves the field zero, and a rate string that is the decimal sum of
the samples, empty while there is no sample. -/
def example_glue : Glue :=
  { UDP_AGENT_PORT := 6777
    UDP_CLIENT_PORT := 6778
    click_in_cksum_pseudohdr := fun _ _ _ => 0
    unparse_rate := fun r => if r.samples = [] then "" else Nat.repr r.samples.sum }

/-- Registry entry of the example client aa:bb:cc:dd:ee:ff with address
10.0.0.5 and the given samples in its two rate counters. -/
def example_client (up down : List Nat) : Client :=
  { _mac := example_mac, _ipaddr := 0x0A000005
    _byte_up_rate := { samples := up }, _byte_down_rate := { samples := down } }

/-- Example agent with the example client registered and no lease. -/
def example_registered : SdnAgent :=
  example_agent [] [(example_mac, example_client [] [])]

/-- An 802.11 header whose first frame-control byte is `fc0`, addressed to
`dst` from `src`, with BSSID `dst`. -/
def wifi_frame (fc0 : Nat) (dst src : List Nat) : Packet :=
  [fc0, 0, 0, 0] ++ dst ++ src ++ dst ++ [0, 0]

/-- Deauthentication frame from the example client to the example agent. -/
def example_deauth : Packet := wifi_frame 0xc0 [2, 0, 0, 0, 0, 1] example_mac

/-- Controller payload `c`, the example client's address, the text `hello`, a
newline and two more bytes. -/
def example_controller_msg : Packet :=
  [99] ++ example_mac ++ [104, 101, 108, 108, 111, 10, 120, 121]

/-- Frame from the example client to the agent's control port: 42 bytes of
Ethernet, IP and UDP header, then the given payload. -/
def client_control_frame (payload : List Nat) : Packet :=
  [2, 0, 0, 0, 0, 1] ++ example_mac ++ [0x08, 0x00]
    ++ [0x45, 0, 0, 0, 0, 0, 0, 0, 0x40, 0x11, 0, 0] ++ be32 0x0A000005 ++ be32 0x0A000001
    ++ [0x1a, 0x7a, 0x1a, 0x79, 0, 0, 0, 0]
    ++ payload

/-- Ethernet frame of 60 bytes from `src` to `dst`. -/
def stats_frame (dst src : List Nat) : Packet :=
  dst ++ src ++ [0x08, 0x00] ++ List.replicate 46 0

/-- Example agent 02:00:00:00:00:01 whose lease table is configured with the
hardware address 02:00:00:00:00:02 and binds the example client to 10.0.0.5. -/
def example_split : SdnAgent :=
  { example_bound 0x0A000005 1000 with
    _leases := { (example_bound 0x0A000005 1000)._leases with _eth := [2, 0, 0, 0, 0, 2] } }

/-- Request like the example SELECTING request but whose requested-address
option carries 0.0.0.0. -/
def example_zero_requested : Packet :=
  dhcp_request_frame example_mac 0x12345678 0x8000 0 0 example_mac
    [53, 1, 3, 50, 4, 0, 0, 0, 0, 54, 4, 192, 0, 2, 1, 255]

/-- Request of the example client with a requested-address option that
carries 0.0.0.0, no server identifier and no `ciaddr`. -/
def example_zero_init_reboot : Packet :=
  dhcp_request_frame example_mac 0x12345678 0x8000 0 0 example_mac
    [53, 1, 3, 50, 4, 0, 0, 0, 0, 255]

/-- Request of the example client with `ciaddr` 10.0.0.5 together with a
requested-address option that carries 0.0.0.0, and no server identifier. -/
def example_zero_renew : Packet :=
  dhcp_request_frame example_mac 0x12345678 0 0x0A000005 0 example_mac
    [53, 1, 3, 50, 4, 0, 0, 0, 0, 255]

/-- Controller payload `c`, the example client's address and the text `hi`,
with no newline or NUL after it: nine bytes. -/
def example_unterminated : Packet := [99] ++ example_mac ++ [104, 105]

/-- Environment like that of the examples, except that the packet is followed
in memory by the bytes `XY`, a NUL and `Z`. -/
def example_overrun_env : Env :=
  { example_env none ⟨100, 0⟩ with tail_memory := [88, 89, 0, 90] }

/-! ## Lemmas on the table operations -/

theorem HashTable.find_set_self {K V : Type} [DecidableEq K] (t : HashTable K V) (k : K)
    (v : V) : HashTable.find (HashTable.set t k v) k = some v := by
  induction t with
  | nil => simp [HashTable.set, HashTable.find]
  | cons hd tl ih =>
    obtain ⟨k', v'⟩ := hd
    by_cases h : k' = k
    · simp [HashTable.set, HashTable.find, h]
    · simp [HashTable.set, HashTable.find, h, ih]

theorem HashTable.find_set_other {K V : Type} [DecidableEq K] (t : HashTable K V) (k k2 : K)
    (v : V) (hne : k2 ≠ k) :
    HashTable.find (HashTable.set t k v) k2 = HashTable.find t k2 := by
  induction t with
  | nil =>
    have h : ¬ k = k2 := fun e => hne e.symm
    simp [HashTable.set, HashTable.find, h]
  | cons hd tl ih =>
    obtain ⟨k', v'⟩ := hd
    by_cases h : k' = k
    · subst h
      have h2 : ¬ k' = k2 := fun e => hne e.symm
      simp [HashTable.set, HashTable.find, h2]
    · by_cases h3 : k' = k2
      · subst h3
        simp [HashTable.set, HashTable.find, hne]
      · simp [HashTable.set, HashTable.find, h, h3, ih]

theorem add_client_present (a : SdnAgent) (eth : EtherAddress) (ip : IPAddress)
    (h : HashTable.find a._client_table eth ≠ none) : add_client a eth ip = a := by
  simp [add_client, h]

theorem add_client_find_self (a : SdnAgent) (eth : EtherAddress) (ip : IPAddress) :
    HashTable.find (add_client a eth ip)._client_table eth ≠ none := by
  unfold add_client
  by_cases h : HashTable.find a._client_table eth = none
  · simp [h, HashTable.find_set_self]
  · simp [h]

/-! ## The client registry -/

/-- Claim C10: `add_client` is insert-if-absent.  When `mac` is not a key of the
client table, a lookup of `mac` after `add_client mac ip` yields a client with
that address and that IP, every other key looks up as before and nothing else
in the agent changes; when `mac` is already a key, `add_client mac ip2` leaves
the whole agent unchanged; and in every case `add_client mac ip` followed by
`add_client mac ip2` equals `add_client mac ip` alone, with the looked-up IP
that of the first call when `mac` was absent. -/
theorem add_client_insert_if_absent (a : SdnAgent) (mac : EtherAddress) (ip ip2 : IPAddress) :
    (HashTable.find a._client_table mac = none →
        (∃ c, HashTable.find (add_client a mac ip)._client_table mac = some c
              ∧ c._mac = mac ∧ c._ipaddr = ip)
        ∧ (∀ other, other ≠ mac →
              HashTable.find (add_client a mac ip)._client_table other
                = HashTable.find a._client_table other)
        ∧ { add_client a mac ip with _client_table := a._client_table } = a
        ∧ (∃ c, HashTable.find (add_client (add_client a mac ip) mac ip2)._client_table mac
                  = some c ∧ c._ipaddr = ip))
    ∧ (HashTable.find a._client_table mac ≠ none → add_client a mac ip2 = a)
    ∧ add_client (add_client a mac ip) mac ip2 = add_client a mac ip := by
  have hidem : add_client (add_client a mac ip) mac ip2 = add_client a mac ip :=
    add_client_present _ _ _ (add_client_find_self a mac ip)
  refine ⟨fun habs => ?_, fun hpres => add_client_present a mac ip2 hpres, hidem⟩
  have hself : ∃ c, HashTable.find (add_client a mac ip)._client_table mac = some c
      ∧ c._mac = mac ∧ c._ipaddr = ip := by
    refine ⟨{ _mac := mac, _ipaddr := ip, _byte_up_rate := RateEstimator.fresh
              _byte_down_rate := RateEstimator.fresh }, ?_, rfl, rfl⟩
    simp only [add_client, habs, if_true]
    exact HashTable.find_set_self _ _ _
  refine ⟨hself, ?_, ?_, ?_⟩
  · intro other hne
    simp only [add_client, habs, if_true]
    exact HashTable.find_set_other _ _ _ _ hne
  · simp [add_client, habs]
  · rw [hidem]
    obtain ⟨c, hc, _, hip⟩ := hself
    exact ⟨c, hc, hip⟩

/-! ## Lemmas on the reply builders -/

theorem be_be32 (v : Nat) : be (be32 v) = v % 4294967296 := by
  simp [be, be32]
  omega

theorem bytesAt_bytesAt (p : List Nat) (off n : Nat) :
    bytesAt (bytesAt p off n) 0 n = bytesAt p off n := by
  unfold bytesAt
  apply List.ext_getElem
  · simp
  · intro i h1 h2
    simp at h1
    simp [List.getD_eq_getElem?_getD, h1]

theorem OptCursor.put_zeros (pre : List Nat) (n b : Nat) :
    OptCursor.put ⟨pre ++ List.replicate (n + 1) 0, pre.length⟩ b
      = ⟨(pre ++ [b]) ++ List.replicate n 0, (pre ++ [b]).length⟩ := by
  simp [OptCursor.put, List.replicate_succ]

theorem OptCursor.put32_zeros (pre : List Nat) (n v : Nat) :
    OptCursor.put32 ⟨pre ++ List.replicate (n + 4) 0, pre.length⟩ v
      = ⟨(pre ++ be32 v) ++ List.replicate n 0, (pre ++ be32 v).length⟩ := by
  unfold OptCursor.put32 be32
  simp only [List.foldl_cons, List.foldl_nil]
  rw [OptCursor.put_zeros pre (n + 3), OptCursor.put_zeros _ (n + 2),
    OptCursor.put_zeros _ (n + 1), OptCursor.put_zeros _ n]
  simp

theorem OptCursor.poke_zeros (pre : List Nat) (n b : Nat) :
    (OptCursor.poke ⟨pre ++ List.replicate (n + 1) 0, pre.length⟩ b).buf
      = (pre ++ [b]) ++ List.replicate n 0 := by
  simp [OptCursor.poke, List.replicate_succ]

theorem make_ack_options_eq (t : DHCPLeaseTable) (lease : Lease) :
    make_ack_options t lease =
      [53, 1, 5] ++ [51, 4] ++ be32 (lease._duration.sec % 4294967296).toNat
        ++ [54, 4] ++ be32 t._ip ++ [1, 4] ++ be32 t._subnet ++ [3, 4] ++ be32 t._ip
        ++ [6, 4] ++ be32 t._dns ++ [255] ++ List.replicate 278 0 := by
  unfold make_ack_options
  simp only [DHCP_OPTIONS_SIZE]
  have h0 : ({ buf := List.replicate 312 0, ptr := 0 } : OptCursor)
      = ⟨[] ++ List.replicate (311 + 1) 0, ([] : List Nat).length⟩ := rfl
  rw [h0, OptCursor.put_zeros, OptCursor.put_zeros _ 310, OptCursor.put_zeros _ 309,
    OptCursor.put_zeros _ 308, OptCursor.put_zeros _ 307, OptCursor.put32_zeros _ 303,
    OptCursor.put_zeros _ 302, OptCursor.put_zeros _ 301, OptCursor.put32_zeros _ 297,
    OptCursor.put_zeros _ 296, OptCursor.put_zeros _ 295, OptCursor.put32_zeros _ 291,
    OptCursor.put_zeros _ 290, OptCursor.put_zeros _ 289, OptCursor.put32_zeros _ 285,
    OptCursor.put_zeros _ 284, OptCursor.put_zeros _ 283, OptCursor.put32_zeros _ 279,
    OptCursor.poke_zeros _ 278]
  simp only [DHO_DHCP_MESSAGE_TYPE, DHCP_ACK, DHO_DHCP_LEASE_TIME, DHO_DHCP_SERVER_IDENTIFIER,
    DHO_SUBNET_MASK, DHO_ROUTERS, DHO_DOMAIN_NAME_SERVERS, DHO_END, List.append_assoc,
    List.cons_append, List.nil_append]

theorem make_nak_options_eq (t : DHCPLeaseTable) :
    make_nak_options t = [53, 1, 6] ++ [54, 4] ++ be32 t._ip ++ [255] ++ List.replicate 302 0 := by
  unfold make_nak_options
  simp only [DHCP_OPTIONS_SIZE]
  have h0 : ({ buf := List.replicate 312 0, ptr := 0 } : OptCursor)
      = ⟨[] ++ List.replicate (311 + 1) 0, ([] : List Nat).length⟩ := rfl
  rw [h0, OptCursor.put_zeros, OptCursor.put_zeros _ 310, OptCursor.put_zeros _ 309,
    OptCursor.put_zeros _ 308, OptCursor.put_zeros _ 307, OptCursor.put32_zeros _ 303,
    OptCursor.poke_zeros _ 302]
  simp only [DHO_DHCP_MESSAGE_TYPE, DHCP_NACK, DHO_DHCP_SERVER_IDENTIFIER, DHO_END,
    List.append_assoc, List.cons_append, List.nil_append]

theorem make_ack_packet_options (a : SdnAgent) (p : Packet) (l : Lease) :
    (make_ack_packet a p l).1.options = make_ack_options a._leases l := by
  simp only [make_ack_packet]

theorem make_ack_packet_yiaddr (a : SdnAgent) (p : Packet) (l : Lease) :
    (make_ack_packet a p l).1.yiaddr = l._ip := by
  simp only [make_ack_packet]

theorem dhcpMessage.msg_type_of_options (m : dhcpMessage) (t : Nat) (rest : List Nat)
    (h : m.options = 53 :: 1 :: t :: rest) : m.msg_type = some t := by
  simp [dhcpMessage.msg_type, h, DHO_DHCP_MESSAGE_TYPE]

theorem make_ack_packet_msg_type (a : SdnAgent) (p : Packet) (l : Lease) :
    (make_ack_packet a p l).1.msg_type = some DHCP_ACK := by
  apply dhcpMessage.msg_type_of_options
  rw [make_ack_packet_options, make_ack_options_eq]
  rfl

theorem make_nak_packet_options (a : SdnAgent) (p : Packet) :
    (make_nak_packet a p).options = make_nak_options a._leases := by
  simp only [make_nak_packet]

theorem make_nak_packet_msg_type (a : SdnAgent) (p : Packet) :
    (make_nak_packet a p).msg_type = some DHCP_NACK := by
  apply dhcpMessage.msg_type_of_options
  rw [make_nak_packet_options, make_nak_options_eq]
  rfl

theorem make_ack_packet_leases (a : SdnAgent) (p : Packet) (l : Lease) :
    (make_ack_packet a p l).2._leases = a._leases := by
  unfold make_ack_packet add_client SdnAgent.output_push
  simp only
  split <;> simp

theorem make_ack_packet_lease_calls (a : SdnAgent) (p : Packet) (l : Lease) :
    (make_ack_packet a p l).2.lease_calls = a.lease_calls := by
  unfold make_ack_packet add_client SdnAgent.output_push
  simp only
  split <;> simp

theorem make_ack_packet_pushed (a : SdnAgent) (p : Packet) (l : Lease) :
    (make_ack_packet a p l).2.pushed
      = a.pushed ++
          (if HashTable.find a._client_table (request_eth p) = none then
            [(0, Pushed.data (client_line (request_eth p) l._ip))]
          else []) := by
  unfold make_ack_packet add_client SdnAgent.output_push request_eth request_msg client_line
  simp only
  split <;> simp

theorem make_ack_packet_registered (a : SdnAgent) (p : Packet) (l : Lease) :
    HashTable.find (make_ack_packet a p l).2._client_table (request_eth p) ≠ none := by
  unfold make_ack_packet
  exact add_client_find_self _ _ _

theorem dhcp_frames_append (xs ys : List (Nat × Pushed)) :
    dhcp_frames (xs ++ ys) = dhcp_frames xs ++ dhcp_frames ys := by
  simp [dhcp_frames, List.filterMap_append]

theorem make_ack_packet_frames (a : SdnAgent) (p : Packet) (l : Lease) :
    dhcp_frames (make_ack_packet a p l).2.pushed = dhcp_frames a.pushed := by
  rw [make_ack_packet_pushed, dhcp_frames_append]
  split <;> simp [dhcp_frames]

/-- Example for claim C10: in the empty registry, adding aa:bb:cc:dd:ee:ff with
10.0.0.5 makes the lookup return that pair, and a second add with 10.0.0.9
changes nothing. -/
theorem add_client_insert_if_absent_witness :
    (∃ c, HashTable.find (add_client (example_agent [] []) example_mac 0x0A000005)._client_table
            example_mac = some c
          ∧ c._mac = example_mac ∧ c._ipaddr = 0x0A000005)
    ∧ add_client (add_client (example_agent [] []) example_mac 0x0A000005) example_mac 0x0A000009
        = add_client (example_agent [] []) example_mac 0x0A000005 :=
  ⟨((add_client_insert_if_absent (example_agent [] []) example_mac 0x0A000005 0x0A000009).1
      (by decide)).1,
   (add_client_insert_if_absent (example_agent [] []) example_mac 0x0A000005 0x0A000009).2.2⟩

theorem ack_sequence_registered (mac : EtherAddress) (xs : List (Packet × Lease)) :
    ∀ a : SdnAgent, HashTable.find a._client_table mac ≠ none →
      (∀ x ∈ xs, request_eth x.1 = mac) → (ack_sequence a xs).pushed = a.pushed := by
  induction xs with
  | nil => intro a _ _; rfl
  | cons hd tl ih =>
    intro a hreg hall
    obtain ⟨p, l⟩ := hd
    have hp : request_eth p = mac := hall (p, l) (List.mem_cons_self _ _)
    have hreg2 : HashTable.find (make_ack_packet a p l).2._client_table mac ≠ none := by
      rw [← hp]; exact make_ack_packet_registered a p l
    have hstep : (make_ack_packet a p l).2.pushed = a.pushed := by
      rw [make_ack_packet_pushed, hp, if_neg hreg, List.append_nil]
    show (ack_sequence (make_ack_packet a p l).2 tl).pushed = a.pushed
    rw [ih _ hreg2 (fun x hx => hall x (List.mem_cons_of_mem _ hx)), hstep]

/-! ## The DHCP reply messages -/

/-- Claim C6: the options block of an ACK is byte-exact.  For every agent
(hence every lease table), request frame and lease, the options area written by
`make_ack_packet` is the 34 bytes 53 1 5, 51 4 and the lease duration in
seconds, 54 4 and the server address, 1 4 and the subnet mask, 3 4 and the
server address again (router), 6 4 and the DNS server, 255, each 32-bit value as
its four bytes most significant first, followed by zeros only; the four
duration bytes denote the duration as the code converts it to 32 bits, which is
the duration itself when it fits; 3600 encodes as 00 00 0E 10 and 10.0.0.1 as
0A 00 00 01. -/
theorem make_ack_packet_options_exact (a : SdnAgent) (p : Packet) (lease : Lease) :
    (make_ack_packet a p lease).1.options
        = [53, 1, 5] ++ [51, 4] ++ be32 (lease._duration.sec % 4294967296).toNat
          ++ [54, 4] ++ be32 a._leases._ip ++ [1, 4] ++ be32 a._leases._subnet
          ++ [3, 4] ++ be32 a._leases._ip ++ [6, 4] ++ be32 a._leases._dns ++ [255]
          ++ List.replicate (DHCP_OPTIONS_SIZE - 34) 0
    ∧ be (be32 (lease._duration.sec % 4294967296).toNat)
        = (lease._duration.sec % 4294967296).toNat
    ∧ (0 ≤ lease._duration.sec → lease._duration.sec < 4294967296 →
        (((lease._duration.sec % 4294967296).toNat : Nat) : Int) = lease._duration.sec)
    ∧ be32 3600 = [0x00, 0x00, 0x0E, 0x10]
    ∧ be32 0x0A000001 = [0x0A, 0x00, 0x00, 0x01]
    ∧ (make_ack_packet (example_agent [] []) example_bare
          (example_lease 0x0A000005 1000)).1.options.take 15
        = [53, 1, 5, 51, 4, 0x00, 0x00, 0x0E, 0x10, 54, 4, 0x0A, 0x00, 0x00, 0x01] := by
  refine ⟨?_, ?_, ?_, by decide, by decide, ?_⟩
  · rw [make_ack_packet_options, make_ack_options_eq]
    rfl
  · rw [be_be32]
    omega
  · intro h0 h1
    omega
  · rw [make_ack_packet_options, make_ack_options_eq]
    decide

/-- Claim C8: the ACK header echoes the request and binds the lease.  For every
agent, request frame and lease, the message built by `make_ack_packet` has
opcode BOOTREPLY, hardware type Ethernet, hardware length 6, hops 0, secs 0,
siaddr 0, the magic cookie, yiaddr the lease address, and transaction id,
flags, ciaddr, gateway address and the 16 bytes of the client hardware address
equal to those of the request message, which starts at byte 42 of the frame
(after the 14-byte Ethernet, 20-byte IP and 8-byte UDP headers). -/
theorem make_ack_packet_header (a : SdnAgent) (p : Packet) (lease : Lease) :
    (make_ack_packet a p lease).1.op = DHCP_BOOTREPLY
    ∧ (make_ack_packet a p lease).1.htype = ARPHRD_ETHER
    ∧ (make_ack_packet a p lease).1.hlen = 6
    ∧ (make_ack_packet a p lease).1.hops = 0
    ∧ (make_ack_packet a p lease).1.secs = 0
    ∧ (make_ack_packet a p lease).1.siaddr = 0
    ∧ (make_ack_packet a p lease).1.magic = DHCP_MAGIC
    ∧ (make_ack_packet a p lease).1.yiaddr = lease._ip
    ∧ (make_ack_packet a p lease).1.xid = (request_msg p).xid
    ∧ (make_ack_packet a p lease).1.flags = (request_msg p).flags
    ∧ (make_ack_packet a p lease).1.ciaddr = (request_msg p).ciaddr
    ∧ (make_ack_packet a p lease).1.giaddr = (request_msg p).giaddr
    ∧ (make_ack_packet a p lease).1.chaddr = (request_msg p).chaddr
    ∧ ((make_ack_packet a p lease).1.chaddr).length = 16
    ∧ request_msg p = dhcpMessage.cast p 42
    ∧ (request_msg p).xid = be (bytesAt p 46 4)
    ∧ (request_msg p).chaddr = bytesAt p 70 16 := by
  have hch : (make_ack_packet a p lease).1.chaddr = (request_msg p).chaddr := by
    simp only [make_ack_packet, request_msg, dhcpMessage.cast, bytesAt_bytesAt]
  have hlen : ((make_ack_packet a p lease).1.chaddr).length = 16 := by
    rw [hch]
    simp [request_msg, dhcpMessage.cast, bytesAt]
  refine ⟨?_, ?_, ?_, ?_, ?_, ?_, ?_, ?_, ?_, ?_, ?_, ?_, hch, hlen, rfl, rfl, rfl⟩
  all_goals simp only [make_ack_packet, request_msg]

/-- Claim C9: the new-client line is sent exactly once.  For every agent state
and every ACK built by `make_ack_packet` for a request whose client hardware
address is `mac` and a lease with address `ip`: what the ACK pushes is the
single line `client|<mac>|<ip>` (newline-terminated) on output 0 when `mac` was
not in the client table, and nothing when it was; afterwards `mac` is in the
table; hence a run of ACKs for the same `mac`, starting with the one that first
binds it and with nothing in between, pushes exactly one line, that of the
first ACK; for aa:bb:cc:dd:ee:ff and 10.0.0.5 the line is
`client|aa:bb:cc:dd:ee:ff|10.0.0.5`. -/
theorem make_ack_packet_client_line_once (a : SdnAgent) (p : Packet) (lease : Lease) :
    (HashTable.find a._client_table (request_eth p) = none →
        (make_ack_packet a p lease).2.pushed
          = a.pushed ++ [(0, Pushed.data (client_line (request_eth p) lease._ip))])
    ∧ (HashTable.find a._client_table (request_eth p) ≠ none →
        (make_ack_packet a p lease).2.pushed = a.pushed)
    ∧ HashTable.find (make_ack_packet a p lease).2._client_table (request_eth p) ≠ none
    ∧ (∀ rest : List (Packet × Lease),
        HashTable.find a._client_table (request_eth p) = none →
        (∀ x ∈ rest, request_eth x.1 = request_eth p) →
        (ack_sequence a ((p, lease) :: rest)).pushed
          = a.pushed ++ [(0, Pushed.data (client_line (request_eth p) lease._ip))])
    ∧ client_line [0xaa, 0xbb, 0xcc, 0xdd, 0xee, 0xff] 0x0A000005
        = strBytes "client|aa:bb:cc:dd:ee:ff|10.0.0.5\n" := by
  have h1 : HashTable.find a._client_table (request_eth p) = none →
      (make_ack_packet a p lease).2.pushed
        = a.pushed ++ [(0, Pushed.data (client_line (request_eth p) lease._ip))] := by
    intro h
    rw [make_ack_packet_pushed, if_pos h]
  refine ⟨h1, ?_, make_ack_packet_registered a p lease, ?_, by decide⟩
  · intro h
    rw [make_ack_packet_pushed, if_neg h, List.append_nil]
  · intro rest habs hall
    show (ack_sequence (make_ack_packet a p lease).2 rest).pushed = _
    rw [ack_sequence_registered (request_eth p) rest _
      (make_ack_packet_registered a p lease) hall, h1 habs]

/-- Example for claim C9: three ACKs in a row for the example client, starting
from the empty registry, push the one line of the first ACK and nothing else. -/
theorem make_ack_packet_client_line_once_witness :
    (ack_sequence (example_agent [] [])
        [(example_bare, example_lease 0x0A000005 1000),
         (example_renew, example_lease 0x0A000005 1000),
         (example_selecting, example_lease 0x0A000009 1000)]).pushed
      = (example_agent [] []).pushed
          ++ [(0, Pushed.data (client_line (request_eth example_bare)
                (example_lease 0x0A000005 1000)._ip))] :=
  (make_ack_packet_client_line_once (example_agent [] []) example_bare
      (example_lease 0x0A000005 1000)).2.2.2.1
    [(example_renew, example_lease 0x0A000005 1000),
     (example_selecting, example_lease 0x0A000009 1000)]
    (by decide) (by decide)

/-! ## Lemmas on `send_dhcp_ack_or_nak`, one per path through the branches -/

theorem dhcp_frames_output_push (x : SdnAgent) (port : Nat) (r : DhcpReply) :
    dhcp_frames (x.output_push port (Pushed.dhcp r)).pushed
      = dhcp_frames x.pushed ++ [(port, r)] := by
  simp [SdnAgent.output_push, dhcp_frames, List.filterMap_append]

theorem dhcp_reply_frame_msg (t : DHCPLeaseTable) (p : Packet) (q : dhcpMessage) :
    (dhcp_reply_frame t p q).msg = q := rfl

theorem ack_reply_facts (x : SdnAgent) (t : DHCPLeaseTable) (port : Nat) (p : Packet)
    (l : Lease) (frames0 : List (Nat × DhcpReply)) (h0 : dhcp_frames x.pushed = frames0) :
    ∃ r, dhcp_frames ((make_ack_packet x p l).2.output_push port
              (Pushed.dhcp (dhcp_reply_frame t p (make_ack_packet x p l).1))).pushed
            = frames0 ++ [(port, r)]
         ∧ r.msg = (make_ack_packet x p l).1
         ∧ r.msg.msg_type = some DHCP_ACK ∧ r.msg.yiaddr = l._ip := by
  refine ⟨dhcp_reply_frame t p (make_ack_packet x p l).1, ?_, ?_, ?_, ?_⟩
  · rw [dhcp_frames_output_push, make_ack_packet_frames, h0]
  · rw [dhcp_reply_frame_msg]
  · rw [dhcp_reply_frame_msg]
    exact make_ack_packet_msg_type x p l
  · rw [dhcp_reply_frame_msg]
    exact make_ack_packet_yiaddr x p l

theorem ack_reply_facts_short (x : SdnAgent) (t : DHCPLeaseTable) (port : Nat) (p : Packet)
    (l : Lease) (frames0 : List (Nat × DhcpReply)) (h0 : dhcp_frames x.pushed = frames0) :
    ∃ r, dhcp_frames ((make_ack_packet x p l).2.output_push port
              (Pushed.dhcp (dhcp_reply_frame t p (make_ack_packet x p l).1))).pushed
            = frames0 ++ [(port, r)]
         ∧ r.msg.msg_type = some DHCP_ACK ∧ r.msg.yiaddr = l._ip := by
  obtain ⟨r, h1, _, h3, h4⟩ := ack_reply_facts x t port p l frames0 h0
  exact ⟨r, h1, h3, h4⟩

theorem dhcp_frames_ne_append (xs : List (Nat × DhcpReply)) (x : Nat × DhcpReply) :
    xs ≠ xs ++ [x] := by
  intro h
  have := congrArg List.length h
  simp at this

theorem send_unsupported (env : Env) (a : SdnAgent) (port : Nat) (p : Packet)
    (hc : (request_msg p).ciaddr ≠ 0)
    (hro : request_requested_ip env p ≠ 0 ∨ request_server env p ≠ 0) :
    send_dhcp_ack_or_nak env a port p = a := by
  unfold send_dhcp_ack_or_nak
  simp only [hc, false_and, and_false, if_false, ne_eq, not_false_eq_true, and_true]
  have h4 : ¬ (request_server env p = 0 ∧ request_requested_ip env p = 0) := by
    rintro ⟨h1, h2⟩
    cases hro with
    | inl h => exact h h2
    | inr h => exact h h1
  simp only [h4, if_false]

theorem send_selecting_ack (env : Env) (a : SdnAgent) (port : Nat) (p : Packet)
    (hc : (request_msg p).ciaddr = 0) (hr : request_requested_ip env p ≠ 0)
    (hs : request_server env p ≠ 0) (l : Lease)
    (hl : a._leases.rev_lookup (request_eth p) = some l)
    (hip : l._ip = request_requested_ip env p) :
    send_dhcp_ack_or_nak env a port p =
      ({ (make_ack_packet a p l).2 with
          _leases := a._leases.store (request_eth p) { l with _valid := true } }).output_push port
        (Pushed.dhcp (dhcp_reply_frame a._leases p
          (make_ack_packet a p l).1)) := by
  unfold send_dhcp_ack_or_nak
  unfold request_eth at hl
  simp only [hc, hr, hs, hl, hip, ne_eq, not_false_eq_true, and_true, if_true,
    false_and, if_false, and_self]
  simp [DHCPLeaseTable.store, make_ack_packet_leases, request_eth, dhcp_reply_frame]

theorem send_selecting_none (env : Env) (a : SdnAgent) (port : Nat) (p : Packet)
    (hc : (request_msg p).ciaddr = 0) (hr : request_requested_ip env p ≠ 0)
    (hs : request_server env p ≠ 0)
    (hno : ¬ ∃ l, a._leases.rev_lookup (request_eth p) = some l
                  ∧ l._ip = request_requested_ip env p) :
    send_dhcp_ack_or_nak env a port p = a := by
  unfold send_dhcp_ack_or_nak
  unfold request_eth at hno
  simp only [hc, hr, hs, ne_eq, not_false_eq_true, and_true, if_true, and_false, if_false,
    and_self]
  cases hl : a._leases.rev_lookup (EtherAddress.ofData (request_msg p).chaddr) with
  | none => rfl
  | some l =>
    have hne : ¬ l._ip = request_requested_ip env p := fun h => hno ⟨l, hl, h⟩
    simp only [hne, if_false]

theorem send_init_reboot_ack (env : Env) (a : SdnAgent) (port : Nat) (p : Packet)
    (hc : (request_msg p).ciaddr = 0) (hr : request_requested_ip env p ≠ 0)
    (hs : request_server env p = 0) (l : Lease)
    (hl : a._leases.rev_lookup (request_eth p) = some l)
    (hip : l._ip = request_requested_ip env p)
    (hexp : Timestamp.lt l._end env.now = false) :
    send_dhcp_ack_or_nak env a port p =
      (make_ack_packet
          { a with _leases := a._leases.store (request_eth p) { l with _valid := true } }
          p { l with _valid := true }).2.output_push port
        (Pushed.dhcp (dhcp_reply_frame a._leases p
          (make_ack_packet
                                { a with _leases := a._leases.store (request_eth p)
                                                      { l with _valid := true } }
                                p { l with _valid := true }).1)) := by
  unfold send_dhcp_ack_or_nak
  unfold request_eth at hl
  simp only [hc, hr, hs, hl, hip, hexp, ne_eq, not_false_eq_true, and_true, if_true,
    and_false, false_and, if_false, and_self, not_true_eq_false, true_and]
  simp [DHCPLeaseTable.store, make_ack_packet_leases, request_eth, dhcp_reply_frame]

theorem send_init_reboot_nak (env : Env) (a : SdnAgent) (port : Nat) (p : Packet)
    (hc : (request_msg p).ciaddr = 0) (hr : request_requested_ip env p ≠ 0)
    (hs : request_server env p = 0) (l : Lease)
    (hl : a._leases.rev_lookup (request_eth p) = some l)
    (hip : l._ip = request_requested_ip env p)
    (hexp : Timestamp.lt l._end env.now = true) :
    send_dhcp_ack_or_nak env a port p =
      a.output_push port
        (Pushed.dhcp (dhcp_reply_frame a._leases p
          (make_nak_packet a p))) := by
  unfold send_dhcp_ack_or_nak
  unfold request_eth at hl
  simp only [hc, hr, hs, hl, hip, hexp, ne_eq, not_false_eq_true, and_true, if_true,
    and_false, false_and, if_false, and_self, not_true_eq_false, true_and, dhcp_reply_frame]

theorem send_init_reboot_none (env : Env) (a : SdnAgent) (port : Nat) (p : Packet)
    (hc : (request_msg p).ciaddr = 0) (hr : request_requested_ip env p ≠ 0)
    (hs : request_server env p = 0)
    (hno : ¬ ∃ l, a._leases.rev_lookup (request_eth p) = some l
                  ∧ l._ip = request_requested_ip env p) :
    send_dhcp_ack_or_nak env a port p = a := by
  unfold send_dhcp_ack_or_nak
  unfold request_eth at hno
  simp only [hc, hr, hs, ne_eq, not_false_eq_true, and_true, if_true, and_false, if_false,
    and_self, not_true_eq_false, false_and, true_and]
  cases hl : a._leases.rev_lookup (EtherAddress.ofData (request_msg p).chaddr) with
  | none => rfl
  | some l =>
    have hne : ¬ l._ip = request_requested_ip env p := fun h => hno ⟨l, hl, h⟩
    simp only [hne, if_false]

theorem send_renew_ack (env : Env) (a : SdnAgent) (port : Nat) (p : Packet)
    (hc : (request_msg p).ciaddr ≠ 0) (hr : request_requested_ip env p = 0)
    (hs : request_server env p = 0) (l : Lease)
    (hl : a._leases.rev_lookup (request_eth p) = some l) :
    send_dhcp_ack_or_nak env a port p =
      (make_ack_packet
          { a with _leases := a._leases.store (request_eth p)
                                (env.extend env.now { l with _valid := true })
                   lease_calls := a.lease_calls ++ [LeaseCall.extend (request_eth p)] }
          p (env.extend env.now { l with _valid := true })).2.output_push port
        (Pushed.dhcp (dhcp_reply_frame a._leases p
          (make_ack_packet
                                { a with _leases := a._leases.store (request_eth p)
                                                      (env.extend env.now { l with _valid := true })
                                         lease_calls := a.lease_calls
                                                          ++ [LeaseCall.extend (request_eth p)] }
                                p (env.extend env.now { l with _valid := true })).1)) := by
  unfold send_dhcp_ack_or_nak
  unfold request_eth at hl
  simp only [hc, hr, hs, hl, ne_eq, not_false_eq_true, and_true, if_true,
    and_false, false_and, if_false, and_self, not_true_eq_false, true_and]
  simp [DHCPLeaseTable.store, make_ack_packet_leases, request_eth, dhcp_reply_frame]

theorem send_renew_none (env : Env) (a : SdnAgent) (port : Nat) (p : Packet)
    (hc : (request_msg p).ciaddr ≠ 0) (hr : request_requested_ip env p = 0)
    (hs : request_server env p = 0)
    (hl : a._leases.rev_lookup (request_eth p) = none) :
    send_dhcp_ack_or_nak env a port p = a := by
  unfold send_dhcp_ack_or_nak
  unfold request_eth at hl
  simp only [hc, hr, hs, hl, ne_eq, not_false_eq_true, and_true, if_true,
    and_false, false_and, if_false, and_self, not_true_eq_false, true_and]

theorem send_nostate_bound (env : Env) (a : SdnAgent) (port : Nat) (p : Packet)
    (hc : (request_msg p).ciaddr = 0) (hr : request_requested_ip env p = 0) (l : Lease)
    (hl : a._leases.rev_lookup (request_eth p) = some l) :
    send_dhcp_ack_or_nak env a port p =
      (make_ack_packet a p l).2.output_push port
        (Pushed.dhcp (dhcp_reply_frame a._leases p
          (make_ack_packet a p l).1)) := by
  unfold send_dhcp_ack_or_nak
  unfold request_eth at hl
  simp only [hc, hr, hl, and_self, if_true]
  simp [make_ack_packet_leases, dhcp_reply_frame]

theorem send_nostate_alloc (env : Env) (a : SdnAgent) (port : Nat) (p : Packet)
    (hc : (request_msg p).ciaddr = 0) (hr : request_requested_ip env p = 0)
    (hl : a._leases.rev_lookup (request_eth p) = none) (l : Lease)
    (hnew : (env.new_lease_any a._leases (request_eth p)).1 = some l) :
    send_dhcp_ack_or_nak env a port p =
      (make_ack_packet
          { a with _leases := (env.new_lease_any a._leases (request_eth p)).2
                   lease_calls := a.lease_calls ++ [LeaseCall.new_lease_any (request_eth p)] }
          p l).2.output_push port
        (Pushed.dhcp (dhcp_reply_frame (env.new_lease_any a._leases (request_eth p)).2 p
          (make_ack_packet
                                { a with _leases := (env.new_lease_any a._leases (request_eth p)).2
                                         lease_calls := a.lease_calls
                                            ++ [LeaseCall.new_lease_any (request_eth p)] }
                                p l).1)) := by
  unfold send_dhcp_ack_or_nak
  unfold request_eth at hl hnew
  simp only [hc, hr, hl, hnew, and_self, if_true]
  simp [make_ack_packet_leases, request_eth, dhcp_reply_frame]

theorem send_nostate_exhausted (env : Env) (a : SdnAgent) (port : Nat) (p : Packet)
    (hc : (request_msg p).ciaddr = 0) (hr : request_requested_ip env p = 0)
    (hl : a._leases.rev_lookup (request_eth p) = none)
    (hnew : (env.new_lease_any a._leases (request_eth p)).1 = none) :
    send_dhcp_ack_or_nak env a port p =
      { a with _leases := (env.new_lease_any a._leases (request_eth p)).2
               lease_calls := a.lease_calls ++ [LeaseCall.new_lease_any (request_eth p)] } := by
  unfold send_dhcp_ack_or_nak
  unfold request_eth at hl hnew
  simp only [hc, hr, hl, hnew, and_self, if_true]
  simp [request_eth]

/-! ## The lease decision -/

/-- Claim C1 (SELECTING), as amended: for every request with `ciaddr` zero, a
requested-address option that carries an address other than 0.0.0.0 and a
server-identifier option that carries an address other than 0.0.0.0: a reply
frame is pushed if and only if `rev_lookup` of the client hardware address
finds a lease whose address equals the requested one; the reply is then the
ACK built for that lease, with `yiaddr` the lease address; and when there is no
lease or its address differs, the agent state is unchanged, so nothing is
pushed. -/
theorem send_dhcp_selecting (env : Env) (a : SdnAgent) (port : Nat) (p : Packet)
    (hc : (request_msg p).ciaddr = 0) (hr : request_requested_ip env p ≠ 0)
    (hs : request_server env p ≠ 0) :
    ((∃ r, dhcp_frames (send_dhcp_ack_or_nak env a port p).pushed
              = dhcp_frames a.pushed ++ [(port, r)])
        ↔ ∃ l, a._leases.rev_lookup (request_eth p) = some l
               ∧ l._ip = request_requested_ip env p)
    ∧ (∀ l, a._leases.rev_lookup (request_eth p) = some l →
         l._ip = request_requested_ip env p →
         ∃ r, dhcp_frames (send_dhcp_ack_or_nak env a port p).pushed
                = dhcp_frames a.pushed ++ [(port, r)]
              ∧ r.msg = (make_ack_packet a p l).1
              ∧ r.msg.msg_type = some DHCP_ACK ∧ r.msg.yiaddr = l._ip)
    ∧ ((¬ ∃ l, a._leases.rev_lookup (request_eth p) = some l
               ∧ l._ip = request_requested_ip env p) →
         send_dhcp_ack_or_nak env a port p = a) := by
  have hack : ∀ l, a._leases.rev_lookup (request_eth p) = some l →
      l._ip = request_requested_ip env p →
      ∃ r, dhcp_frames (send_dhcp_ack_or_nak env a port p).pushed
              = dhcp_frames a.pushed ++ [(port, r)]
            ∧ r.msg = (make_ack_packet a p l).1
            ∧ r.msg.msg_type = some DHCP_ACK ∧ r.msg.yiaddr = l._ip := by
    intro l hl hip
    rw [send_selecting_ack env a port p hc hr hs l hl hip]
    obtain ⟨r, h1, h2, h3, h4⟩ :=
      ack_reply_facts a a._leases port p l (dhcp_frames a.pushed) rfl
    exact ⟨r, h1, h2, h3, h4⟩
  refine ⟨⟨?_, ?_⟩, hack, send_selecting_none env a port p hc hr hs⟩
  · rintro ⟨r, hframes⟩
    by_contra hno
    rw [send_selecting_none env a port p hc hr hs hno] at hframes
    exact dhcp_frames_ne_append _ _ hframes
  · rintro ⟨l, hl, hip⟩
    obtain ⟨r, hframes, _⟩ := hack l hl hip
    exact ⟨r, hframes⟩

/-- Example for claim C1: the example SELECTING request (requested address
10.0.0.5, server identifier 192.0.2.1) is answered by an ACK binding 10.0.0.5
when the client's lease is 10.0.0.5, and changes nothing when the lease is
10.0.0.9. -/
theorem send_dhcp_selecting_witness :
    (∃ r, dhcp_frames (send_dhcp_ack_or_nak (example_env none ⟨100, 0⟩)
              (example_bound 0x0A000005 1000) 1 example_selecting).pushed
            = dhcp_frames (example_bound 0x0A000005 1000).pushed ++ [(1, r)]
          ∧ r.msg = (make_ack_packet (example_bound 0x0A000005 1000) example_selecting
                      (example_lease 0x0A000005 1000)).1
          ∧ r.msg.msg_type = some DHCP_ACK
          ∧ r.msg.yiaddr = (example_lease 0x0A000005 1000)._ip)
    ∧ send_dhcp_ack_or_nak (example_env none ⟨100, 0⟩) (example_bound 0x0A000009 1000) 1
          example_selecting
        = example_bound 0x0A000009 1000 :=
  ⟨(send_dhcp_selecting (example_env none ⟨100, 0⟩) (example_bound 0x0A000005 1000) 1
      example_selecting (by decide) (by decide) (by decide)).2.1
      (example_lease 0x0A000005 1000) (by decide) (by decide),
   (send_dhcp_selecting (example_env none ⟨100, 0⟩) (example_bound 0x0A000009 1000) 1
      example_selecting (by decide) (by decide) (by decide)).2.2
      (by
        rintro ⟨l, hl, hip⟩
        have h9 : (example_bound 0x0A000009 1000)._leases.rev_lookup
            (request_eth example_selecting) = some (example_lease 0x0A000009 1000) := by decide
        rw [h9] at hl
        cases hl
        revert hip
        decide)⟩

/-- Claim C1 fails as stated: the example request with no `ciaddr`, a server
identifier 192.0.2.1 and a requested-address option that carries 0.0.0.0 has
both options present, and the example client's lease 10.0.0.5 is not the
requested address 0.0.0.0; yet a reply is pushed, an ACK binding 10.0.0.5: the
branch conditions test the addresses, not the options, and take the request for
a no-state one.  So "a reply if and only if the lease has the requested
address" does not hold for all requests in which both options are present. -/
theorem send_dhcp_selecting_counterexample :
    (request_msg example_zero_requested).ciaddr = 0
    ∧ (example_env none ⟨100, 0⟩).fetch example_zero_requested DHO_DHCP_REQUESTED_ADDRESS 4
        = some [0, 0, 0, 0]
    ∧ (example_env none ⟨100, 0⟩).fetch example_zero_requested DHO_DHCP_SERVER_IDENTIFIER 4
        = some [192, 0, 2, 1]
    ∧ (example_bound 0x0A000005 1000)._leases.rev_lookup (request_eth example_zero_requested)
        = some (example_lease 0x0A000005 1000)
    ∧ (example_lease 0x0A000005 1000)._ip = 0x0A000005
    ∧ request_requested_ip (example_env none ⟨100, 0⟩) example_zero_requested = 0
    ∧ (dhcp_frames (send_dhcp_ack_or_nak (example_env none ⟨100, 0⟩)
          (example_bound 0x0A000005 1000) 1 example_zero_requested).pushed).map
        (fun e => (e.1, e.2.msg.msg_type, e.2.msg.yiaddr))
        = [(1, some DHCP_ACK, 0x0A000005)]
    ∧ ¬ (∀ (env : Env) (a : SdnAgent) (port : Nat) (p : Packet),
          (request_msg p).ciaddr = 0 →
          env.fetch p DHO_DHCP_REQUESTED_ADDRESS 4 ≠ none →
          env.fetch p DHO_DHCP_SERVER_IDENTIFIER 4 ≠ none →
          ((∃ r, dhcp_frames (send_dhcp_ack_or_nak env a port p).pushed
                    = dhcp_frames a.pushed ++ [(port, r)])
            ↔ ∃ l, a._leases.rev_lookup (request_eth p) = some l
                   ∧ l._ip = request_requested_ip env p)) := by
  have hframes : (dhcp_frames (send_dhcp_ack_or_nak (example_env none ⟨100, 0⟩)
      (example_bound 0x0A000005 1000) 1 example_zero_requested).pushed).map
        (fun e => (e.1, e.2.msg.msg_type, e.2.msg.yiaddr))
      = [(1, some DHCP_ACK, 0x0A000005)] := by decide
  refine ⟨by decide, by decide, by decide, by decide, by decide, by decide, hframes, ?_⟩
  intro h
  have h1 := h (example_env none ⟨100, 0⟩) (example_bound 0x0A000005 1000) 1
    example_zero_requested (by decide) (by decide) (by decide)
  have hpush : ∃ r, dhcp_frames (send_dhcp_ack_or_nak (example_env none ⟨100, 0⟩)
      (example_bound 0x0A000005 1000) 1 example_zero_requested).pushed
        = dhcp_frames (example_bound 0x0A000005 1000).pushed ++ [(1, r)] := by
    cases hf : dhcp_frames (send_dhcp_ack_or_nak (example_env none ⟨100, 0⟩)
        (example_bound 0x0A000005 1000) 1 example_zero_requested).pushed with
    | nil => rw [hf] at hframes; cases hframes
    | cons x rest =>
      rw [hf] at hframes
      cases rest with
      | nil =>
        refine ⟨x.2, ?_⟩
        have hx : x.1 = 1 := by
          have := congrArg (fun l => l.map (fun t => t.1)) hframes
          simpa using this
        have hx2 : x = (1, x.2) := by rw [← hx]
        rw [hx2]
        rfl
      | cons y rest2 =>
        have := congrArg List.length hframes
        simp at this
  obtain ⟨l, hl, hip⟩ := h1.1 hpush
  have hl2 : (example_bound 0x0A000005 1000)._leases.rev_lookup
      (request_eth example_zero_requested) = some (example_lease 0x0A000005 1000) := by decide
  rw [hl2] at hl
  cases hl
  revert hip
  decide

/-- Claim C2 (INIT-REBOOT), as amended: for every request with `ciaddr` zero, a
requested-address option that carries an address other than 0.0.0.0 and no
server identifier (none, or one that carries 0.0.0.0): when a lease is bound to the
hardware address with the requested address and its expiry is not earlier than
the clock, the lease is stored back with its validity flag true and an ACK for
it is pushed; when such a lease has an expiry earlier than the clock, the only
change to the agent is one pushed frame carrying the NAK (so the lease and its
validity flag are as before); when no lease is bound or its address differs,
the agent state is unchanged and nothing is pushed. -/
theorem send_dhcp_init_reboot (env : Env) (a : SdnAgent) (port : Nat) (p : Packet)
    (hc : (request_msg p).ciaddr = 0) (hr : request_requested_ip env p ≠ 0)
    (hs : request_server env p = 0) :
    (∀ l, a._leases.rev_lookup (request_eth p) = some l →
        l._ip = request_requested_ip env p → Timestamp.lt l._end env.now = false →
        (send_dhcp_ack_or_nak env a port p)._leases.rev_lookup (request_eth p)
            = some { l with _valid := true }
        ∧ ∃ r, dhcp_frames (send_dhcp_ack_or_nak env a port p).pushed
                 = dhcp_frames a.pushed ++ [(port, r)]
               ∧ r.msg.msg_type = some DHCP_ACK ∧ r.msg.yiaddr = l._ip)
    ∧ (∀ l, a._leases.rev_lookup (request_eth p) = some l →
        l._ip = request_requested_ip env p → Timestamp.lt l._end env.now = true →
        ∃ r, send_dhcp_ack_or_nak env a port p = a.output_push port (Pushed.dhcp r)
             ∧ dhcp_frames (send_dhcp_ack_or_nak env a port p).pushed
                 = dhcp_frames a.pushed ++ [(port, r)]
             ∧ r.msg = make_nak_packet a p ∧ r.msg.msg_type = some DHCP_NACK
             ∧ (send_dhcp_ack_or_nak env a port p)._leases = a._leases)
    ∧ ((¬ ∃ l, a._leases.rev_lookup (request_eth p) = some l
               ∧ l._ip = request_requested_ip env p) →
         send_dhcp_ack_or_nak env a port p = a) := by
  refine ⟨?_, ?_, send_init_reboot_none env a port p hc hr hs⟩
  · intro l hl hip hexp
    rw [send_init_reboot_ack env a port p hc hr hs l hl hip hexp]
    refine ⟨?_, ack_reply_facts_short _ _ _ _ _ _ rfl⟩
    show (make_ack_packet _ p _).2._leases.rev_lookup (request_eth p) = _
    rw [make_ack_packet_leases]
    exact HashTable.find_set_self _ _ _
  · intro l hl hip hexp
    rw [send_init_reboot_nak env a port p hc hr hs l hl hip hexp]
    refine ⟨dhcp_reply_frame a._leases p (make_nak_packet a p), rfl,
      dhcp_frames_output_push _ _ _, ?_, ?_, rfl⟩
    · rw [dhcp_reply_frame_msg]
    · rw [dhcp_reply_frame_msg]
      exact make_nak_packet_msg_type a p

/-- Example for claim C2: with the example client's lease 10.0.0.5 expiring at
second 1000, the example INIT-REBOOT request at second 100 marks the lease
valid and is answered by an ACK, and at second 2000 it is answered by a NAK
while the lease table stays as it was. -/
theorem send_dhcp_init_reboot_witness :
    ((send_dhcp_ack_or_nak (example_env none ⟨100, 0⟩) (example_bound 0x0A000005 1000) 1
          example_init_reboot)._leases.rev_lookup (request_eth example_init_reboot)
        = some { example_lease 0x0A000005 1000 with _valid := true }
      ∧ ∃ r, dhcp_frames (send_dhcp_ack_or_nak (example_env none ⟨100, 0⟩)
                (example_bound 0x0A000005 1000) 1 example_init_reboot).pushed
              = dhcp_frames (example_bound 0x0A000005 1000).pushed ++ [(1, r)]
            ∧ r.msg.msg_type = some DHCP_ACK
            ∧ r.msg.yiaddr = (example_lease 0x0A000005 1000)._ip)
    ∧ (∃ r, send_dhcp_ack_or_nak (example_env none ⟨2000, 0⟩) (example_bound 0x0A000005 1000) 1
              example_init_reboot
            = (example_bound 0x0A000005 1000).output_push 1 (Pushed.dhcp r)
          ∧ dhcp_frames (send_dhcp_ack_or_nak (example_env none ⟨2000, 0⟩)
                (example_bound 0x0A000005 1000) 1 example_init_reboot).pushed
              = dhcp_frames (example_bound 0x0A000005 1000).pushed ++ [(1, r)]
          ∧ r.msg = make_nak_packet (example_bound 0x0A000005 1000) example_init_reboot
          ∧ r.msg.msg_type = some DHCP_NACK
          ∧ (send_dhcp_ack_or_nak (example_env none ⟨2000, 0⟩) (example_bound 0x0A000005 1000) 1
                example_init_reboot)._leases
              = (example_bound 0x0A000005 1000)._leases) :=
  ⟨(send_dhcp_init_reboot (example_env none ⟨100, 0⟩) (example_bound 0x0A000005 1000) 1
      example_init_reboot (by decide) (by decide) (by decide)).1
      (example_lease 0x0A000005 1000) (by decide) (by decide) (by decide),
   (send_dhcp_init_reboot (example_env none ⟨2000, 0⟩) (example_bound 0x0A000005 1000) 1
      example_init_reboot (by decide) (by decide) (by decide)).2.1
      (example_lease 0x0A000005 1000) (by decide) (by decide) (by decide)⟩

/-- Claim C2 fails as stated: the example request with no `ciaddr`, no server
identifier and a requested-address option that carries 0.0.0.0 has the
requested-address option present and the server identifier absent.  With the
example client's lease 10.0.0.9, which is not the requested address 0.0.0.0, a
reply is pushed all the same, an ACK binding 10.0.0.9; with no lease at all the
allocator is called and its lease 10.0.0.7 is acknowledged: the branch
conditions test the addresses, not the options, and take the request for a
no-state one.  So "no reply when no lease exists or its address differs" does
not hold for all requests in which the requested-address option is present. -/
theorem send_dhcp_init_reboot_counterexample :
    (request_msg example_zero_init_reboot).ciaddr = 0
    ∧ (example_env none ⟨100, 0⟩).fetch example_zero_init_reboot DHO_DHCP_REQUESTED_ADDRESS 4
        = some [0, 0, 0, 0]
    ∧ (example_env none ⟨100, 0⟩).fetch example_zero_init_reboot DHO_DHCP_SERVER_IDENTIFIER 4
        = none
    ∧ (example_bound 0x0A000009 1000)._leases.rev_lookup
          (request_eth example_zero_init_reboot)
        = some (example_lease 0x0A000009 1000)
    ∧ (example_lease 0x0A000009 1000)._ip = 0x0A000009
    ∧ request_requested_ip (example_env none ⟨100, 0⟩) example_zero_init_reboot = 0
    ∧ (dhcp_frames (send_dhcp_ack_or_nak (example_env none ⟨100, 0⟩)
          (example_bound 0x0A000009 1000) 1 example_zero_init_reboot).pushed).map
        (fun e => (e.1, e.2.msg.msg_type, e.2.msg.yiaddr))
        = [(1, some DHCP_ACK, 0x0A000009)]
    ∧ (example_agent [] [])._leases.rev_lookup (request_eth example_zero_init_reboot) = none
    ∧ (send_dhcp_ack_or_nak (example_env (some (example_lease 0x0A000007 1000)) ⟨100, 0⟩)
          (example_agent [] []) 1 example_zero_init_reboot).lease_calls
        = [LeaseCall.new_lease_any example_mac]
    ∧ (dhcp_frames (send_dhcp_ack_or_nak
          (example_env (some (example_lease 0x0A000007 1000)) ⟨100, 0⟩)
          (example_agent [] []) 1 example_zero_init_reboot).pushed).map
        (fun e => (e.1, e.2.msg.msg_type, e.2.msg.yiaddr))
        = [(1, some DHCP_ACK, 0x0A000007)]
    ∧ ¬ (∀ (env : Env) (a : SdnAgent) (port : Nat) (p : Packet),
          (request_msg p).ciaddr = 0 →
          env.fetch p DHO_DHCP_REQUESTED_ADDRESS 4 ≠ none →
          env.fetch p DHO_DHCP_SERVER_IDENTIFIER 4 = none →
          (¬ ∃ l, a._leases.rev_lookup (request_eth p) = some l
                  ∧ l._ip = request_requested_ip env p) →
          dhcp_frames (send_dhcp_ack_or_nak env a port p).pushed = dhcp_frames a.pushed) := by
  have hframes : (dhcp_frames (send_dhcp_ack_or_nak (example_env none ⟨100, 0⟩)
      (example_bound 0x0A000009 1000) 1 example_zero_init_reboot).pushed).map
        (fun e => (e.1, e.2.msg.msg_type, e.2.msg.yiaddr))
      = [(1, some DHCP_ACK, 0x0A000009)] := by decide
  refine ⟨by decide, by decide, by decide, by decide, by decide, by decide, hframes,
    by decide, by decide, by decide, ?_⟩
  intro h
  have h1 := h (example_env none ⟨100, 0⟩) (example_bound 0x0A000009 1000) 1
    example_zero_init_reboot (by decide) (by decide) (by decide)
    (by
      rintro ⟨l, hl, hip⟩
      have hl2 : (example_bound 0x0A000009 1000)._leases.rev_lookup
          (request_eth example_zero_init_reboot)
            = some (example_lease 0x0A000009 1000) := by decide
      rw [hl2] at hl
      cases hl
      revert hip
      decide)
  rw [h1] at hframes
  cases hframes

/-- Claim C3 (RENEW/REBIND): for every request with a non-zero `ciaddr`, no
(zero) requested address and no (zero) server identifier: when a lease is bound
to the hardware address, the lease stored back is the result of setting its
validity flag and then applying `extend()` once (the one call logged), and an
ACK is pushed whose `yiaddr` is that lease's address; as `extend()` leaves the
flag and the address of a lease alone, the flag is then true and the ACK binds
the address the lease had; when no lease is bound, the agent state is
unchanged: nothing is pushed and no allocation is made. -/
theorem send_dhcp_renew (env : Env) (a : SdnAgent) (port : Nat) (p : Packet)
    (hc : (request_msg p).ciaddr ≠ 0) (hr : request_requested_ip env p = 0)
    (hs : request_server env p = 0) :
    (∀ l, a._leases.rev_lookup (request_eth p) = some l →
        (send_dhcp_ack_or_nak env a port p)._leases.rev_lookup (request_eth p)
            = some (env.extend env.now { l with _valid := true })
        ∧ (send_dhcp_ack_or_nak env a port p).lease_calls
            = a.lease_calls ++ [LeaseCall.extend (request_eth p)]
        ∧ (∃ r, dhcp_frames (send_dhcp_ack_or_nak env a port p).pushed
                  = dhcp_frames a.pushed ++ [(port, r)]
                ∧ r.msg.msg_type = some DHCP_ACK
                ∧ r.msg.yiaddr = (env.extend env.now { l with _valid := true })._ip)
        ∧ ((∀ t x, (env.extend t x)._valid = x._valid ∧ (env.extend t x)._ip = x._ip) →
            ∃ l2 r, (send_dhcp_ack_or_nak env a port p)._leases.rev_lookup (request_eth p)
                      = some l2
                    ∧ l2._valid = true ∧ l2._ip = l._ip
                    ∧ dhcp_frames (send_dhcp_ack_or_nak env a port p).pushed
                        = dhcp_frames a.pushed ++ [(port, r)]
                    ∧ r.msg.msg_type = some DHCP_ACK ∧ r.msg.yiaddr = l._ip))
    ∧ (a._leases.rev_lookup (request_eth p) = none →
         send_dhcp_ack_or_nak env a port p = a) := by
  refine ⟨?_, send_renew_none env a port p hc hr hs⟩
  intro l hl
  have hstore : (send_dhcp_ack_or_nak env a port p)._leases.rev_lookup (request_eth p)
      = some (env.extend env.now { l with _valid := true }) := by
    rw [send_renew_ack env a port p hc hr hs l hl]
    show (make_ack_packet _ p _).2._leases.rev_lookup (request_eth p) = _
    rw [make_ack_packet_leases]
    exact HashTable.find_set_self _ _ _
  have hcalls : (send_dhcp_ack_or_nak env a port p).lease_calls
      = a.lease_calls ++ [LeaseCall.extend (request_eth p)] := by
    rw [send_renew_ack env a port p hc hr hs l hl]
    show (make_ack_packet _ p _).2.lease_calls = _
    rw [make_ack_packet_lease_calls]
  have hreply : ∃ r, dhcp_frames (send_dhcp_ack_or_nak env a port p).pushed
        = dhcp_frames a.pushed ++ [(port, r)]
      ∧ r.msg.msg_type = some DHCP_ACK
      ∧ r.msg.yiaddr = (env.extend env.now { l with _valid := true })._ip := by
    rw [send_renew_ack env a port p hc hr hs l hl]
    exact ack_reply_facts_short _ _ _ _ _ _ rfl
  refine ⟨hstore, hcalls, hreply, ?_⟩
  intro hext
  obtain ⟨r, hframes, htype, hy⟩ := hreply
  have h1 := hext env.now { l with _valid := true }
  refine ⟨_, r, hstore, ?_, ?_, hframes, htype, ?_⟩
  · rw [h1.1]
  · rw [h1.2]
  · rw [hy, h1.2]

/-- Example for claim C3: the example renewal request (`ciaddr` 10.0.0.5) for a
client holding the lease 10.0.0.5 logs one `extend` call and is answered by an
ACK binding 10.0.0.5, the stored lease being valid afterwards. -/
theorem send_dhcp_renew_witness :
    (send_dhcp_ack_or_nak (example_env none ⟨100, 0⟩) (example_bound 0x0A000005 1000) 1
        example_renew).lease_calls
      = (example_bound 0x0A000005 1000).lease_calls
          ++ [LeaseCall.extend (request_eth example_renew)]
    ∧ ∃ l2 r, (send_dhcp_ack_or_nak (example_env none ⟨100, 0⟩)
                  (example_bound 0x0A000005 1000) 1 example_renew)._leases.rev_lookup
                  (request_eth example_renew) = some l2
              ∧ l2._valid = true ∧ l2._ip = (example_lease 0x0A000005 1000)._ip
              ∧ dhcp_frames (send_dhcp_ack_or_nak (example_env none ⟨100, 0⟩)
                    (example_bound 0x0A000005 1000) 1 example_renew).pushed
                  = dhcp_frames (example_bound 0x0A000005 1000).pushed ++ [(1, r)]
              ∧ r.msg.msg_type = some DHCP_ACK
              ∧ r.msg.yiaddr = (example_lease 0x0A000005 1000)._ip :=
  ⟨((send_dhcp_renew (example_env none ⟨100, 0⟩) (example_bound 0x0A000005 1000) 1
      example_renew (by decide) (by decide) (by decide)).1
      (example_lease 0x0A000005 1000) (by decide)).2.1,
   ((send_dhcp_renew (example_env none ⟨100, 0⟩) (example_bound 0x0A000005 1000) 1
      example_renew (by decide) (by decide) (by decide)).1
      (example_lease 0x0A000005 1000) (by decide)).2.2.2 (fun _ _ => ⟨rfl, rfl⟩)⟩

/-- Claim C4 (no-state fallback): for every request with `ciaddr` zero and no
(zero) requested address, whatever the server identifier: when a lease is
already bound to the hardware address, no call is made to the allocator, the
lease table is as before and the ACK built for that lease is pushed; when none
is bound, `new_lease_any` is called exactly once, for that hardware address,
and a reply is pushed if and only if the call returns a lease, the reply being
an ACK whose `yiaddr` is the returned lease's address; when the call returns
none, nothing is pushed. -/
theorem send_dhcp_nostate (env : Env) (a : SdnAgent) (port : Nat) (p : Packet)
    (hc : (request_msg p).ciaddr = 0) (hr : request_requested_ip env p = 0) :
    (∀ l, a._leases.rev_lookup (request_eth p) = some l →
        (send_dhcp_ack_or_nak env a port p).lease_calls = a.lease_calls
        ∧ (send_dhcp_ack_or_nak env a port p)._leases = a._leases
        ∧ ∃ r, dhcp_frames (send_dhcp_ack_or_nak env a port p).pushed
                 = dhcp_frames a.pushed ++ [(port, r)]
               ∧ r.msg = (make_ack_packet a p l).1
               ∧ r.msg.msg_type = some DHCP_ACK ∧ r.msg.yiaddr = l._ip)
    ∧ (a._leases.rev_lookup (request_eth p) = none →
        (send_dhcp_ack_or_nak env a port p).lease_calls
            = a.lease_calls ++ [LeaseCall.new_lease_any (request_eth p)]
        ∧ (send_dhcp_ack_or_nak env a port p)._leases
            = (env.new_lease_any a._leases (request_eth p)).2
        ∧ ((∃ r, dhcp_frames (send_dhcp_ack_or_nak env a port p).pushed
                   = dhcp_frames a.pushed ++ [(port, r)])
            ↔ ∃ l, (env.new_lease_any a._leases (request_eth p)).1 = some l)
        ∧ (∀ l, (env.new_lease_any a._leases (request_eth p)).1 = some l →
            ∃ r, dhcp_frames (send_dhcp_ack_or_nak env a port p).pushed
                   = dhcp_frames a.pushed ++ [(port, r)]
                 ∧ r.msg.msg_type = some DHCP_ACK ∧ r.msg.yiaddr = l._ip)
        ∧ ((env.new_lease_any a._leases (request_eth p)).1 = none →
            (send_dhcp_ack_or_nak env a port p).pushed = a.pushed)) := by
  constructor
  · intro l hl
    rw [send_nostate_bound env a port p hc hr l hl]
    exact ⟨make_ack_packet_lease_calls a p l, make_ack_packet_leases a p l,
      ack_reply_facts a a._leases port p l (dhcp_frames a.pushed) rfl⟩
  · intro hl
    have hsome : ∀ l, (env.new_lease_any a._leases (request_eth p)).1 = some l →
        (send_dhcp_ack_or_nak env a port p).lease_calls
            = a.lease_calls ++ [LeaseCall.new_lease_any (request_eth p)]
        ∧ (send_dhcp_ack_or_nak env a port p)._leases
            = (env.new_lease_any a._leases (request_eth p)).2
        ∧ ∃ r, dhcp_frames (send_dhcp_ack_or_nak env a port p).pushed
                 = dhcp_frames a.pushed ++ [(port, r)]
               ∧ r.msg.msg_type = some DHCP_ACK ∧ r.msg.yiaddr = l._ip := by
      intro l hnew
      rw [send_nostate_alloc env a port p hc hr hl l hnew]
      exact ⟨make_ack_packet_lease_calls _ p l, make_ack_packet_leases _ p l,
        ack_reply_facts_short _ _ _ _ _ _ rfl⟩
    cases hnew : (env.new_lease_any a._leases (request_eth p)).1 with
    | none =>
      have hsend := send_nostate_exhausted env a port p hc hr hl hnew
      refine ⟨by rw [hsend], by rw [hsend], ⟨?_, ?_⟩, ?_, fun _ => by rw [hsend]⟩
      · rintro ⟨r, hframes⟩
        rw [hsend] at hframes
        exact absurd hframes (dhcp_frames_ne_append _ _)
      · rintro ⟨l, hl2⟩
        cases hl2
      · intro l hl2
        cases hl2
    | some l =>
      obtain ⟨h1, h2, r, h3, h4, h5⟩ := hsome l hnew
      refine ⟨h1, h2, ⟨fun _ => ⟨l, rfl⟩, fun _ => ⟨r, h3⟩⟩, ?_, ?_⟩
      · intro l2 hl2
        cases hl2
        exact ⟨r, h3, h4, h5⟩
      · intro hl2
        cases hl2

/-- Example for claim C4: the example bare request is answered from the bound
lease 10.0.0.5 without a call to the allocator; with no lease bound and an
allocator handing out 10.0.0.7 it is answered by an ACK binding 10.0.0.7 after
one `new_lease_any` call; with an allocator that has nothing to hand out,
nothing is pushed. -/
theorem send_dhcp_nostate_witness :
    ((send_dhcp_ack_or_nak (example_env none ⟨100, 0⟩) (example_bound 0x0A000005 1000) 1
          example_bare).lease_calls = (example_bound 0x0A000005 1000).lease_calls
      ∧ (send_dhcp_ack_or_nak (example_env none ⟨100, 0⟩) (example_bound 0x0A000005 1000) 1
          example_bare)._leases = (example_bound 0x0A000005 1000)._leases
      ∧ ∃ r, dhcp_frames (send_dhcp_ack_or_nak (example_env none ⟨100, 0⟩)
                (example_bound 0x0A000005 1000) 1 example_bare).pushed
              = dhcp_frames (example_bound 0x0A000005 1000).pushed ++ [(1, r)]
            ∧ r.msg = (make_ack_packet (example_bound 0x0A000005 1000) example_bare
                        (example_lease 0x0A000005 1000)).1
            ∧ r.msg.msg_type = some DHCP_ACK
            ∧ r.msg.yiaddr = (example_lease 0x0A000005 1000)._ip)
    ∧ (send_dhcp_ack_or_nak (example_env (some (example_lease 0x0A000007 1000)) ⟨100, 0⟩)
          (example_agent [] []) 1 example_bare).lease_calls
        = (example_agent [] []).lease_calls
            ++ [LeaseCall.new_lease_any (request_eth example_bare)]
    ∧ (∃ r, dhcp_frames (send_dhcp_ack_or_nak
                (example_env (some (example_lease 0x0A000007 1000)) ⟨100, 0⟩)
                (example_agent [] []) 1 example_bare).pushed
              = dhcp_frames (example_agent [] []).pushed ++ [(1, r)]
            ∧ r.msg.msg_type = some DHCP_ACK
            ∧ r.msg.yiaddr = (example_lease 0x0A000007 1000)._ip)
    ∧ (send_dhcp_ack_or_nak (example_env none ⟨100, 0⟩) (example_agent [] []) 1
          example_bare).pushed = (example_agent [] []).pushed :=
  ⟨(send_dhcp_nostate (example_env none ⟨100, 0⟩) (example_bound 0x0A000005 1000) 1
      example_bare (by decide) (by decide)).1 (example_lease 0x0A000005 1000) (by decide),
   ((send_dhcp_nostate (example_env (some (example_lease 0x0A000007 1000)) ⟨100, 0⟩)
      (example_agent [] []) 1 example_bare (by decide) (by decide)).2 (by decide)).1,
   ((send_dhcp_nostate (example_env (some (example_lease 0x0A000007 1000)) ⟨100, 0⟩)
      (example_agent [] []) 1 example_bare (by decide) (by decide)).2 (by decide)).2.2.2.1
      (example_lease 0x0A000007 1000) (by decide),
   ((send_dhcp_nostate (example_env none ⟨100, 0⟩) (example_agent [] []) 1
      example_bare (by decide) (by decide)).2 (by decide)).2.2.2.2 (by decide)⟩

/-- Claim C5 (unsupported shapes), as amended: for every request with a
non-zero `ciaddr` together with a requested-address option or a
server-identifier option that carries an address other than 0.0.0.0,
`send_dhcp_ack_or_nak` leaves the agent state as it was: nothing is pushed (no
reply, no controller line), no lease and no client entry changes and the
allocator is not called; and these requests are exactly those that none of the
four branch conditions (no-state, SELECTING, INIT-REBOOT, RENEW/REBIND)
accepts. -/
theorem send_dhcp_unsupported (env : Env) (a : SdnAgent) (port : Nat) (p : Packet)
    (hc : (request_msg p).ciaddr ≠ 0)
    (hro : request_requested_ip env p ≠ 0 ∨ request_server env p ≠ 0) :
    send_dhcp_ack_or_nak env a port p = a
    ∧ (send_dhcp_ack_or_nak env a port p).pushed = a.pushed
    ∧ (send_dhcp_ack_or_nak env a port p)._leases = a._leases
    ∧ (send_dhcp_ack_or_nak env a port p)._client_table = a._client_table
    ∧ (send_dhcp_ack_or_nak env a port p).lease_calls = a.lease_calls
    ∧ (∀ c r s : IPAddress,
        (c ≠ 0 ∧ (r ≠ 0 ∨ s ≠ 0))
          ↔ (¬ (c = 0 ∧ r = 0) ∧ ¬ (s ≠ 0 ∧ c = 0 ∧ r ≠ 0)
              ∧ ¬ (s = 0 ∧ r ≠ 0 ∧ c = 0) ∧ ¬ (s = 0 ∧ r = 0 ∧ c ≠ 0))) := by
  have h := send_unsupported env a port p hc hro
  refine ⟨h, by rw [h], by rw [h], by rw [h], by rw [h], ?_⟩
  intro c r s
  by_cases h1 : c = 0 <;> by_cases h2 : r = 0 <;> by_cases h3 : s = 0 <;> simp [h1, h2, h3]

/-- Example for claim C5: the example request carrying `ciaddr` 10.0.0.5
together with both options leaves the agent, its lease 10.0.0.5 included,
exactly as it was. -/
theorem send_dhcp_unsupported_witness :
    send_dhcp_ack_or_nak (example_env none ⟨100, 0⟩) (example_bound 0x0A000005 1000) 1
        example_unsupported
      = example_bound 0x0A000005 1000 :=
  (send_dhcp_unsupported (example_env none ⟨100, 0⟩) (example_bound 0x0A000005 1000) 1
    example_unsupported (by decide) (Or.inl (by decide))).1

/-- Claim C5 fails as stated: the example request with `ciaddr` 10.0.0.5
together with a requested-address option that carries 0.0.0.0 (and no server
identifier) is not ignored.  The branch conditions test the addresses, not the
options, and take it for a renewal: the example client's lease 10.0.0.5 is
marked valid and extended to second 3700, the client is entered in the
registry, the new-client line goes to the controller and an ACK binding
10.0.0.5 is pushed.  So "no reply, no controller message, no lease change, no
registry change" does not hold for all requests that carry `ciaddr` together
with one of the two options. -/
theorem send_dhcp_unsupported_counterexample :
    (request_msg example_zero_renew).ciaddr = 0x0A000005
    ∧ (example_env none ⟨100, 0⟩).fetch example_zero_renew DHO_DHCP_REQUESTED_ADDRESS 4
        = some [0, 0, 0, 0]
    ∧ (example_env none ⟨100, 0⟩).fetch example_zero_renew DHO_DHCP_SERVER_IDENTIFIER 4 = none
    ∧ (dhcp_frames (send_dhcp_ack_or_nak (example_env none ⟨100, 0⟩)
          (example_bound 0x0A000005 1000) 1 example_zero_renew).pushed).map
        (fun e => (e.1, e.2.msg.msg_type, e.2.msg.yiaddr))
        = [(1, some DHCP_ACK, 0x0A000005)]
    ∧ (send_dhcp_ack_or_nak (example_env none ⟨100, 0⟩) (example_bound 0x0A000005 1000) 1
          example_zero_renew).pushed.map (fun e => e.1) = [0, 1]
    ∧ (example_bound 0x0A000005 1000).pushed = []
    ∧ (example_bound 0x0A000005 1000)._leases.rev_lookup (request_eth example_zero_renew)
        = some (example_lease 0x0A000005 1000)
    ∧ (send_dhcp_ack_or_nak (example_env none ⟨100, 0⟩) (example_bound 0x0A000005 1000) 1
          example_zero_renew)._leases.rev_lookup (request_eth example_zero_renew)
        = some { example_lease 0x0A000005 1000 with
                  _valid := true, _end := { sec := 3700, subsec := 0 } }
    ∧ (send_dhcp_ack_or_nak (example_env none ⟨100, 0⟩) (example_bound 0x0A000005 1000) 1
          example_zero_renew).lease_calls = [LeaseCall.extend example_mac]
    ∧ HashTable.find (example_bound 0x0A000005 1000)._client_table example_mac = none
    ∧ (HashTable.find (send_dhcp_ack_or_nak (example_env none ⟨100, 0⟩)
          (example_bound 0x0A000005 1000) 1 example_zero_renew)._client_table
          example_mac).map (fun c => (c._mac, c._ipaddr))
        = some (example_mac, 0x0A000005)
    ∧ ¬ (∀ (env : Env) (a : SdnAgent) (port : Nat) (p : Packet),
          (request_msg p).ciaddr ≠ 0 →
          (env.fetch p DHO_DHCP_REQUESTED_ADDRESS 4 ≠ none
            ∨ env.fetch p DHO_DHCP_SERVER_IDENTIFIER 4 ≠ none) →
          (send_dhcp_ack_or_nak env a port p).pushed = a.pushed
          ∧ (send_dhcp_ack_or_nak env a port p)._leases = a._leases
          ∧ (send_dhcp_ack_or_nak env a port p)._client_table = a._client_table) := by
  have hports : (send_dhcp_ack_or_nak (example_env none ⟨100, 0⟩)
      (example_bound 0x0A000005 1000) 1 example_zero_renew).pushed.map (fun e => e.1)
        = [0, 1] := by decide
  refine ⟨by decide, by decide, by decide, by decide, hports, rfl, by decide, by decide,
    by decide, by decide, by decide, ?_⟩
  intro h
  have h1 := (h (example_env none ⟨100, 0⟩) (example_bound 0x0A000005 1000) 1
    example_zero_renew (by decide) (Or.inl (by decide))).1
  rw [h1] at hports
  cases hports

/-- Claim C7, as the code has it: the NAK built by `make_nak_packet` has opcode
BOOTREPLY, hardware type Ethernet, hardware length 6, the magic cookie and
`ciaddr`, `yiaddr`, `siaddr` zero, but its transaction id, flags, gateway
address and client hardware address are those of `dhcpMessage.cast p 28`, the
bytes 14 before the request message of the frame, which starts at byte 42.  On
the example INIT-REBOOT request with an expired lease the NAK that is pushed
carries transaction id FFFF0044 (two bytes of the IP destination and the UDP
source port), flags 0230 (the UDP length), gateway address 128.0.0.0 and a
hardware address ending in aa bb, where the request has 12345678, 8000, 0.0.0.0
and aa:bb:cc:dd:ee:ff. -/
theorem make_nak_packet_header_offset (a : SdnAgent) (p : Packet) :
    (make_nak_packet a p).op = DHCP_BOOTREPLY
    ∧ (make_nak_packet a p).htype = ARPHRD_ETHER
    ∧ (make_nak_packet a p).hlen = 6
    ∧ (make_nak_packet a p).magic = DHCP_MAGIC
    ∧ (make_nak_packet a p).ciaddr = 0
    ∧ (make_nak_packet a p).yiaddr = 0
    ∧ (make_nak_packet a p).siaddr = 0
    ∧ (make_nak_packet a p).xid = (dhcpMessage.cast p 28).xid
    ∧ (make_nak_packet a p).flags = (dhcpMessage.cast p 28).flags
    ∧ (make_nak_packet a p).giaddr = (dhcpMessage.cast p 28).giaddr
    ∧ (make_nak_packet a p).chaddr = (dhcpMessage.cast p 28).chaddr
    ∧ request_msg p = dhcpMessage.cast p 42
    ∧ send_dhcp_ack_or_nak (example_env none ⟨2000, 0⟩) (example_bound 0x0A000005 1000) 1
          example_init_reboot
        = (example_bound 0x0A000005 1000).output_push 1
            (Pushed.dhcp (dhcp_reply_frame (example_bound 0x0A000005 1000)._leases
              example_init_reboot
              (make_nak_packet (example_bound 0x0A000005 1000) example_init_reboot)))
    ∧ (make_nak_packet (example_bound 0x0A000005 1000) example_init_reboot).xid = 0xFFFF0044
    ∧ (request_msg example_init_reboot).xid = 0x12345678
    ∧ (make_nak_packet (example_bound 0x0A000005 1000) example_init_reboot).flags = 0x0230
    ∧ (request_msg example_init_reboot).flags = 0x8000
    ∧ (make_nak_packet (example_bound 0x0A000005 1000) example_init_reboot).giaddr = 0x80000000
    ∧ (request_msg example_init_reboot).giaddr = 0
    ∧ (make_nak_packet (example_bound 0x0A000005 1000) example_init_reboot).chaddr
        = [0, 0, 0, 0, 0, 0, 0, 0, 0, 0, 0, 0, 0, 0, 0xaa, 0xbb]
    ∧ (request_msg example_init_reboot).chaddr
        = [0xaa, 0xbb, 0xcc, 0xdd, 0xee, 0xff, 0, 0, 0, 0, 0, 0, 0, 0, 0, 0] := by
  have hch : (make_nak_packet a p).chaddr = (dhcpMessage.cast p 28).chaddr := by
    simp only [make_nak_packet, dhcpMessage.cast, bytesAt_bytesAt, sizeof_click_udp,
      sizeof_click_ip]
  have hsend := send_init_reboot_nak (example_env none ⟨2000, 0⟩)
    (example_bound 0x0A000005 1000) 1 example_init_reboot (by decide) (by decide) (by decide)
    (example_lease 0x0A000005 1000) (by decide) (by decide) (by decide)
  refine ⟨?_, ?_, ?_, ?_, ?_, ?_, ?_, ?_, ?_, ?_, hch, rfl, hsend, by decide, by decide,
    by decide, by decide, by decide, by decide, by decide, by decide⟩
  all_goals simp only [make_nak_packet, sizeof_click_udp, sizeof_click_ip]

/-! ## The disconnection channel -/

theorem HashTable.find_erase_self {K V : Type} [DecidableEq K] (t : HashTable K V) (k : K) :
    HashTable.find (HashTable.erase t k) k = none := by
  induction t with
  | nil => rfl
  | cons hd tl ih =>
    obtain ⟨k', v'⟩ := hd
    by_cases h : k' = k
    · simp [HashTable.erase, h, ih]
    · simp [HashTable.erase, HashTable.find, h, ih]

theorem HashTable.find_erase_other {K V : Type} [DecidableEq K] (t : HashTable K V) (k k2 : K)
    (hne : k2 ≠ k) : HashTable.find (HashTable.erase t k) k2 = HashTable.find t k2 := by
  induction t with
  | nil => rfl
  | cons hd tl ih =>
    obtain ⟨k', v'⟩ := hd
    by_cases h : k' = k
    · subst h
      have h2 : ¬ k' = k2 := fun e => hne e.symm
      simp [HashTable.erase, HashTable.find, h2, ih]
    · by_cases h3 : k' = k2
      · subst h3
        simp [HashTable.erase, HashTable.find, hne]
      · simp [HashTable.erase, HashTable.find, h, h3, ih]

theorem push_port1 (env : Env) (g : Glue) (a : SdnAgent) (p : Packet) :
    push env g a 1 p =
      if p.length < sizeof_click_wifi then a
      else if (p.getD 0 0 &&& WIFI_FC0_TYPE_MASK) ≠ WIFI_FC0_TYPE_MGT then a
      else if (p.getD 0 0 &&& WIFI_FC0_SUBTYPE_MASK) = WIFI_FC0_SUBTYPE_DEAUTH
          ∨ (p.getD 0 0 &&& WIFI_FC0_SUBTYPE_MASK) = WIFI_FC0_SUBTYPE_DISASSOC then
        disconnect_responder a p
      else a := rfl

theorem disconnect_responder_eq (a : SdnAgent) (w : Packet) :
    disconnect_responder a w =
      if wifi_dst w ≠ a._mac then a
      else if HashTable.find a._client_table (wifi_src w) ≠ none then
        { a with _client_table := HashTable.erase a._client_table (wifi_src w)
                 pushed := a.pushed ++ [(0, Pushed.data (clientdisconnect_line (wifi_src w)))] }
      else a := rfl

theorem push_disassoc_accepted (env : Env) (g : Glue) (a : SdnAgent) (p : Packet)
    (h : disassoc_accepted a p) :
    push env g a 1 p =
      { a with _client_table := HashTable.erase a._client_table (wifi_src p)
               pushed := a.pushed ++ [(0, Pushed.data (clientdisconnect_line (wifi_src p)))] } := by
  obtain ⟨hlen, htype, hsub, hdst, hsrc⟩ := h
  have hlen2 : ¬ p.length < sizeof_click_wifi := Nat.not_lt.mpr hlen
  rw [push_port1, if_neg hlen2, if_neg (not_not.mpr htype), if_pos hsub,
    disconnect_responder_eq, if_neg (not_not.mpr hdst), if_pos hsrc]

theorem push_disassoc_rejected (env : Env) (g : Glue) (a : SdnAgent) (p : Packet)
    (h : ¬ disassoc_accepted a p) : push env g a 1 p = a := by
  rw [push_port1]
  by_cases hlen : p.length < sizeof_click_wifi
  · rw [if_pos hlen]
  · rw [if_neg hlen]
    by_cases htype : (p.getD 0 0 &&& WIFI_FC0_TYPE_MASK) = WIFI_FC0_TYPE_MGT
    · rw [if_neg (not_not.mpr htype)]
      by_cases hsub : (p.getD 0 0 &&& WIFI_FC0_SUBTYPE_MASK) = WIFI_FC0_SUBTYPE_DEAUTH
          ∨ (p.getD 0 0 &&& WIFI_FC0_SUBTYPE_MASK) = WIFI_FC0_SUBTYPE_DISASSOC
      · rw [if_pos hsub, disconnect_responder_eq]
        by_cases hdst : wifi_dst p = a._mac
        · rw [if_neg (not_not.mpr hdst)]
          by_cases hsrc : HashTable.find a._client_table (wifi_src p) = none
          · rw [if_neg (not_not.mpr hsrc)]
          · exact absurd ⟨Nat.not_lt.mp hlen, htype, hsub, hdst, hsrc⟩ h
        · rw [if_pos hdst]
      · rw [if_neg hsub]
    · rw [if_pos htype]

/-- Claim C11: disconnection handling on input 1.  For every frame and agent
state: when the frame is at least as long as the 802.11 header, is of type
management and of subtype deauthentication or disassociation, is addressed to
the agent's own address and comes from a registered client, the line
`clientdisconnect <source mac>` (newline-terminated) is pushed on output 0 and
the source is erased from the client table, every other key looking up as
before and nothing else changing; in every other case the agent state is
unchanged (no line, same registry); hence handling the same frame again
changes nothing more. -/
theorem push_disassociation (env : Env) (g : Glue) (a : SdnAgent) (p : Packet) :
    (disassoc_accepted a p →
        push env g a 1 p =
          { a with _client_table := HashTable.erase a._client_table (wifi_src p)
                   pushed := a.pushed
                     ++ [(0, Pushed.data (clientdisconnect_line (wifi_src p)))] }
        ∧ HashTable.find (push env g a 1 p)._client_table (wifi_src p) = none
        ∧ (∀ other, other ≠ wifi_src p →
            HashTable.find (push env g a 1 p)._client_table other
              = HashTable.find a._client_table other))
    ∧ (¬ disassoc_accepted a p → push env g a 1 p = a)
    ∧ push env g (push env g a 1 p) 1 p = push env g a 1 p := by
  have hacc : disassoc_accepted a p →
      HashTable.find (push env g a 1 p)._client_table (wifi_src p) = none := by
    intro h
    rw [push_disassoc_accepted env g a p h]
    exact HashTable.find_erase_self _ _
  refine ⟨fun h => ⟨push_disassoc_accepted env g a p h, hacc h, ?_⟩,
    push_disassoc_rejected env g a p, ?_⟩
  · intro other hne
    rw [push_disassoc_accepted env g a p h]
    exact HashTable.find_erase_other _ _ _ hne
  · by_cases h : disassoc_accepted a p
    · apply push_disassoc_rejected
      intro h2
      exact h2.2.2.2.2 (hacc h)
    · rw [push_disassoc_rejected env g a p h, push_disassoc_rejected env g a p h]

/-- Example for claim C11: the deauthentication frame of the registered example
client pushes `clientdisconnect aa:bb:cc:dd:ee:ff` and empties the registry; the
same frame from an unregistered client changes nothing. -/
theorem push_disassociation_witness :
    push (example_env none ⟨100, 0⟩) example_glue example_registered 1 example_deauth
        = { example_registered with
              _client_table := HashTable.erase example_registered._client_table
                                  (wifi_src example_deauth)
              pushed := example_registered.pushed
                ++ [(0, Pushed.data (clientdisconnect_line (wifi_src example_deauth)))] }
    ∧ clientdisconnect_line (wifi_src example_deauth)
        = strBytes "clientdisconnect aa:bb:cc:dd:ee:ff\n"
    ∧ push (example_env none ⟨100, 0⟩) example_glue (example_agent [] []) 1 example_deauth
        = example_agent [] [] :=
  ⟨((push_disassociation (example_env none ⟨100, 0⟩) example_glue example_registered
      example_deauth).1 (by decide)).1,
   by decide,
   (push_disassociation (example_env none ⟨100, 0⟩) example_glue (example_agent [] [])
      example_deauth).2.1 (by decide)⟩

/-! ## The link header of DHCP replies -/

theorem dhcp_reply_frame_link (t : DHCPLeaseTable) (p : Packet) (q : dhcpMessage) :
    (dhcp_reply_frame t p q).ether_shost = bytesAt t._eth 0 6
    ∧ (dhcp_reply_frame t p q).ether_dhost = [0xff, 0xff, 0xff, 0xff, 0xff, 0xff]
    ∧ (dhcp_reply_frame t p q).ether_type = 0x0800 :=
  ⟨rfl, rfl, rfl⟩

theorem ack_reply_link (x : SdnAgent) (port : Nat) (p : Packet) (l : Lease)
    (frames0 : List (Nat × DhcpReply)) (h0 : dhcp_frames x.pushed = frames0) :
    ∃ r, dhcp_frames ((make_ack_packet x p l).2.output_push port
              (Pushed.dhcp (dhcp_reply_frame x._leases p (make_ack_packet x p l).1))).pushed
            = frames0 ++ [(port, r)]
         ∧ r.ether_shost
            = bytesAt ((make_ack_packet x p l).2.output_push port
                (Pushed.dhcp (dhcp_reply_frame x._leases p
                  (make_ack_packet x p l).1)))._leases._eth 0 6
         ∧ r.ether_dhost = [0xff, 0xff, 0xff, 0xff, 0xff, 0xff]
         ∧ r.ether_type = 0x0800 := by
  refine ⟨dhcp_reply_frame x._leases p (make_ack_packet x p l).1, ?_, ?_, rfl, rfl⟩
  · rw [dhcp_frames_output_push, make_ack_packet_frames, h0]
  · show bytesAt x._leases._eth 0 6 = bytesAt (make_ack_packet x p l).2._leases._eth 0 6
    rw [make_ack_packet_leases]

theorem send_reply_link (env : Env) (a : SdnAgent) (port : Nat) (p : Packet) :
    dhcp_frames (send_dhcp_ack_or_nak env a port p).pushed = dhcp_frames a.pushed
    ∨ ∃ r, dhcp_frames (send_dhcp_ack_or_nak env a port p).pushed
              = dhcp_frames a.pushed ++ [(port, r)]
           ∧ r.ether_shost = bytesAt (send_dhcp_ack_or_nak env a port p)._leases._eth 0 6
           ∧ r.ether_dhost = [0xff, 0xff, 0xff, 0xff, 0xff, 0xff]
           ∧ r.ether_type = 0x0800 := by
  by_cases hc : (request_msg p).ciaddr = 0
  · by_cases hr : request_requested_ip env p = 0
    · cases hl : a._leases.rev_lookup (request_eth p) with
      | some l =>
        right
        rw [send_nostate_bound env a port p hc hr l hl]
        exact ack_reply_link a port p l _ rfl
      | none =>
        cases hnew : (env.new_lease_any a._leases (request_eth p)).1 with
        | some l =>
          right
          rw [send_nostate_alloc env a port p hc hr hl l hnew]
          exact ack_reply_link _ port p l _ rfl
        | none =>
          left
          rw [send_nostate_exhausted env a port p hc hr hl hnew]
    · by_cases hm : ∃ l, a._leases.rev_lookup (request_eth p) = some l
          ∧ l._ip = request_requested_ip env p
      · obtain ⟨l, hl, hip⟩ := hm
        right
        by_cases hs : request_server env p = 0
        · cases hexp : Timestamp.lt l._end env.now with
          | true =>
            rw [send_init_reboot_nak env a port p hc hr hs l hl hip hexp]
            exact ⟨dhcp_reply_frame a._leases p (make_nak_packet a p),
              dhcp_frames_output_push _ _ _, rfl, rfl, rfl⟩
          | false =>
            rw [send_init_reboot_ack env a port p hc hr hs l hl hip hexp]
            exact ack_reply_link
              { a with _leases := a._leases.store (request_eth p) { l with _valid := true } }
              port p _ _ rfl
        · rw [send_selecting_ack env a port p hc hr hs l hl hip]
          refine ⟨dhcp_reply_frame a._leases p (make_ack_packet a p l).1, ?_, rfl, rfl, rfl⟩
          rw [dhcp_frames_output_push]
          exact congrArg (· ++ _) (make_ack_packet_frames a p l)
      · left
        by_cases hs : request_server env p = 0
        · rw [send_init_reboot_none env a port p hc hr hs hm]
        · rw [send_selecting_none env a port p hc hr hs hm]
  · by_cases hrs : request_requested_ip env p = 0 ∧ request_server env p = 0
    · cases hl : a._leases.rev_lookup (request_eth p) with
      | some l =>
        right
        rw [send_renew_ack env a port p hc hrs.1 hrs.2 l hl]
        exact ack_reply_link
          { a with _leases := a._leases.store (request_eth p)
                                (env.extend env.now { l with _valid := true })
                   lease_calls := a.lease_calls ++ [LeaseCall.extend (request_eth p)] }
          port p _ _ rfl
      | none =>
        left
        rw [send_renew_none env a port p hc hrs.1 hrs.2 hl]
    · left
      have hro : request_requested_ip env p ≠ 0 ∨ request_server env p ≠ 0 := by
        by_cases h1 : request_requested_ip env p = 0
        · exact Or.inr (fun h2 => hrs ⟨h1, h2⟩)
        · exact Or.inl h1
      rw [send_unsupported env a port p hc hro]

/-- Claim C12, as amended: for every DHCP request, `send_dhcp_ack_or_nak`
pushes at most one reply frame, and the Ethernet header of that frame (ACK or
NAK, whatever the branch) has as source the hardware address of the lease
table (`_leases->_eth`), as destination the broadcast address
ff:ff:ff:ff:ff:ff, and ethertype IPv4 (0x0800). -/
theorem dhcp_reply_link_header (env : Env) (a : SdnAgent) (port : Nat) (p : Packet) :
    dhcp_frames (send_dhcp_ack_or_nak env a port p).pushed = dhcp_frames a.pushed
    ∨ ∃ r, dhcp_frames (send_dhcp_ack_or_nak env a port p).pushed
              = dhcp_frames a.pushed ++ [(port, r)]
           ∧ r.ether_shost = bytesAt (send_dhcp_ack_or_nak env a port p)._leases._eth 0 6
           ∧ r.ether_dhost = [0xff, 0xff, 0xff, 0xff, 0xff, 0xff]
           ∧ r.ether_type = 0x0800 :=
  send_reply_link env a port p

/-- Claim C12 fails as stated: the example SELECTING request (no `ciaddr`,
requested address 10.0.0.5, a server identifier; source address
aa:bb:cc:dd:ee:ff) sent to the agent 02:00:00:00:00:01, whose lease table has
the address 02:00:00:00:00:02, is answered by one frame whose destination is
ff:ff:ff:ff:ff:ff, not the requester's address, although the request is not a
no-state one, and whose source is 02:00:00:00:00:02, not the agent's own
address. -/
theorem dhcp_reply_link_header_counterexample :
    (dhcp_frames (send_dhcp_ack_or_nak (example_env none ⟨100, 0⟩) example_split 1
        example_selecting).pushed).map (fun e => (e.1, e.2.ether_dhost, e.2.ether_shost))
      = [(1, [0xff, 0xff, 0xff, 0xff, 0xff, 0xff], [2, 0, 0, 0, 0, 2])]
    ∧ bytesAt example_selecting 6 6 = [0xaa, 0xbb, 0xcc, 0xdd, 0xee, 0xff]
    ∧ example_split._mac = [2, 0, 0, 0, 0, 1]
    ∧ (request_msg example_selecting).ciaddr = 0
    ∧ request_requested_ip (example_env none ⟨100, 0⟩) example_selecting ≠ 0
    ∧ request_server (example_env none ⟨100, 0⟩) example_selecting ≠ 0 := by
  decide

/-! ## The periodic report -/

theorem report_foldl (g : Glue) (t : HashTable EtherAddress Client) :
    ∀ acc : SdnAgent,
      t.foldl
          (fun acc it =>
            if g.unparse_rate it.2._byte_up_rate ≠ ""
                ∧ g.unparse_rate it.2._byte_down_rate ≠ "" then
              acc.output_push 0
                (Pushed.data (strBytes ("clientrate|" ++ unparse_colon it.2._mac ++ "|"
                  ++ unparse_ip it.2._ipaddr ++ "|" ++ g.unparse_rate it.2._byte_up_rate ++ "|"
                  ++ g.unparse_rate it.2._byte_down_rate ++ "|\n")))
            else acc)
          acc
        = { acc with pushed := acc.pushed ++ t.filterMap (client_report g) } := by
  induction t with
  | nil => intro acc; simp
  | cons hd tl ih =>
    intro acc
    rw [List.foldl_cons, ih]
    by_cases h : g.unparse_rate hd.2._byte_up_rate ≠ ""
        ∧ g.unparse_rate hd.2._byte_down_rate ≠ ""
    · have hrep : client_report g hd
          = some (0, Pushed.data (clientrate_line hd.2._mac hd.2._ipaddr
              (g.unparse_rate hd.2._byte_up_rate) (g.unparse_rate hd.2._byte_down_rate))) := by
        unfold client_report
        rw [if_pos h]
      rw [if_pos h, List.filterMap_cons_some hrep]
      simp [SdnAgent.output_push, clientrate_line]
    · have hrep : client_report g hd = none := by
        unfold client_report
        rw [if_neg h]
      rw [if_neg h, List.filterMap_cons_none hrep]

theorem run_timer_eq (g : Glue) (a : SdnAgent) :
    run_timer g a =
      { a with _byte_up_rate := (report_rates a).1
               _byte_down_rate := (report_rates a).2
               pushed := a.pushed ++ agent_report g a
                 ++ a._client_table.filterMap (client_report g) } := by
  unfold run_timer
  simp only [report_foldl]
  cases he : a._client_table.isEmpty
  · have hr : report_rates a = (a._byte_up_rate, a._byte_down_rate) := by
      simp [report_rates, he]
    by_cases hc : g.unparse_rate a._byte_up_rate ≠ "" ∧ g.unparse_rate a._byte_down_rate ≠ ""
    · simp [agent_report, hr, hc, SdnAgent.output_push, agentrate_line]
    · simp [agent_report, hr, hc]
  · have hr : report_rates a = (a._byte_up_rate.update 0, a._byte_down_rate.update 0) := by
      simp [report_rates, he]
    by_cases hc : g.unparse_rate (a._byte_up_rate.update 0) ≠ ""
        ∧ g.unparse_rate (a._byte_down_rate.update 0) ≠ ""
    · simp [agent_report, hr, hc, SdnAgent.output_push, agentrate_line]
    · simp [agent_report, hr, hc]

/-- Claim C13: contents of the periodic report.  For every agent state and
every rate-string function (the empty string meaning "no rate"), one run of
`run_timer` pushes on output 0, in this order, the line
`agentrate|<up>|<down>|` exactly when both aggregate rate strings are
non-empty, then, for the entries of the client table taken once each, the line
`clientrate|<mac>|<ip>|<up>|<down>|` of every client both of whose rate strings
are non-empty; nothing else is pushed, so at most one line more than there are
registered clients; and the client table is as before.  The aggregate strings
are read after the zero sample the counters get when the table is empty. -/
theorem run_timer_report (g : Glue) (a : SdnAgent) :
    (run_timer g a).pushed
        = a.pushed ++ agent_report g a ++ a._client_table.filterMap (client_report g)
    ∧ (agent_report g a
          = [(0, Pushed.data (agentrate_line (g.unparse_rate (report_rates a).1)
                (g.unparse_rate (report_rates a).2)))]
        ↔ (g.unparse_rate (report_rates a).1 ≠ "" ∧ g.unparse_rate (report_rates a).2 ≠ ""))
    ∧ (agent_report g a = []
        ↔ ¬ (g.unparse_rate (report_rates a).1 ≠ "" ∧ g.unparse_rate (report_rates a).2 ≠ ""))
    ∧ (∀ it, (client_report g it
                = some (0, Pushed.data (clientrate_line it.2._mac it.2._ipaddr
                    (g.unparse_rate it.2._byte_up_rate) (g.unparse_rate it.2._byte_down_rate)))
              ↔ (g.unparse_rate it.2._byte_up_rate ≠ ""
                  ∧ g.unparse_rate it.2._byte_down_rate ≠ ""))
            ∧ (client_report g it = none
              ↔ ¬ (g.unparse_rate it.2._byte_up_rate ≠ ""
                    ∧ g.unparse_rate it.2._byte_down_rate ≠ "")))
    ∧ (agent_report g a ++ a._client_table.filterMap (client_report g)).length
        ≤ 1 + a._client_table.length
    ∧ (run_timer g a)._client_table = a._client_table
    ∧ (a._client_table.isEmpty = false →
        (run_timer g a)._byte_up_rate = a._byte_up_rate
        ∧ (run_timer g a)._byte_down_rate = a._byte_down_rate) := by
  refine ⟨by rw [run_timer_eq], ?_, ?_, ?_, ?_, by rw [run_timer_eq], ?_⟩
  · unfold agent_report
    split <;> simp_all
  · unfold agent_report
    split <;> simp_all
  · intro it
    unfold client_report
    split <;> simp_all
  · have h1 : (agent_report g a).length ≤ 1 := by
      unfold agent_report
      split <;> simp
    have h2 := List.length_filterMap_le (client_report g) a._client_table
    rw [List.length_append]
    omega
  · intro he
    rw [run_timer_eq]
    simp [report_rates, he]

/-- Example for claim C13: with two registered clients, the first with rates 10
and 20 and the second without an up rate, and aggregate samples 10 and 40, the
report is the aggregate line followed by the first client's line only. -/
theorem run_timer_report_witness :
    (run_timer example_glue
        { example_agent [] [(example_mac, example_client [10] [20]),
                            ([2, 0, 0, 0, 0, 9], { example_client [] [20] with
                                                    _mac := [2, 0, 0, 0, 0, 9] })] with
          _byte_up_rate := { samples := [10] }, _byte_down_rate := { samples := [40] } }).pushed
      = [(0, Pushed.data (strBytes "agentrate|10|40|\n")),
         (0, Pushed.data (strBytes "clientrate|aa:bb:cc:dd:ee:ff|10.0.0.5|10|20|\n"))] := by
  rw [(run_timer_report example_glue _).1]
  decide

/-! ## The statistics channel -/

theorem push_port4 (env : Env) (g : Glue) (a : SdnAgent) (p : Packet) :
    push env g a 4 p =
      (match HashTable.find a._client_table (EtherAddress.ofData (bytesAt p 6 6)) with
        | some c =>
          { a with _client_table := HashTable.set a._client_table
                      (EtherAddress.ofData (bytesAt p 6 6))
                      { c with _byte_up_rate := c._byte_up_rate.update p.length }
                   _byte_up_rate := a._byte_up_rate.update p.length }
        | none =>
          match HashTable.find a._client_table (EtherAddress.ofData (bytesAt p 0 6)) with
          | some c =>
            { a with _client_table := HashTable.set a._client_table
                        (EtherAddress.ofData (bytesAt p 0 6))
                        { c with _byte_down_rate := c._byte_down_rate.update p.length }
                     _byte_down_rate := a._byte_down_rate.update p.length }
          | none => a).output_push 2 (Pushed.data p) := rfl

theorem HashTable.find_set_update {V : Type} (t : HashTable EtherAddress V)
    (k : EtherAddress) (v : V) (k2 : EtherAddress) :
    HashTable.find (HashTable.set t k v) k2
      = if k2 = k then some v else HashTable.find t k2 := by
  by_cases h : k2 = k
  · subst h
    rw [if_pos rfl]
    exact HashTable.find_set_self t k2 v
  · rw [if_neg h]
    exact HashTable.find_set_other t k k2 v h

/-- Claim C14: the statistics channel (input 4).  For every Ethernet frame `p`
of length L and every agent state: when the frame's source address is a
registered client, that client's up-rate counter and the aggregate up-rate
counter each get `update(L)`, and nothing else changes in the table or in the
aggregate down-rate counter, whether or not the destination is registered too;
otherwise, when the destination address is a registered client, that client's
down-rate counter and the aggregate down-rate counter each get `update(L)`;
otherwise no counter changes.  In all cases exactly the frame itself is pushed
on output 2, and every key of the client table is registered after the frame
exactly when it was before, with the same IP address. -/
theorem push_statistics (env : Env) (g : Glue) (a : SdnAgent) (p : Packet) :
    (∀ c, HashTable.find a._client_table (EtherAddress.ofData (bytesAt p 6 6)) = some c →
        push env g a 4 p =
          { a with _client_table := HashTable.set a._client_table
                      (EtherAddress.ofData (bytesAt p 6 6))
                      { c with _byte_up_rate := c._byte_up_rate.update p.length }
                   _byte_up_rate := a._byte_up_rate.update p.length
                   pushed := a.pushed ++ [(2, Pushed.data p)] }
        ∧ HashTable.find (push env g a 4 p)._client_table (EtherAddress.ofData (bytesAt p 6 6))
            = some { c with _byte_up_rate := c._byte_up_rate.update p.length }
        ∧ (∀ other, other ≠ EtherAddress.ofData (bytesAt p 6 6) →
            HashTable.find (push env g a 4 p)._client_table other
              = HashTable.find a._client_table other)
        ∧ (push env g a 4 p)._byte_down_rate = a._byte_down_rate)
    ∧ (HashTable.find a._client_table (EtherAddress.ofData (bytesAt p 6 6)) = none →
        ∀ c, HashTable.find a._client_table (EtherAddress.ofData (bytesAt p 0 6)) = some c →
          push env g a 4 p =
            { a with _client_table := HashTable.set a._client_table
                        (EtherAddress.ofData (bytesAt p 0 6))
                        { c with _byte_down_rate := c._byte_down_rate.update p.length }
                     _byte_down_rate := a._byte_down_rate.update p.length
                     pushed := a.pushed ++ [(2, Pushed.data p)] }
          ∧ HashTable.find (push env g a 4 p)._client_table
                (EtherAddress.ofData (bytesAt p 0 6))
              = some { c with _byte_down_rate := c._byte_down_rate.update p.length }
          ∧ (∀ other, other ≠ EtherAddress.ofData (bytesAt p 0 6) →
              HashTable.find (push env g a 4 p)._client_table other
                = HashTable.find a._client_table other)
          ∧ (push env g a 4 p)._byte_up_rate = a._byte_up_rate)
    ∧ (HashTable.find a._client_table (EtherAddress.ofData (bytesAt p 6 6)) = none →
        HashTable.find a._client_table (EtherAddress.ofData (bytesAt p 0 6)) = none →
          push env g a 4 p = { a with pushed := a.pushed ++ [(2, Pushed.data p)] })
    ∧ (push env g a 4 p).pushed = a.pushed ++ [(2, Pushed.data p)]
    ∧ (∀ k, (HashTable.find (push env g a 4 p)._client_table k).map Client._ipaddr
              = (HashTable.find a._client_table k).map Client._ipaddr
            ∧ (HashTable.find (push env g a 4 p)._client_table k).isSome
              = (HashTable.find a._client_table k).isSome) := by
  have hup : ∀ c, HashTable.find a._client_table (EtherAddress.ofData (bytesAt p 6 6)) = some c →
      push env g a 4 p =
        { a with _client_table := HashTable.set a._client_table
                    (EtherAddress.ofData (bytesAt p 6 6))
                    { c with _byte_up_rate := c._byte_up_rate.update p.length }
                 _byte_up_rate := a._byte_up_rate.update p.length
                 pushed := a.pushed ++ [(2, Pushed.data p)] } := by
    intro c hc
    rw [push_port4]
    simp only [hc]
    rfl
  have hdown : HashTable.find a._client_table (EtherAddress.ofData (bytesAt p 6 6)) = none →
      ∀ c, HashTable.find a._client_table (EtherAddress.ofData (bytesAt p 0 6)) = some c →
      push env g a 4 p =
        { a with _client_table := HashTable.set a._client_table
                    (EtherAddress.ofData (bytesAt p 0 6))
                    { c with _byte_down_rate := c._byte_down_rate.update p.length }
                 _byte_down_rate := a._byte_down_rate.update p.length
                 pushed := a.pushed ++ [(2, Pushed.data p)] } := by
    intro hs c hc
    rw [push_port4]
    simp only [hs, hc]
    rfl
  have hnone : HashTable.find a._client_table (EtherAddress.ofData (bytesAt p 6 6)) = none →
      HashTable.find a._client_table (EtherAddress.ofData (bytesAt p 0 6)) = none →
      push env g a 4 p = { a with pushed := a.pushed ++ [(2, Pushed.data p)] } := by
    intro hs hd
    rw [push_port4]
    simp only [hs, hd]
    rfl
  refine ⟨?_, ?_, hnone, ?_, ?_⟩
  · intro c hc
    refine ⟨hup c hc, ?_, ?_, ?_⟩
    · rw [hup c hc]
      exact HashTable.find_set_self _ _ _
    · intro other hne
      rw [hup c hc]
      exact HashTable.find_set_other _ _ _ _ hne
    · rw [hup c hc]
  · intro hs c hc
    refine ⟨hdown hs c hc, ?_, ?_, ?_⟩
    · rw [hdown hs c hc]
      exact HashTable.find_set_self _ _ _
    · intro other hne
      rw [hdown hs c hc]
      exact HashTable.find_set_other _ _ _ _ hne
    · rw [hdown hs c hc]
  · cases hs : HashTable.find a._client_table (EtherAddress.ofData (bytesAt p 6 6)) with
    | some c => rw [hup c hs]
    | none =>
      cases hd : HashTable.find a._client_table (EtherAddress.ofData (bytesAt p 0 6)) with
      | some c => rw [hdown hs c hd]
      | none => rw [hnone hs hd]
  · intro k
    cases hs : HashTable.find a._client_table (EtherAddress.ofData (bytesAt p 6 6)) with
    | some c =>
      rw [hup c hs]
      show (HashTable.find (HashTable.set a._client_table _ _) k).map Client._ipaddr = _
        ∧ (HashTable.find (HashTable.set a._client_table _ _) k).isSome = _
      rw [HashTable.find_set_update]
      by_cases hk : k = EtherAddress.ofData (bytesAt p 6 6)
      · subst hk
        simp [hs]
      · simp [hk]
    | none =>
      cases hd : HashTable.find a._client_table (EtherAddress.ofData (bytesAt p 0 6)) with
      | some c =>
        rw [hdown hs c hd]
        show (HashTable.find (HashTable.set a._client_table _ _) k).map Client._ipaddr = _
          ∧ (HashTable.find (HashTable.set a._client_table _ _) k).isSome = _
        rw [HashTable.find_set_update]
        by_cases hk : k = EtherAddress.ofData (bytesAt p 0 6)
        · subst hk
          simp [hd]
        · simp [hk]
      | none =>
        rw [hnone hs hd]
        exact ⟨rfl, rfl⟩

/-- Example for claim C14: a 60-byte frame from the registered example client
adds the sample 60 to that client's up-rate counter and to the aggregate
up-rate counter and is pushed unchanged on output 2; a 60-byte frame between
two unregistered addresses is only pushed on. -/
theorem push_statistics_witness :
    push (example_env none ⟨100, 0⟩) example_glue example_registered 4
        (stats_frame [2, 0, 0, 0, 0, 1] example_mac)
      = { example_registered with
            _client_table := [(example_mac, example_client [60] [])]
            _byte_up_rate := { samples := [60] }
            pushed := [(2, Pushed.data (stats_frame [2, 0, 0, 0, 0, 1] example_mac))] }
    ∧ push (example_env none ⟨100, 0⟩) example_glue example_registered 4
        (stats_frame [2, 0, 0, 0, 0, 1] [2, 0, 0, 0, 0, 7])
      = { example_registered with
            pushed := example_registered.pushed
              ++ [(2, Pushed.data (stats_frame [2, 0, 0, 0, 0, 1] [2, 0, 0, 0, 0, 7]))] } :=
  ⟨((push_statistics (example_env none ⟨100, 0⟩) example_glue example_registered
      (stats_frame [2, 0, 0, 0, 0, 1] example_mac)).1 (example_client [] [])
      (by decide)).1.trans (by decide),
   (push_statistics (example_env none ⟨100, 0⟩) example_glue example_registered
      (stats_frame [2, 0, 0, 0, 0, 1] [2, 0, 0, 0, 0, 7])).2.2.1 (by decide) (by decide)⟩

/-! ## Lemmas on the client downlink -/

theorem bytesAt_zero_length (l : List Nat) : bytesAt l 0 l.length = l := by
  unfold bytesAt
  apply List.ext_getElem
  · simp
  · intro i h1 h2
    simp [List.getD_eq_getElem?_getD, h2]

theorem be_be16 (v : Nat) : be (be16 v) = v % 65536 := by
  simp [be, be16]
  omega

theorem be16_mod (v : Nat) : be16 (v % 65536) = be16 v := by
  simp [be16]
  omega

theorem click_ip_bytes_length (h : click_ip) : h.bytes.length = 20 := rfl

theorem click_udp_bytes_length (u : click_udp) : u.bytes.length = 8 := rfl

theorem fold_complement_cases (S : Nat) (hS : S < 655360) :
    (fold_complement S = 65535 - (S / 65536 + S % 65536) ∧ S / 65536 + S % 65536 < 65536)
    ∨ (fold_complement S = 65535 - (S / 65536 + S % 65536 - 65535)
        ∧ 65536 ≤ S / 65536 + S % 65536) := by
  unfold fold_complement
  by_cases h : S / 65536 + S % 65536 < 65536
  · left
    refine ⟨?_, h⟩
    have h1 : (S / 65536 + S % 65536) / 65536 = 0 := by omega
    simp only [h1]
    omega
  · right
    have h1 : (S / 65536 + S % 65536) / 65536 = 1 := by omega
    simp only [h1]
    omega

theorem fold_complement_le (S : Nat) : fold_complement S ≤ 65535 :=
  Nat.sub_le _ _

theorem fold_complement_verifies (S : Nat) (hS : S < 655360) :
    fold_complement (S + fold_complement S) = 0 := by
  rcases fold_complement_cases S hS with ⟨hc, hlt⟩ | ⟨hc, hge⟩
  · rw [hc]
    unfold fold_complement
    have e1 : (S + (65535 - (S / 65536 + S % 65536))) / 65536 = S / 65536 := by omega
    have e2 : (S + (65535 - (S / 65536 + S % 65536))) % 65536 = 65535 - S / 65536 := by omega
    simp only [e1, e2]
    omega
  · rw [hc]
    unfold fold_complement
    have e1 : (S + (65535 - (S / 65536 + S % 65536 - 65535))) / 65536 = S / 65536 + 1 := by
      omega
    have e2 : (S + (65535 - (S / 65536 + S % 65536 - 65535))) % 65536 = 65534 - S / 65536 := by
      omega
    simp only [e1, e2]
    omega

theorem click_in_cksum_header (h : click_ip) :
    click_in_cksum h.bytes sizeof_click_ip = fold_complement (sum16 h.bytes) := by
  have h20 : sizeof_click_ip = h.bytes.length := rfl
  unfold click_in_cksum
  rw [h20, bytesAt_zero_length]

theorem sum16_header (h : click_ip) :
    sum16 h.bytes = sum16 ({ h with ip_sum := 0 } : click_ip).bytes + h.ip_sum % 65536
    ∧ sum16 ({ h with ip_sum := 0 } : click_ip).bytes < 655360 := by
  simp only [click_ip.bytes, be16, be32, sum16, List.cons_append, List.nil_append]
  omega

theorem click_in_cksum_verifies (h : click_ip) :
    click_in_cksum
      ({ h with ip_sum := click_in_cksum ({ h with ip_sum := 0 } : click_ip).bytes
                            sizeof_click_ip } : click_ip).bytes sizeof_click_ip = 0 := by
  rw [click_in_cksum_header, click_in_cksum_header]
  have h1 := sum16_header
    { h with ip_sum := fold_complement (sum16 ({ h with ip_sum := 0 } : click_ip).bytes) }
  have h2 := fold_complement_le (sum16 ({ h with ip_sum := 0 } : click_ip).bytes)
  rw [h1.1]
  have h3 : fold_complement (sum16 ({ h with ip_sum := 0 } : click_ip).bytes) % 65536
      = fold_complement (sum16 ({ h with ip_sum := 0 } : click_ip).bytes) := by omega
  show fold_complement (sum16 ({ h with ip_sum := 0 } : click_ip).bytes
      + fold_complement (sum16 ({ h with ip_sum := 0 } : click_ip).bytes) % 65536) = 0
  rw [h3]
  exact fold_complement_verifies _ (sum16_header h).2

theorem push_udp_to_client_eq (g : Glue) (a : SdnAgent) (p_in : Packet) (ip_dst : IPAddress)
    (eth_dst : EtherAddress) (port : Nat) :
    push_udp_to_client g a p_in ip_dst eth_dst port =
      { a with
        ip_id := (a.ip_id + 1) % 4294967296
        pushed := a.pushed ++ [(port, Pushed.data (udp_frame g a p_in ip_dst eth_dst))] } := rfl

theorem udp_ip_header_fields (a : SdnAgent) (n : Nat) (ip_dst : IPAddress) :
    (udp_ip_header a n ip_dst).ip_v = 4
    ∧ (udp_ip_header a n ip_dst).ip_hl = 5
    ∧ (udp_ip_header a n ip_dst).ip_tos = 0
    ∧ (udp_ip_header a n ip_dst).ip_len = (n + 28) % 4294967296 % 65536
    ∧ (udp_ip_header a n ip_dst).ip_id = a.ip_id % 65536
    ∧ (udp_ip_header a n ip_dst).ip_off = 0
    ∧ (udp_ip_header a n ip_dst).ip_ttl = 250
    ∧ (udp_ip_header a n ip_dst).ip_p = 17
    ∧ (udp_ip_header a n ip_dst).ip_src = a._ipaddr
    ∧ (udp_ip_header a n ip_dst).ip_dst = ip_dst :=
  ⟨rfl, rfl, rfl, rfl, rfl, rfl, rfl, rfl, rfl, rfl⟩

theorem udp_ip_header_verifies (a : SdnAgent) (n : Nat) (ip_dst : IPAddress) :
    click_in_cksum (udp_ip_header a n ip_dst).bytes sizeof_click_ip = 0 :=
  click_in_cksum_verifies _

theorem bytesAt_six (l : List Nat) (h : l.length = 6) : bytesAt l 0 6 = l := by
  rw [← h]
  exact bytesAt_zero_length l

theorem udp_frame_payload (g : Glue) (a : SdnAgent) (p_in : Packet) (ip_dst : IPAddress)
    (eth_dst : EtherAddress) : (udp_frame g a p_in ip_dst eth_dst).drop 42 = p_in := rfl

theorem udp_frame_ip_id (g : Glue) (a : SdnAgent) (p_in : Packet) (ip_dst : IPAddress)
    (eth_dst : EtherAddress) :
    frame_ip_id (udp_frame g a p_in ip_dst eth_dst) = a.ip_id % 65536 := by
  have h : bytesAt (udp_frame g a p_in ip_dst eth_dst) 18 2 = be16 (a.ip_id % 65536) := rfl
  rw [frame_ip_id, h, be_be16]
  omega

/-- Claim C18: the wrapping of a payload for a client.  For every payload of n
bytes with n + 28 < 65536, destination IP and destination hardware address,
`push_udp_to_client` pushes on the given port exactly one frame: the Ethernet
header (destination the given hardware address, source the agent's own
address, ethertype 08 00), the 20-byte IP header, the 8-byte UDP header and the
payload bytes unchanged.  The IP header has version 4, header length 5, TOS 0,
total length n + 28, fragment offset 0, TTL 250, protocol 17 (UDP), source the
agent's IP, destination the given IP, and a checksum, computed over the header
with a zero checksum field, under which the checksum of the 20 header bytes is
zero; the UDP header has the agent control port as source, the client port as
destination and length n + 8. -/
theorem push_udp_to_client_frame (g : Glue) (a : SdnAgent) (p_in : Packet)
    (ip_dst : IPAddress) (eth_dst : EtherAddress) (port : Nat)
    (hn : p_in.length + 28 < 65536) :
    push_udp_to_client g a p_in ip_dst eth_dst port =
        { a with
          ip_id := (a.ip_id + 1) % 4294967296
          pushed := a.pushed ++ [(port, Pushed.data (udp_frame g a p_in ip_dst eth_dst))] }
    ∧ udp_frame g a p_in ip_dst eth_dst
        = bytesAt eth_dst 0 6 ++ bytesAt a._mac 0 6 ++ [0x08, 0x00]
          ++ (udp_ip_header a p_in.length ip_dst).bytes
          ++ (udp_header g a p_in ip_dst).bytes ++ p_in
    ∧ (udp_frame g a p_in ip_dst eth_dst).drop 42 = p_in
    ∧ (udp_ip_header a p_in.length ip_dst).bytes
        = [0x45, 0x00] ++ be16 (p_in.length + 28) ++ be16 a.ip_id ++ [0x00, 0x00]
          ++ [250, 17] ++ be16 (udp_ip_header a p_in.length ip_dst).ip_sum
          ++ be32 a._ipaddr ++ be32 ip_dst
    ∧ (udp_ip_header a p_in.length ip_dst).ip_v = 4
    ∧ (udp_ip_header a p_in.length ip_dst).ip_hl = 5
    ∧ (udp_ip_header a p_in.length ip_dst).ip_tos = 0
    ∧ (udp_ip_header a p_in.length ip_dst).ip_len = p_in.length + 28
    ∧ (udp_ip_header a p_in.length ip_dst).ip_off = 0
    ∧ (udp_ip_header a p_in.length ip_dst).ip_ttl = 250
    ∧ (udp_ip_header a p_in.length ip_dst).ip_p = IP_PROTO_UDP
    ∧ (udp_ip_header a p_in.length ip_dst).ip_src = a._ipaddr
    ∧ (udp_ip_header a p_in.length ip_dst).ip_dst = ip_dst
    ∧ (udp_ip_header a p_in.length ip_dst).ip_sum
        = click_in_cksum
            ({ udp_ip_header a p_in.length ip_dst with ip_sum := 0 } : click_ip).bytes 20
    ∧ click_in_cksum (udp_ip_header a p_in.length ip_dst).bytes 20 = 0
    ∧ (udp_header g a p_in ip_dst).uh_sport = g.UDP_AGENT_PORT % 65536
    ∧ (udp_header g a p_in ip_dst).uh_dport = g.UDP_CLIENT_PORT % 65536
    ∧ (udp_header g a p_in ip_dst).uh_ulen = p_in.length + 8
    ∧ (udp_header g a p_in ip_dst).bytes
        = be16 g.UDP_AGENT_PORT ++ be16 g.UDP_CLIENT_PORT ++ be16 (p_in.length + 8)
          ++ be16 (udp_header g a p_in ip_dst).uh_sum
    ∧ (eth_dst.length = 6 → bytesAt eth_dst 0 6 = eth_dst)
    ∧ (a._mac.length = 6 → bytesAt a._mac 0 6 = a._mac) := by
  have hlen : (p_in.length + 28) % 4294967296 % 65536 = p_in.length + 28 := by omega
  have hulen : ((p_in.length + 28) % 4294967296 + 4294967296 - 20) % 65536
      = p_in.length + 8 := by omega
  have hiplen : (udp_ip_header a p_in.length ip_dst).ip_len = p_in.length + 28 := hlen
  have hul : (udp_header g a p_in ip_dst).uh_ulen = p_in.length + 8 := hulen
  refine ⟨rfl, rfl, rfl, ?_, rfl, rfl, rfl, hiplen, rfl, rfl, rfl, rfl, rfl, rfl,
    udp_ip_header_verifies a p_in.length ip_dst, rfl, rfl, hul, ?_, bytesAt_six eth_dst,
    bytesAt_six a._mac⟩
  · have h1 : (udp_ip_header a p_in.length ip_dst).bytes
        = [0x45, 0x00] ++ be16 ((p_in.length + 28) % 4294967296 % 65536)
          ++ be16 (a.ip_id % 65536) ++ [0x00, 0x00]
          ++ [250, 17] ++ be16 (udp_ip_header a p_in.length ip_dst).ip_sum
          ++ be32 a._ipaddr ++ be32 ip_dst := by
      have hz : be16 0 = [0, 0] := by decide
      simp [udp_ip_header, click_ip.bytes, hz]
    rw [h1, hlen, be16_mod]
  · have h1 : (udp_header g a p_in ip_dst).bytes
        = be16 (g.UDP_AGENT_PORT % 65536) ++ be16 (g.UDP_CLIENT_PORT % 65536)
          ++ be16 (((p_in.length + 28) % 4294967296 + 4294967296 - 20) % 65536)
          ++ be16 (udp_header g a p_in ip_dst).uh_sum := rfl
    rw [h1, hulen, be16_mod, be16_mod]

/-- Example for claim C18: the five bytes `hello` for the example client give a
47-byte frame from 02:00:00:00:00:01 to aa:bb:cc:dd:ee:ff with IP header
45 00 00 21 00 00 00 00 fa 11 ac c6 0a 00 00 01 0a 00 00 05, whose checksum
verifies. -/
theorem push_udp_to_client_frame_witness :
    udp_frame example_glue example_registered [104, 101, 108, 108, 111] 0x0A000005 example_mac
        = [0xaa, 0xbb, 0xcc, 0xdd, 0xee, 0xff, 2, 0, 0, 0, 0, 1, 0x08, 0x00,
           0x45, 0, 0, 33, 0, 0, 0, 0, 250, 17, 0xac, 0xc6, 10, 0, 0, 1, 10, 0, 0, 5,
           0x1a, 0x79, 0x1a, 0x7a, 0, 13, 0, 0, 104, 101, 108, 108, 111]
    ∧ click_in_cksum
        (udp_ip_header example_registered [104, 101, 108, 108, 111].length 0x0A000005).bytes 20
        = 0 :=
  ⟨by decide,
   (push_udp_to_client_frame example_glue example_registered [104, 101, 108, 108, 111]
      0x0A000005 example_mac 1 (by decide)).2.2.2.2.2.2.2.2.2.2.2.2.2.2.1⟩

theorem udp_sequence_ids (g : Glue) (xs : List (Packet × IPAddress × EtherAddress × Nat)) :
    ∀ a : SdnAgent, ∃ new,
      (udp_sequence g a xs).pushed = a.pushed ++ new
      ∧ pushed_ip_ids new = (List.range xs.length).map (fun i => (a.ip_id + i) % 65536) := by
  induction xs with
  | nil => intro a; exact ⟨[], by simp [udp_sequence], rfl⟩
  | cons x rest ih =>
    intro a
    obtain ⟨new1, h1, h2⟩ := ih (push_udp_to_client g a x.1 x.2.1 x.2.2.1 x.2.2.2)
    refine ⟨(x.2.2.2, Pushed.data (udp_frame g a x.1 x.2.1 x.2.2.1)) :: new1, ?_, ?_⟩
    · show (udp_sequence g (push_udp_to_client g a x.1 x.2.1 x.2.2.1 x.2.2.2) rest).pushed = _
      rw [h1, push_udp_to_client_eq]
      simp
    · have hid : (push_udp_to_client g a x.1 x.2.1 x.2.2.1 x.2.2.2).ip_id
          = (a.ip_id + 1) % 4294967296 := rfl
      rw [hid] at h2
      have hcons : pushed_ip_ids ((x.2.2.2, Pushed.data (udp_frame g a x.1 x.2.1 x.2.2.1)) :: new1)
          = frame_ip_id (udp_frame g a x.1 x.2.1 x.2.2.1) :: pushed_ip_ids new1 := rfl
      rw [hcons, h2, udp_frame_ip_id, List.length_cons, List.range_succ_eq_map, List.map_cons,
        List.map_map]
      congr 1
      apply List.map_congr_left
      intro i _
      show ((a.ip_id + 1) % 4294967296 + i) % 65536 = (a.ip_id + (i + 1)) % 65536
      omega

theorem getD_map_range (f : Nat → Nat) (n i : Nat) (h : i < n) :
    ((List.range n).map f).getD i 0 = f i := by
  simp [List.getD_eq_getElem?_getD, h]

/-- Claim C17, as amended: the IP identifier is the low 16 bits of a counter.
For every run of packets built by `push_udp_to_client`, the packet number i of
the run (counting from 0) carries the identifier (c + i) mod 65536, where c is
the value of the counter before the run, 0 when the process starts, the counter
being incremented by one per packet.  Hence from the start of the process the
later of two packets carries a strictly greater identifier as long as both are
among the first 65536 packets, and two packets fewer than 65536 packets apart
always carry distinct identifiers. -/
theorem ip_id_sequence (g : Glue) (a : SdnAgent)
    (xs : List (Packet × IPAddress × EtherAddress × Nat)) :
    ∃ new, (udp_sequence g a xs).pushed = a.pushed ++ new
      ∧ pushed_ip_ids new = (List.range xs.length).map (fun i => (a.ip_id + i) % 65536)
      ∧ (∀ i, i < xs.length → (pushed_ip_ids new).getD i 0 = (a.ip_id + i) % 65536)
      ∧ (a.ip_id = 0 → ∀ i j, i < j → j < xs.length → j < 65536 →
          (pushed_ip_ids new).getD i 0 < (pushed_ip_ids new).getD j 0)
      ∧ (∀ i j, i < j → j < xs.length → j < i + 65536 →
          (pushed_ip_ids new).getD i 0 ≠ (pushed_ip_ids new).getD j 0) := by
  obtain ⟨new, h1, h2⟩ := udp_sequence_ids g xs a
  have hget : ∀ i, i < xs.length → (pushed_ip_ids new).getD i 0 = (a.ip_id + i) % 65536 := by
    intro i hi
    rw [h2]
    exact getD_map_range (fun i => (a.ip_id + i) % 65536) xs.length i hi
  refine ⟨new, h1, h2, hget, ?_, ?_⟩
  · intro h0 i j hij hj hj2
    rw [hget i (by omega), hget j hj, h0]
    omega
  · intro i j hij hj hj2
    rw [hget i (by omega), hget j hj]
    omega

/-- Claim C17 fails as stated: of 65537 packets built one after the other from
the start of the process (counter 0), packet number 65536 carries the
identifier 0, the same as packet number 0 and less than the 65535 of the packet
built just before it. -/
theorem ip_id_sequence_counterexample :
    ∃ new, (udp_sequence example_glue example_registered
              (List.replicate 65537 ([104, 105], 0x0A000005, example_mac, 1))).pushed
            = example_registered.pushed ++ new
      ∧ example_registered.ip_id = 0
      ∧ (pushed_ip_ids new).getD 0 0 = 0
      ∧ (pushed_ip_ids new).getD 65535 0 = 65535
      ∧ (pushed_ip_ids new).getD 65536 0 = 0
      ∧ ¬ ((pushed_ip_ids new).getD 65535 0 < (pushed_ip_ids new).getD 65536 0)
      ∧ ¬ ((pushed_ip_ids new).getD 0 0 ≠ (pushed_ip_ids new).getD 65536 0) := by
  obtain ⟨new, h1, h2⟩ := udp_sequence_ids example_glue
    (List.replicate 65537 ([104, 105], 0x0A000005, example_mac, 1)) example_registered
  have hlen : (List.replicate 65537
      (([104, 105], 0x0A000005, example_mac, 1) : Packet × IPAddress × EtherAddress × Nat)).length
      = 65537 := List.length_replicate _ _
  rw [hlen] at h2
  have hget : ∀ i, i < 65537 → (pushed_ip_ids new).getD i 0 = (0 + i) % 65536 := by
    intro i hi
    rw [h2]
    exact getD_map_range (fun i => (example_registered.ip_id + i) % 65536) 65537 i hi
  have g0 := hget 0 (by omega)
  have g1 := hget 65535 (by omega)
  have g2 := hget 65536 (by omega)
  refine ⟨new, h1, rfl, ?_, ?_, ?_, ?_, ?_⟩ <;> omega

/-! ## The two relay channels -/

theorem bytesAt_eq_take (p : List Nat) (off n : Nat) (h : off + n ≤ p.length) :
    bytesAt p off n = (p.drop off).take n := by
  unfold bytesAt
  apply List.ext_getElem
  · simp
    omega
  · intro i h1 h2
    simp at h1
    have h3 : off + i < p.length := by omega
    simp [List.getD_eq_getElem?_getD, h1, h3]

theorem scan_len_le (l : List Nat) : scan_len l ≤ l.length := by
  induction l with
  | nil => simp [scan_len]
  | cons b rest ih =>
    unfold scan_len
    split
    · simp
      exact ih
    · simp

theorem take_scan_len (l : List Nat) :
    l.take (scan_len l) = l.takeWhile (fun b => decide (b ≠ 10 ∧ b ≠ 0)) := by
  induction l with
  | nil => simp [scan_len]
  | cons b rest ih =>
    unfold scan_len
    by_cases h : b ≠ 10 ∧ b ≠ 0
    · rw [if_pos h, List.take_succ_cons, ih, List.takeWhile_cons_of_pos (by simpa using h)]
    · rw [if_neg h, List.take_zero, List.takeWhile_cons_of_neg (by simpa using h)]

theorem bytesAt_scan (p : List Nat) (off : Nat) :
    bytesAt p off (scan_len (p.drop off))
      = (p.drop off).takeWhile (fun b => decide (b ≠ 10 ∧ b ≠ 0)) := by
  have h := scan_len_le (p.drop off)
  rw [List.length_drop] at h
  by_cases hoff : off ≤ p.length
  · rw [bytesAt_eq_take p off _ (by omega), take_scan_len]
  · have hd : p.drop off = [] := List.drop_eq_nil_of_le (by omega)
    rw [hd]
    rfl

theorem getD_append_left (p t : List Nat) (i : Nat) (h : i < p.length) :
    (p ++ t).getD i 0 = p.getD i 0 := by
  simp [List.getD_eq_getElem?_getD, List.getElem?_append_left h]

theorem bytesAt_append_left (p t : List Nat) (off n : Nat) (h : off + n ≤ p.length) :
    bytesAt (p ++ t) off n = bytesAt p off n := by
  unfold bytesAt
  apply List.map_congr_left
  intro i hi
  have hi2 : i < n := by simpa using hi
  exact getD_append_left p t (off + i) (by omega)

theorem takeWhile_append_of_stop (q : Nat → Bool) (l t : List Nat)
    (h : ∃ b ∈ l, q b = false) : (l ++ t).takeWhile q = l.takeWhile q := by
  induction l with
  | nil =>
    obtain ⟨b, hb, _⟩ := h
    cases hb
  | cons x rest ih =>
    cases hx : q x with
    | false => simp [List.takeWhile, hx]
    | true =>
      obtain ⟨b, hb, hq⟩ := h
      have hrest : ∃ b ∈ rest, q b = false := by
        cases hb with
        | head => rw [hx] at hq; cases hq
        | tail _ hb2 => exact ⟨b, hb2, hq⟩
      simp [List.takeWhile, hx, ih hrest]

theorem takeWhile_append_of_all (q : Nat → Bool) (l t : List Nat)
    (h : ∀ b ∈ l, q b = true) : (l ++ t).takeWhile q = l ++ t.takeWhile q := by
  induction l with
  | nil => rfl
  | cons x rest ih =>
    have hx : q x = true := h x (List.mem_cons_self _ _)
    have hrest : ∀ b ∈ rest, q b = true := fun b hb => h b (List.mem_cons_of_mem _ hb)
    simp [List.takeWhile, hx, ih hrest]

theorem push_port0 (env : Env) (g : Glue) (a : SdnAgent) (p : Packet) :
    push env g a 0 p =
      if (p ++ env.tail_memory).getD 0 0 = 99 then
        match HashTable.find a._client_table (controller_target (p ++ env.tail_memory)) with
        | some c =>
          push_udp_to_client g a
            (bytesAt (p ++ env.tail_memory) 7 (scan_len ((p ++ env.tail_memory).drop 7)))
            c._ipaddr (controller_target (p ++ env.tail_memory)) 1
        | none => a
      else a := by
  unfold push controller_target
  simp only [if_true]
  split <;> simp

theorem controller_target_append (p t : List Nat) (h7 : 7 ≤ p.length) :
    controller_target (p ++ t) = controller_target p := by
  unfold controller_target
  rw [bytesAt_append_left p t 1 6 (by omega)]

/-- On a payload of at least seven bytes that starts with `c` and names a
registered client, input 0 relays the bytes found from byte 7 on, in the packet
and then behind it, up to the first newline or NUL. -/
theorem push_port0_relay (env : Env) (g : Glue) (a : SdnAgent) (p : Packet)
    (h7 : 7 ≤ p.length) (h0 : p.getD 0 0 = 99) (c : Client)
    (hc : HashTable.find a._client_table (controller_target p) = some c) :
    push env g a 0 p
      = push_udp_to_client g a
          ((p.drop 7 ++ env.tail_memory).takeWhile (fun b => decide (b ≠ 10 ∧ b ≠ 0)))
          c._ipaddr (controller_target p) 1 := by
  rw [push_port0, getD_append_left p _ 0 (by omega), if_pos h0,
    controller_target_append p _ h7]
  simp only [hc]
  rw [bytesAt_scan, List.drop_append_of_le_length h7]

theorem push_port0_unregistered (env : Env) (g : Glue) (a : SdnAgent) (p : Packet)
    (h7 : 7 ≤ p.length)
    (hc : HashTable.find a._client_table (controller_target p) = none) :
    push env g a 0 p = a := by
  rw [push_port0, controller_target_append p _ h7]
  simp only [hc]
  split <;> rfl

theorem push_port0_other (env : Env) (g : Glue) (a : SdnAgent) (p : Packet)
    (h1 : 1 ≤ p.length) (h0 : p.getD 0 0 ≠ 99) : push env g a 0 p = a := by
  rw [push_port0, getD_append_left p _ 0 (by omega), if_neg h0]

theorem controller_text_clean (p : Packet) :
    10 ∉ controller_text p ∧ 0 ∉ controller_text p
    ∧ p.drop 7
        = controller_text p ++ (p.drop 7).dropWhile (fun b => decide (b ≠ 10 ∧ b ≠ 0))
    ∧ (∀ b, ((p.drop 7).dropWhile (fun b => decide (b ≠ 10 ∧ b ≠ 0))).head? = some b →
        b = 10 ∨ b = 0) := by
  refine ⟨?_, ?_, (List.takeWhile_append_dropWhile _ _).symm, ?_⟩
  · intro h
    have := List.mem_takeWhile_imp h
    simp at this
  · intro h
    have := List.mem_takeWhile_imp h
    simp at this
  · intro b hb
    have := List.head?_dropWhile_not (fun b => decide (b ≠ 10 ∧ b ≠ 0)) (p.drop 7)
    rw [hb] at this
    simp at this
    omega

theorem udp_frame_addresses (g : Glue) (a : SdnAgent) (p_in : Packet) (ip_dst : IPAddress)
    (eth_dst : EtherAddress) :
    bytesAt (udp_frame g a p_in ip_dst eth_dst) 0 6 = bytesAt eth_dst 0 6
    ∧ bytesAt (udp_frame g a p_in ip_dst eth_dst) 30 4 = be32 ip_dst :=
  ⟨rfl, rfl⟩

/-- Claim C15, as the code has it: relay from the controller to a client
(input 0), for every payload, agent state and content of the memory behind the
packet.  With an unregistered address after a first byte `c` (payload of at
least seven bytes), and with a first byte other than `c` (`a` included), the
agent state is unchanged.  When the bytes after the first seven hold a newline
or NUL, and the first byte is `c` and the six bytes after it are the hardware
address of a registered client, exactly one frame is pushed, on output 1, built
by `push_udp_to_client` for that client's registered IP and the named hardware
address, and its UDP payload is exactly the bytes after those seven up to but
not including the first newline or NUL, so it contains neither; the client
table is unchanged.  When they hold neither, the loop of line 171, which has no
length check, goes on behind the packet: with a newline or NUL in the memory
behind it, the payload pushed is all the bytes after the first seven followed
by the bytes behind the packet up to that newline or NUL.  Hence, whenever the
loop meets a newline or NUL, something is pushed if and only if the first byte
is `c` and the address is registered.  On the payload `c`, aa:bb:cc:dd:ee:ff,
`hi` (nine bytes) followed in memory by `XY` and a NUL, the registered example
client is sent `hiXY`, not `hi`. -/
theorem push_controller_relay (env : Env) (g : Glue) (a : SdnAgent) (p : Packet) :
    (7 ≤ p.length → p.getD 0 0 = 99 → (∃ b ∈ p.drop 7, b = 10 ∨ b = 0) →
      ∀ c, HashTable.find a._client_table (controller_target p) = some c →
        push env g a 0 p
          = push_udp_to_client g a (controller_text p) c._ipaddr (controller_target p) 1
        ∧ (push env g a 0 p).pushed
          = a.pushed ++ [(1, Pushed.data (udp_frame g a (controller_text p) c._ipaddr
                                            (controller_target p)))]
        ∧ (udp_frame g a (controller_text p) c._ipaddr (controller_target p)).drop 42
          = controller_text p
        ∧ bytesAt (udp_frame g a (controller_text p) c._ipaddr (controller_target p)) 0 6
          = controller_target p
        ∧ bytesAt (udp_frame g a (controller_text p) c._ipaddr (controller_target p)) 30 4
          = be32 c._ipaddr
        ∧ (push env g a 0 p)._client_table = a._client_table)
    ∧ (10 ∉ controller_text p ∧ 0 ∉ controller_text p
        ∧ p.drop 7
            = controller_text p ++ (p.drop 7).dropWhile (fun b => decide (b ≠ 10 ∧ b ≠ 0))
        ∧ (∀ b, ((p.drop 7).dropWhile (fun b => decide (b ≠ 10 ∧ b ≠ 0))).head? = some b →
            b = 10 ∨ b = 0))
    ∧ (7 ≤ p.length → p.getD 0 0 = 99 → (∀ b ∈ p.drop 7, b ≠ 10 ∧ b ≠ 0) →
      (∃ b ∈ env.tail_memory, b = 10 ∨ b = 0) →
      ∀ c, HashTable.find a._client_table (controller_target p) = some c →
        (push env g a 0 p).pushed
          = a.pushed ++ [(1, Pushed.data (udp_frame g a
              (p.drop 7 ++ env.tail_memory.takeWhile (fun b => decide (b ≠ 10 ∧ b ≠ 0)))
              c._ipaddr (controller_target p)))]
        ∧ (udp_frame g a
              (p.drop 7 ++ env.tail_memory.takeWhile (fun b => decide (b ≠ 10 ∧ b ≠ 0)))
              c._ipaddr (controller_target p)).drop 42
          = p.drop 7 ++ env.tail_memory.takeWhile (fun b => decide (b ≠ 10 ∧ b ≠ 0))
        ∧ (push env g a 0 p)._client_table = a._client_table)
    ∧ (7 ≤ p.length → p.getD 0 0 = 99 →
        HashTable.find a._client_table (controller_target p) = none → push env g a 0 p = a)
    ∧ (1 ≤ p.length → p.getD 0 0 ≠ 99 → push env g a 0 p = a)
    ∧ (7 ≤ p.length → (∃ b ∈ p.drop 7 ++ env.tail_memory, b = 10 ∨ b = 0) →
        ((push env g a 0 p).pushed ≠ a.pushed
          ↔ (p.getD 0 0 = 99 ∧ HashTable.find a._client_table (controller_target p) ≠ none)))
    ∧ example_unterminated.length = 9
    ∧ controller_text example_unterminated = [104, 105]
    ∧ example_overrun_env.tail_memory = [88, 89, 0, 90]
    ∧ HashTable.find example_registered._client_table (controller_target example_unterminated)
        = some (example_client [] [])
    ∧ (push example_overrun_env example_glue example_registered 0 example_unterminated).pushed
        = [(1, Pushed.data (udp_frame example_glue example_registered [104, 105, 88, 89]
                              0x0A000005 example_mac))]
    ∧ (udp_frame example_glue example_registered [104, 105, 88, 89] 0x0A000005
          example_mac).drop 42 = [104, 105, 88, 89] := by
  have hclean : ∀ q : List Nat, (∃ b ∈ q, b = 10 ∨ b = 0) →
      ∃ b ∈ q, (fun b => decide (b ≠ 10 ∧ b ≠ 0)) b = false := by
    rintro q ⟨b, hb, h⟩
    refine ⟨b, hb, ?_⟩
    simp only [decide_eq_false_iff_not]
    omega
  have hrelay : 7 ≤ p.length → p.getD 0 0 = 99 → (∃ b ∈ p.drop 7, b = 10 ∨ b = 0) →
      ∀ c, HashTable.find a._client_table (controller_target p) = some c →
      push env g a 0 p
        = push_udp_to_client g a (controller_text p) c._ipaddr (controller_target p) 1 := by
    intro h7 h0 hend c hc
    rw [push_port0_relay env g a p h7 h0 c hc,
      takeWhile_append_of_stop _ _ _ (hclean _ hend)]
    rfl
  have hover : 7 ≤ p.length → p.getD 0 0 = 99 → (∀ b ∈ p.drop 7, b ≠ 10 ∧ b ≠ 0) →
      ∀ c, HashTable.find a._client_table (controller_target p) = some c →
      push env g a 0 p
        = push_udp_to_client g a
            (p.drop 7 ++ env.tail_memory.takeWhile (fun b => decide (b ≠ 10 ∧ b ≠ 0)))
            c._ipaddr (controller_target p) 1 := by
    intro h7 h0 hall c hc
    rw [push_port0_relay env g a p h7 h0 c hc, takeWhile_append_of_all]
    intro b hb
    simpa using hall b hb
  have htarget : bytesAt (controller_target p) 0 6 = controller_target p := by
    apply bytesAt_six
    simp [controller_target, EtherAddress.ofData, bytesAt]
  have hex := push_port0_relay example_overrun_env example_glue example_registered
    example_unterminated (by decide) (by decide) (example_client [] []) (by decide)
  have hex2 : (example_unterminated.drop 7 ++ example_overrun_env.tail_memory).takeWhile
      (fun b => decide (b ≠ 10 ∧ b ≠ 0)) = [104, 105, 88, 89] := by decide
  have hex3 : controller_target example_unterminated = example_mac := by decide
  refine ⟨?_, controller_text_clean p, ?_, ?_, push_port0_other env g a p, ?_,
    by decide, by decide, rfl, by decide, ?_, rfl⟩
  · intro h7 h0 hend c hc
    refine ⟨hrelay h7 h0 hend c hc, ?_, rfl, ?_, rfl, ?_⟩
    · rw [hrelay h7 h0 hend c hc, push_udp_to_client_eq]
    · rw [(udp_frame_addresses g a _ _ _).1, htarget]
    · rw [hrelay h7 h0 hend c hc, push_udp_to_client_eq]
  · intro h7 h0 hall _ c hc
    refine ⟨?_, rfl, ?_⟩
    · rw [hover h7 h0 hall c hc, push_udp_to_client_eq]
    · rw [hover h7 h0 hall c hc, push_udp_to_client_eq]
  · intro h7 _ hc
    exact push_port0_unregistered env g a p h7 hc
  · intro h7 _
    constructor
    · intro hne
      by_cases h0 : p.getD 0 0 = 99
      · refine ⟨h0, fun hc => hne ?_⟩
        rw [push_port0_unregistered env g a p h7 hc]
      · exact absurd (by rw [push_port0_other env g a p (by omega) h0]) hne
    · rintro ⟨h0, hc⟩
      cases hf : HashTable.find a._client_table (controller_target p) with
      | none => exact absurd hf hc
      | some c =>
        rw [push_port0_relay env g a p h7 h0 c hf, push_udp_to_client_eq]
        intro h
        have := congrArg List.length h
        simp at this
  · rw [hex, hex2, hex3, push_udp_to_client_eq]
    rfl

/-- Example for claim C15: the payload `c`, aa:bb:cc:dd:ee:ff, `hello`, newline,
`xy` is relayed to the registered example client as a frame to
aa:bb:cc:dd:ee:ff / 10.0.0.5 carrying `hello`; the same payload changes nothing
when no client is registered. -/
theorem push_controller_relay_witness :
    (push (example_env none ⟨100, 0⟩) example_glue example_registered 0
        example_controller_msg).pushed
      = example_registered.pushed
          ++ [(1, Pushed.data (udp_frame example_glue example_registered
                (controller_text example_controller_msg) (example_client [] [])._ipaddr
                (controller_target example_controller_msg)))]
    ∧ controller_text example_controller_msg = [104, 101, 108, 108, 111]
    ∧ push (example_env none ⟨100, 0⟩) example_glue (example_agent [] []) 0
        example_controller_msg = example_agent [] [] :=
  ⟨((push_controller_relay (example_env none ⟨100, 0⟩) example_glue example_registered
      example_controller_msg).1 (by decide) (by decide) ⟨10, by decide, Or.inl rfl⟩
      (example_client [] []) (by decide)).2.1,
   by decide,
   (push_controller_relay (example_env none ⟨100, 0⟩) example_glue (example_agent [] [])
      example_controller_msg).2.2.2.1 (by decide) (by decide) (by decide)⟩

theorem push_port3 (env : Env) (g : Glue) (a : SdnAgent) (p : Packet) :
    push env g a 3 p =
      if p.getD 42 0 = 115 ∧ p.getD 43 0 = 124 then
        a.output_push 0
          (Pushed.data (bytesAt p 44
            (((p.length + 4294967296 - 42) % 4294967296 + 4294967296 - 2) % 4294967296)))
      else a := rfl

theorem drop_cons_getD (p : List Nat) (n : Nat) (h : n < p.length) :
    p.drop n = p.getD n 0 :: p.drop (n + 1) := by
  rw [List.getD_eq_getElem?_getD, List.getElem?_eq_getElem h]
  exact List.drop_eq_getElem_cons h

/-- Claim C16: relay from a client to the controller (input 3).  For every
frame of at least 42 + 2 bytes (and of a length a packet can have): when the
two bytes after the 42-byte Ethernet, IP and UDP header are `s|`, exactly one
message is pushed on output 0, and it is the payload after the header without
those first two bytes, byte for byte and with nothing added, so its length is
the payload length minus 2; otherwise the agent state is unchanged and nothing
is pushed. -/
theorem push_client_relay (env : Env) (g : Glue) (a : SdnAgent) (p : Packet)
    (hlen : 42 + 2 ≤ p.length) (h32 : p.length < 4294967296) :
    ((p.getD 42 0 = 115 ∧ p.getD 43 0 = 124) ↔ (p.drop 42).take 2 = [115, 124])
    ∧ ((p.drop 42).take 2 = [115, 124] →
        push env g a 3 p = a.output_push 0 (Pushed.data ((p.drop 42).drop 2))
        ∧ (push env g a 3 p).pushed = a.pushed ++ [(0, Pushed.data ((p.drop 42).drop 2))]
        ∧ p.drop 42 = [115, 124] ++ (p.drop 42).drop 2
        ∧ ((p.drop 42).drop 2).length = (p.drop 42).length - 2)
    ∧ (¬ (p.drop 42).take 2 = [115, 124] → push env g a 3 p = a) := by
  have hd : p.drop 42 = p.getD 42 0 :: p.getD 43 0 :: p.drop 44 := by
    rw [drop_cons_getD p 42 (by omega), drop_cons_getD p 43 (by omega)]
  have hiff : (p.getD 42 0 = 115 ∧ p.getD 43 0 = 124) ↔ (p.drop 42).take 2 = [115, 124] := by
    rw [hd]
    simp
  have hdd : (p.drop 42).drop 2 = p.drop 44 := by
    rw [List.drop_drop]
  have hcount : ((p.length + 4294967296 - 42) % 4294967296 + 4294967296 - 2) % 4294967296
      = p.length - 44 := by omega
  have hbytes : bytesAt p 44
      (((p.length + 4294967296 - 42) % 4294967296 + 4294967296 - 2) % 4294967296)
      = p.drop 44 := by
    rw [hcount, bytesAt_eq_take p 44 (p.length - 44) (by omega)]
    apply List.take_of_length_le
    simp
  refine ⟨hiff, ?_, ?_⟩
  · intro h
    have hg := hiff.mpr h
    have hsend : push env g a 3 p = a.output_push 0 (Pushed.data ((p.drop 42).drop 2)) := by
      rw [push_port3, if_pos hg, hbytes, hdd]
    refine ⟨hsend, by rw [hsend]; rfl, ?_, by simp; omega⟩
    rw [hdd]
    rw [hd, hg.1, hg.2]
    rfl
  · intro h
    have hg : ¬ (p.getD 42 0 = 115 ∧ p.getD 43 0 = 124) := fun hh => h (hiff.mp hh)
    rw [push_port3, if_neg hg]

/-- Example for claim C16: a 47-byte frame whose payload is `s|` followed by
1 2 3 relays exactly 1 2 3 to the controller; the payload `x|` followed by
1 2 3 relays nothing. -/
theorem push_client_relay_witness :
    push (example_env none ⟨100, 0⟩) example_glue example_registered 3
        (client_control_frame [115, 124, 1, 2, 3])
      = example_registered.output_push 0 (Pushed.data [1, 2, 3])
    ∧ push (example_env none ⟨100, 0⟩) example_glue example_registered 3
        (client_control_frame [120, 124, 1, 2, 3])
      = example_registered :=
  ⟨((push_client_relay (example_env none ⟨100, 0⟩) example_glue example_registered
      (client_control_frame [115, 124, 1, 2, 3]) (by decide) (by decide)).2.1 (by decide)).1,
   (push_client_relay (example_env none ⟨100, 0⟩) example_glue example_registered
      (client_control_frame [120, 124, 1, 2, 3]) (by decide) (by decide)).2.2 (by decide)⟩

/-! ## The NAK options and the classification of requests -/

/-- Claim C19: the options block of a NAK is byte-exact.  For every agent
(hence every lease table) and request frame, the options area written by
`make_nak_packet` is the 10 bytes 53 1 6, 54 4, the four bytes of the server
address and 255, followed by zeros only (10.0.0.1 giving 0A 00 00 01); the
function returns the message only, and on the one path that builds a NAK
(INIT-REBOOT with an expired lease) `send_dhcp_ack_or_nak` changes nothing but
the log of pushed packets, to which it adds the one reply frame on the reply
port: the client table is unchanged and no control line is pushed. -/
theorem make_nak_packet_options_exact (env : Env) (a : SdnAgent) (port : Nat) (p : Packet) :
    (make_nak_packet a p).options
        = [53, 1, 6] ++ [54, 4] ++ be32 a._leases._ip ++ [255]
          ++ List.replicate (DHCP_OPTIONS_SIZE - 10) 0
    ∧ be32 0x0A000001 = [0x0A, 0x00, 0x00, 0x01]
    ∧ (∀ l, (request_msg p).ciaddr = 0 → request_requested_ip env p ≠ 0 →
        request_server env p = 0 → a._leases.rev_lookup (request_eth p) = some l →
        l._ip = request_requested_ip env p → Timestamp.lt l._end env.now = true →
        send_dhcp_ack_or_nak env a port p
          = { a with pushed := a.pushed
                ++ [(port, Pushed.dhcp (dhcp_reply_frame a._leases p (make_nak_packet a p)))] }
        ∧ (send_dhcp_ack_or_nak env a port p)._client_table = a._client_table
        ∧ (send_dhcp_ack_or_nak env a port p).pushed
          = a.pushed
              ++ [(port, Pushed.dhcp (dhcp_reply_frame a._leases p (make_nak_packet a p)))]) := by
  refine ⟨?_, by decide, ?_⟩
  · rw [make_nak_packet_options, make_nak_options_eq]
    rfl
  · intro l hc hr hs hl hip hexp
    have h := send_init_reboot_nak env a port p hc hr hs l hl hip hexp
    refine ⟨h, ?_, ?_⟩
    · rw [h]
      rfl
    · rw [h]
      rfl

/-- Example for claim C19: the example INIT-REBOOT request for the lease
10.0.0.5 expired at second 1000, handled at second 2000, pushes the NAK frame
only and leaves the client table as it was; the options of the NAK begin
53 1 6 54 4 0A 00 00 01 255. -/
theorem make_nak_packet_options_exact_witness :
    (send_dhcp_ack_or_nak (example_env none ⟨2000, 0⟩) (example_bound 0x0A000005 1000) 1
        example_init_reboot)._client_table = (example_bound 0x0A000005 1000)._client_table
    ∧ (make_nak_packet (example_bound 0x0A000005 1000) example_init_reboot).options.take 11
        = [53, 1, 6, 54, 4, 0x0A, 0x00, 0x00, 0x01, 255, 0] :=
  ⟨((make_nak_packet_options_exact (example_env none ⟨2000, 0⟩)
      (example_bound 0x0A000005 1000) 1 example_init_reboot).2.2
      (example_lease 0x0A000005 1000) (by decide) (by decide) (by decide) (by decide)
      (by decide) (by decide)).2.1,
   by rw [make_nak_packet_options, make_nak_options_eq]; decide⟩

theorem first_match_of_mem (l : List (Bool × RequestShape)) (sh : RequestShape)
    (hmem : (true, sh) ∈ l) (huniq : ∀ sh2, (true, sh2) ∈ l → sh2 = sh) :
    first_match l = sh := by
  induction l with
  | nil => cases hmem
  | cons hd tl ih =>
    obtain ⟨b, s⟩ := hd
    cases b with
    | true =>
      show s = sh
      exact huniq s (List.mem_cons_self _ _)
    | false =>
      show first_match tl = sh
      apply ih
      · cases hmem with
        | tail _ h => exact h
      · intro sh2 h2
        exact huniq sh2 (List.mem_cons_of_mem _ h2)

theorem first_match_of_none (l : List (Bool × RequestShape))
    (hnone : ∀ sh, (true, sh) ∉ l) : first_match l = RequestShape.unsupported := by
  induction l with
  | nil => rfl
  | cons hd tl ih =>
    obtain ⟨b, s⟩ := hd
    cases b with
    | true => exact absurd (List.mem_cons_self _ _) (hnone s)
    | false =>
      show first_match tl = RequestShape.unsupported
      exact ih (fun sh h => hnone sh (List.mem_cons_of_mem _ h))

theorem shape_tests_cases (c r s : IPAddress) :
    ((true, chain_shape c r s) ∈ shape_tests c r s
      ∧ ∀ sh2, (true, sh2) ∈ shape_tests c r s → sh2 = chain_shape c r s)
    ∨ (chain_shape c r s = RequestShape.unsupported
      ∧ ∀ sh, (true, sh) ∉ shape_tests c r s) := by
  by_cases hc : c = 0 <;> by_cases hr : r = 0 <;> by_cases hs : s = 0 <;>
    simp [chain_shape, shape_tests, hc, hr, hs]

theorem chain_shape_classify (c r s : IPAddress) :
    chain_shape c r s = classify_shape (decide (c ≠ 0)) (decide (r ≠ 0)) (decide (s ≠ 0)) := by
  by_cases hc : c = 0 <;> by_cases hr : r = 0 <;> by_cases hs : s = 0 <;>
    simp [chain_shape, classify_shape, hc, hr, hs]

theorem send_eq_send_by_shape (env : Env) (a : SdnAgent) (port : Nat) (p : Packet) :
    send_dhcp_ack_or_nak env a port p
      = send_by_shape env a port p
          (chain_shape (request_msg p).ciaddr (request_requested_ip env p)
            (request_server env p)) := by
  by_cases hc : (request_msg p).ciaddr = 0 <;>
    by_cases hr : request_requested_ip env p = 0 <;>
    by_cases hs : request_server env p = 0 <;>
    simp [send_dhcp_ack_or_nak, send_by_shape, shape_body, chain_shape, hc, hr, hs,
      request_eth, dhcp_reply_frame]

theorem request_requested_ip_drop_zero (env : Env) (p : Packet) :
    request_requested_ip (drop_zero_options env) p = request_requested_ip env p := by
  unfold request_requested_ip drop_zero_options
  cases h : env.fetch p DHO_DHCP_REQUESTED_ADDRESS 4 with
  | none => simp [h]
  | some o =>
    by_cases hz : IPAddress.ofData o = 0
    · simp [h, hz]
    · simp [h, hz]

theorem request_server_drop_zero (env : Env) (p : Packet) :
    request_server (drop_zero_options env) p = request_server env p := by
  unfold request_server drop_zero_options
  cases h : env.fetch p DHO_DHCP_SERVER_IDENTIFIER 4 with
  | none => simp [h]
  | some o =>
    by_cases hz : IPAddress.ofData o = 0
    · simp [h, hz]
    · simp [h, hz]

theorem send_drop_zero (env : Env) (a : SdnAgent) (port : Nat) (p : Packet) :
    send_dhcp_ack_or_nak (drop_zero_options env) a port p
      = send_dhcp_ack_or_nak env a port p := by
  rw [send_eq_send_by_shape, send_eq_send_by_shape, request_requested_ip_drop_zero,
    request_server_drop_zero]
  cases chain_shape (request_msg p).ciaddr (request_requested_ip env p) (request_server env p) <;>
    simp only [send_by_shape, shape_body, request_requested_ip_drop_zero] <;> rfl

/-- Claim C20: the if/else chain of `send_dhcp_ack_or_nak` is a classifier over
three presence bits, an address being present when it is not zero.  The branch
the chain takes is the one the classifier gives for the bits of `ciaddr`,
requested IP and server identifier, and `send_dhcp_ack_or_nak` is the dispatch
on that classification; the four branch conditions are pairwise exclusive, so
a chain testing them in any order takes the same branch; the chain selects
no-state exactly for (absent, absent, any), SELECTING exactly for (absent,
present, present), INIT-REBOOT exactly for (absent, present, absent),
RENEW/REBIND exactly for (present, absent, absent) and the final `else` exactly
for the three other combinations; and an option carrying 0.0.0.0 is treated as
a missing option: the two addresses, and with them the whole call, are the
same when the scanner reports such options as not found. -/
theorem send_chain_classifier (env : Env) (a : SdnAgent) (port : Nat) (p : Packet)
    (c r s : IPAddress) :
    chain_shape c r s = classify_shape (decide (c ≠ 0)) (decide (r ≠ 0)) (decide (s ≠ 0))
    ∧ send_dhcp_ack_or_nak env a port p
        = send_by_shape env a port p
            (classify_shape (decide ((request_msg p).ciaddr ≠ 0))
              (decide (request_requested_ip env p ≠ 0)) (decide (request_server env p ≠ 0)))
    ∧ (¬ ((c = 0 ∧ r = 0) ∧ (s ≠ 0 ∧ c = 0 ∧ r ≠ 0))
        ∧ ¬ ((c = 0 ∧ r = 0) ∧ (s = 0 ∧ r ≠ 0 ∧ c = 0))
        ∧ ¬ ((c = 0 ∧ r = 0) ∧ (s = 0 ∧ r = 0 ∧ c ≠ 0))
        ∧ ¬ ((s ≠ 0 ∧ c = 0 ∧ r ≠ 0) ∧ (s = 0 ∧ r ≠ 0 ∧ c = 0))
        ∧ ¬ ((s ≠ 0 ∧ c = 0 ∧ r ≠ 0) ∧ (s = 0 ∧ r = 0 ∧ c ≠ 0))
        ∧ ¬ ((s = 0 ∧ r ≠ 0 ∧ c = 0) ∧ (s = 0 ∧ r = 0 ∧ c ≠ 0)))
    ∧ (∀ tests : List (Bool × RequestShape), tests.Perm (shape_tests c r s) →
        first_match tests = chain_shape c r s)
    ∧ (chain_shape c r s = RequestShape.no_state ↔ (c = 0 ∧ r = 0))
    ∧ (chain_shape c r s = RequestShape.selecting ↔ (c = 0 ∧ r ≠ 0 ∧ s ≠ 0))
    ∧ (chain_shape c r s = RequestShape.init_reboot ↔ (c = 0 ∧ r ≠ 0 ∧ s = 0))
    ∧ (chain_shape c r s = RequestShape.renew_rebind ↔ (c ≠ 0 ∧ r = 0 ∧ s = 0))
    ∧ (chain_shape c r s = RequestShape.unsupported
        ↔ ((c ≠ 0 ∧ r = 0 ∧ s ≠ 0) ∨ (c ≠ 0 ∧ r ≠ 0 ∧ s = 0) ∨ (c ≠ 0 ∧ r ≠ 0 ∧ s ≠ 0)))
    ∧ (∀ o, env.fetch p DHO_DHCP_REQUESTED_ADDRESS 4 = some o → IPAddress.ofData o = 0 →
        request_requested_ip env p = 0)
    ∧ (env.fetch p DHO_DHCP_REQUESTED_ADDRESS 4 = none → request_requested_ip env p = 0)
    ∧ (∀ o, env.fetch p DHO_DHCP_SERVER_IDENTIFIER 4 = some o → IPAddress.ofData o = 0 →
        request_server env p = 0)
    ∧ (env.fetch p DHO_DHCP_SERVER_IDENTIFIER 4 = none → request_server env p = 0)
    ∧ send_dhcp_ack_or_nak (drop_zero_options env) a port p
        = send_dhcp_ack_or_nak env a port p := by
  refine ⟨chain_shape_classify c r s, ?_, ?_, ?_, ?_, ?_, ?_, ?_, ?_, ?_, ?_, ?_, ?_,
    send_drop_zero env a port p⟩
  · rw [send_eq_send_by_shape, chain_shape_classify]
  · refine ⟨?_, ?_, ?_, ?_, ?_, ?_⟩ <;> tauto
  · intro tests hperm
    rcases shape_tests_cases c r s with ⟨hin, huniq⟩ | ⟨hun, hnone⟩
    · exact first_match_of_mem tests _ (hperm.mem_iff.mpr hin)
        (fun sh2 h2 => huniq sh2 (hperm.mem_iff.mp h2))
    · rw [hun]
      exact first_match_of_none tests (fun sh h => hnone sh (hperm.mem_iff.mp h))
  · by_cases hc : c = 0 <;> by_cases hr : r = 0 <;> by_cases hs : s = 0 <;>
      simp [chain_shape, hc, hr, hs]
  · by_cases hc : c = 0 <;> by_cases hr : r = 0 <;> by_cases hs : s = 0 <;>
      simp [chain_shape, hc, hr, hs]
  · by_cases hc : c = 0 <;> by_cases hr : r = 0 <;> by_cases hs : s = 0 <;>
      simp [chain_shape, hc, hr, hs]
  · by_cases hc : c = 0 <;> by_cases hr : r = 0 <;> by_cases hs : s = 0 <;>
      simp [chain_shape, hc, hr, hs]
  · by_cases hc : c = 0 <;> by_cases hr : r = 0 <;> by_cases hs : s = 0 <;>
      simp [chain_shape, hc, hr, hs]
  · intro o ho hz
    simp [request_requested_ip, ho, hz]
  · intro ho
    simp [request_requested_ip, ho]
  · intro o ho hz
    simp [request_server, ho, hz]
  · intro ho
    simp [request_server, ho]

/-- Example for claim C20: the request whose requested-address option carries
0.0.0.0 (with a server identifier and no `ciaddr`) is classified as no-state,
and handling it with the reversed order of the four tests gives the same
branch. -/
theorem send_chain_classifier_witness :
    request_requested_ip (example_env none ⟨100, 0⟩) example_zero_requested = 0
    ∧ chain_shape (request_msg example_zero_requested).ciaddr
        (request_requested_ip (example_env none ⟨100, 0⟩) example_zero_requested)
        (request_server (example_env none ⟨100, 0⟩) example_zero_requested)
      = RequestShape.no_state
    ∧ first_match (shape_tests 0 0 0xC0000201).reverse = chain_shape 0 0 0xC0000201 :=
  ⟨(send_chain_classifier (example_env none ⟨100, 0⟩) (example_agent [] []) 1
      example_zero_requested 0 0 0).2.2.2.2.2.2.2.2.2.1 [0, 0, 0, 0] (by decide) (by decide),
   by decide,
   (send_chain_classifier (example_env none ⟨100, 0⟩) (example_agent [] []) 1
      example_zero_requested 0 0 0xC0000201).2.2.2.1 _ (List.reverse_perm _)⟩

end SoftOffload
